import Mathlib

/-!
# Mixxx deck preferences page (`src/preferences/dialog/dlgprefdeck.cpp`)

A shallow embedding of `DlgPrefDeck` and of the state the page shares with the
rest of the application: the user settings (`m_pConfig`), the registry of
control objects that the `ControlProxy` mirrors point into, the static settings
of `RateControl`, and the widgets of the page.

Conventions of the embedding

* A C++ `double` is an exact rational (`ℚ`); `int` is `Int`; an enum member or
  variable is the `Int` it converts to.  Rounding of binary floating point is
  not represented.  The range of `int` is represented in two places: where the
  count of decks or samplers is converted to `int` (`staticCastInt`), and where
  the page computes with the legacy rate range index (`wrapInt`).  Elsewhere
  `toInt` stands for the conversion of a number whose truncation is an `int`.
* The enumerators (`CueMode::Mixxx`, `TrackTime::DisplayMode::REMAINING`, ...),
  `kDefaultCloneDeckOnLoad` and `PlayerManager::groupForDeck/groupForSampler`
  are declared outside `dlgprefdeck.cpp`; they are the fields of `Env`, and a
  theorem states what it needs of them as a hypothesis.
* An operation that indexes a `QList` with `[0]` returns `none` when the list
  is empty (the C++ has no defined result there).
* Qt signals are delivered synchronously: a widget setter that changes the
  widget calls the slots that `connect` attached to it, in place.
-/

namespace Mixxx

/-! ## Values, keys and the two stores -/

/-- The `ConfigKey` of Mixxx: a group such as `[Controls]` or `[Channel1]` and an item name. -/
structure ConfigKey where
  group : String
  item : String
deriving DecidableEq

/-- The conversion `static_cast<int>(double)` of a number whose truncation is an `int`:
truncation toward zero. -/
def toInt (d : ℚ) : Int := d.num.tdiv d.den

/-- The conversion `static_cast<double>(int)`. -/
def toDouble (i : Int) : ℚ := (i : ℚ)

/-- The conversion `static_cast<int>(bool)`. -/
def boolToInt (b : Bool) : Int := if b then 1 else 0

/-- The user settings behind `m_pConfig`: a partial map from keys to scalar values. -/
abbrev UserSettings := ConfigKey → Option ℚ

/-- The values of the application's control objects, addressed by key. -/
abbrev ControlValues := ConfigKey → ℚ

/-- The stored scalar read as an `int`, when it is a whole number. -/
def asInt (v : ℚ) : Option Int := if v.den = 1 then some v.num else none

/-- Modelled from the spec: `UserSettings::getValue<int>` is not part of the page's source.
A read falls back to the given default when the entry is absent (or is not a whole number). -/
def getValueInt (c : UserSettings) (k : ConfigKey) (dflt : Int) : Int :=
  match c k with
  | none => dflt
  | some v => (asInt v).getD dflt

/-- Modelled from the spec: `UserSettings::getValue<double>`; the default stands in for an
absent entry. -/
def getValueDouble (c : UserSettings) (k : ConfigKey) (dflt : ℚ) : ℚ :=
  (c k).getD dflt

/-- Modelled from the spec: `UserSettings::getValue<bool>`; a boolean is stored as 0 or 1 and
any other whole number reads as true; the default stands in for an absent entry. -/
def getValueBool (c : UserSettings) (k : ConfigKey) (dflt : Bool) : Bool :=
  match c k with
  | none => dflt
  | some v => ((asInt v).map (fun i => decide (i ≠ 0))).getD dflt

/-- The least value of a C++ `int` (32 bits). -/
def intMin : Int := -2147483648

/-- The greatest value of a C++ `int` (32 bits). -/
def intMax : Int := 2147483647

/-- The conversion `static_cast<int>(double)` of a number that need not fit an `int`:
truncation toward zero when the truncated value is an `int`.  (C++ leaves the conversion of
any other number undefined; the embedding takes `INT_MIN`, the value the conversion
instruction of x86-64 yields.) -/
def staticCastInt (d : ℚ) : Int :=
  if intMin ≤ toInt d ∧ toInt d ≤ intMax then toInt d else intMin

/-- The value an `int` holds after an arithmetic operation whose exact result is `x`: the
32-bit two's complement representative of `x`.  (C++ leaves a signed operation that
overflows undefined; the embedding takes the wrapped value, which is what the arithmetic
instructions of the supported platforms yield.) -/
def wrapInt (x : Int) : Int := (x + 2147483648) % 4294967296 - 2147483648

/-- Modelled from the spec: `getValueString(key).toInt()`, which is 0 for an entry that is
absent, not a whole number, or outside the range of `int`. -/
def getValueStringToInt (c : UserSettings) (k : ConfigKey) : Int :=
  match c k with
  | none => 0
  | some v =>
    match asInt v with
    | none => 0
    | some i => if intMin ≤ i ∧ i ≤ intMax then i else 0

/-- Modelled from the spec: `UserSettings::exists`. -/
def configExists (c : UserSettings) (k : ConfigKey) : Bool := (c k).isSome

/-- Modelled from the spec: `UserSettings::set` / `setValue`, a write of one entry. -/
def configSet (c : UserSettings) (k : ConfigKey) (v : ℚ) : UserSettings :=
  fun k' => if k' = k then some v else c k'

/-- Modelled from the spec: `ControlProxy::set` / `ControlObject::set`, a write of one
control value.  A `set` made by the page itself does not call the page's own
`valueChanged` slots. -/
def controlSet (c : ControlValues) (p : ConfigKey) (v : ℚ) : ControlValues :=
  fun k => if k = p then v else c k

/-- The loop `for (ControlProxy* pControl : list) pControl->set(v)`. -/
def setEach (c : ControlValues) (ps : List ConfigKey) (v : ℚ) : ControlValues :=
  ps.foldl (fun acc p => controlSet acc p v) c

/-- The loop `for (ControlProxy* pControl : list) pControl->set(-1 * pControl->get())`. -/
def negateEach (c : ControlValues) (ps : List ConfigKey) : ControlValues :=
  ps.foldl (fun acc p => controlSet acc p (-1 * acc p)) c

/-- The group `[Controls]`. -/
def controlsGroup : String := "[Controls]"

/-- The key `ConfigKey("[Controls]", item)`. -/
def ck (item : String) : ConfigKey := ⟨controlsGroup, item⟩

/-! ## Constants declared outside the file -/

/-- The declarations `dlgprefdeck.cpp` uses from other files of the repository. -/
structure Env where
  groupForDeck : Int → String
  groupForSampler : Int → String
  kDefaultCloneDeckOnLoad : Bool
  Mixxx : Int
  MixxxNoBlinking : Int
  Pioneer : Int
  Denon : Int
  Numark : Int
  CueAndPlay : Int
  ELAPSED : Int
  REMAINING : Int
  ELAPSED_AND_REMAINING : Int
  TRADITIONAL : Int
  TRADITIONAL_COARSE : Int
  SECONDS : Int
  SECONDS_LONG : Int
  KILO_SECONDS : Int
  IntroStart : Int
  MainCue : Int
  FirstSound : Int
  Beginning : Int
  LockOriginalKey : Int
  LockCurrentKey : Int
  ResetLockedKey : Int
  KeepLockedKey : Int
  RESET_NONE : Int
  RESET_PITCH : Int
  RESET_SPEED : Int
  RESET_PITCH_AND_SPEED : Int
  Stepping : Int
  Linear : Int

/-- The constant `kDefaultRateRangePercent`. -/
def kDefaultRateRangePercent : Int := 8
/-- The constant `kRateDirectionInverted`. -/
def kRateDirectionInverted : ℚ := -1
/-- The constant `kDefaultTemporaryRateChangeCoarse` (percent). -/
def kDefaultTemporaryRateChangeCoarse : ℚ := 4
/-- The constant `kDefaultTemporaryRateChangeFine`. -/
def kDefaultTemporaryRateChangeFine : ℚ := 2
/-- The constant `kDefaultPermanentRateChangeCoarse`. -/
def kDefaultPermanentRateChangeCoarse : ℚ := 1 / 2
/-- The constant `kDefaultPermanentRateChangeFine`. -/
def kDefaultPermanentRateChangeFine : ℚ := 1 / 20
/-- The constant `kDefaultRateRampSensitivity`. -/
def kDefaultRateRampSensitivity : Int := 250

/-! ## Widgets -/

/-- A `QComboBox`: the user data of its items, in order, and the current index
(-1 when no item is current). -/
structure QComboBox where
  items : List ℚ
  currentIndex : Int

namespace QComboBox

/-- The index of the first item equal to `d`, counted from `i`, or -1. -/
def findFrom (d : ℚ) : List ℚ → Int → Int
  | [], _ => -1
  | x :: xs, i => if x = d then i else findFrom d xs (i + 1)

/-- The method `QComboBox::findData`: the first index whose data equals `d`, or -1. -/
def findData (c : QComboBox) (d : ℚ) : Int := findFrom d c.items 0

/-- The method `QComboBox::itemData`: the data at `i`, or an invalid variant. -/
def itemData (c : QComboBox) (i : Int) : Option ℚ :=
  if 0 ≤ i then c.items.get? i.toNat else none

/-- The method `QComboBox::count`. -/
def count (c : QComboBox) : Int := c.items.length

/-- The index the combo box holds after `setCurrentIndex(i)`: `i` when it names an item,
-1 otherwise. -/
def normIndex (c : QComboBox) (i : Int) : Int :=
  if 0 ≤ i ∧ i < c.count then i else -1

/-- The method `QComboBox::addItem` on a combo box with no slot attached: the item is
appended, and it becomes current when the box was empty. -/
def addItem (c : QComboBox) (d : ℚ) : QComboBox :=
  { items := c.items ++ [d],
    currentIndex := if c.items = [] then 0 else c.currentIndex }

/-- The method `QComboBox::clear` on a combo box with no slot attached. -/
def clear (_c : QComboBox) : QComboBox := { items := [], currentIndex := -1 }

end QComboBox

/-- The conversion `QVariant::toInt`: 0 for an invalid variant, the nearest whole number for
a number. -/
def variantToInt : Option ℚ → Int
  | none => 0
  | some v => round v

/-- The conversion `QVariant::toDouble`: 0 for an invalid variant. -/
def variantToDouble : Option ℚ → ℚ
  | none => 0
  | some v => v

/-- A `QSlider`: its value, and the clamping to the range the form gives it. -/
structure QSlider where
  value : Int
  bound : Int → Int

/-- A `QDoubleSpinBox`: its value, and the rounding and clamping the form gives it. -/
structure QDoubleSpinBox where
  value : ℚ
  bound : ℚ → ℚ

/-! ## The page -/

/-- The state of a `DlgPrefDeck` together with the state it reads and writes. -/
structure DlgPrefDeck where
  /-- user settings -/
  m_pConfig : UserSettings
  /-- control objects, among them `[Controls],ShowDurationRemaining`, `[Controls],TimeFormat`,
  `[Master],num_decks` and `[Master],num_samplers` -/
  controls : ControlValues
  /-- static settings of `RateControl` -/
  rateRampMode : Int
  rateRampSensitivity : Int
  temporaryRateChangeCoarse : ℚ
  temporaryRateChangeFine : ℚ
  permanentRateChangeCoarse : ℚ
  permanentRateChangeFine : ℚ
  /-- mirror lists -/
  m_rateControls : List ConfigKey
  m_rateRangeControls : List ConfigKey
  m_rateDirectionControls : List ConfigKey
  m_cueControls : List ConfigKey
  m_keylockModeControls : List ConfigKey
  m_keyunlockModeControls : List ConfigKey
  m_iNumConfiguredDecks : Int
  m_iNumConfiguredSamplers : Int
  /-- pending selections -/
  m_cueMode : Int
  m_timeDisplayMode : Int
  m_bDisallowTrackLoadToPlayingDeck : Bool
  m_seekOnLoadMode : Int
  m_bSetIntroStartAtMainCue : Bool
  m_bCloneDeckOnLoadDoubleTap : Bool
  m_bRateDownIncreasesSpeed : Bool
  m_iRateRangePercent : Int
  m_keylockMode : Int
  m_keyunlockMode : Int
  m_speedAutoReset : Bool
  m_pitchAutoReset : Bool
  m_bRateRamping : Int
  m_iRateRampSensitivity : Int
  m_dRateTempCoarse : ℚ
  m_dRateTempFine : ℚ
  m_dRatePermCoarse : ℚ
  m_dRatePermFine : ℚ
  /-- widgets -/
  ComboBoxCueMode : QComboBox
  comboBoxTimeFormat : QComboBox
  comboBoxLoadPoint : QComboBox
  ComboBoxRateRange : QComboBox
  radioButtonElapsed : Bool
  radioButtonRemaining : Bool
  radioButtonElapsedAndRemaining : Bool
  radioButtonOriginalKey : Bool
  radioButtonCurrentKey : Bool
  radioButtonResetUnlockedKey : Bool
  radioButtonKeepUnlockedKey : Bool
  radioButtonRateRampModeLinear : Bool
  radioButtonRateRampModeStepping : Bool
  checkBoxDisallowLoadToPlayingDeck : Bool
  checkBoxIntroStartMove : Bool
  checkBoxCloneDeckOnLoadDoubleTap : Bool
  checkBoxInvertSpeedSlider : Bool
  checkBoxResetSpeed : Bool
  checkBoxResetPitch : Bool
  SliderRateRampSensitivity : QSlider
  spinBoxTemporaryRateCoarse : QDoubleSpinBox
  spinBoxTemporaryRateFine : QDoubleSpinBox
  spinBoxPermanentRateCoarse : QDoubleSpinBox
  spinBoxPermanentRateFine : QDoubleSpinBox

namespace DlgPrefDeck

/-- The method `DlgPrefDeck::setRateRangeForAllDecks`. -/
def setRateRangeForAllDecks (s : DlgPrefDeck) (rangePercent : Int) : DlgPrefDeck :=
  { s with controls := setEach s.controls s.m_rateRangeControls (toDouble rangePercent / 100) }

/-- The body of `setRateDirectionForAllDecks`, `first` being `m_rateDirectionControls[0]`:
every rate direction mirror is set, and every rate is negated when the direction differs
from the one the first mirror held. -/
def applyRateDirection (s : DlgPrefDeck) (first : ConfigKey) (inverted : Bool) : DlgPrefDeck :=
  let oldRateDirectionMultiplier := s.controls first
  let rateDirectionMultiplier : ℚ := if inverted then kRateDirectionInverted else 1
  let c1 := setEach s.controls s.m_rateDirectionControls rateDirectionMultiplier
  { s with
    controls :=
      if rateDirectionMultiplier ≠ oldRateDirectionMultiplier then negateEach c1 s.m_rateControls
      else c1 }

/-- The method `DlgPrefDeck::setRateDirectionForAllDecks`. -/
def setRateDirectionForAllDecks (s : DlgPrefDeck) (inverted : Bool) : Option DlgPrefDeck :=
  match s.m_rateDirectionControls.head? with
  | none => none
  | some first => some (applyRateDirection s first inverted)

/-- One iteration of the loops of `slotNumDecksChanged` / `slotNumSamplersChanged`: six
proxies are appended for `group`, and the two key lock controls are set. -/
def addMirrors (s : DlgPrefDeck) (group : String) : DlgPrefDeck :=
  { s with
    m_rateControls := s.m_rateControls ++ [⟨group, "rate"⟩],
    m_rateRangeControls := s.m_rateRangeControls ++ [⟨group, "rateRange"⟩],
    m_rateDirectionControls := s.m_rateDirectionControls ++ [⟨group, "rate_dir"⟩],
    m_cueControls := s.m_cueControls ++ [⟨group, "cue_mode"⟩],
    m_keylockModeControls := s.m_keylockModeControls ++ [⟨group, "keylockMode"⟩],
    m_keyunlockModeControls := s.m_keyunlockModeControls ++ [⟨group, "keyunlockMode"⟩],
    controls :=
      controlSet (controlSet s.controls ⟨group, "keylockMode"⟩ (toDouble s.m_keylockMode))
        ⟨group, "keyunlockMode"⟩ (toDouble s.m_keyunlockMode) }

/-- The values `i = from, from + 1, ..., to - 1` of a counting `for` loop. -/
def loopIndices (lo hi : Int) : List Int :=
  (List.range (hi - lo).toNat).map (fun (k : Nat) => lo + (k : Int))

/-- The tail of `slotNumDecksChanged` / `slotNumSamplersChanged` when not initializing: the
rate direction and rate range of the first mirror are applied to all mirrors.  The product
`rateRange * 100.0` is the exact one; the rounding of the binary product is not
represented. -/
def propagateFirst (s : DlgPrefDeck) : Option DlgPrefDeck :=
  match s.m_rateDirectionControls.head? with
  | none => none
  | some d =>
    match setRateDirectionForAllDecks s (decide (s.controls d = kRateDirectionInverted)) with
    | none => none
    | some s1 =>
      match s1.m_rateRangeControls.head? with
      | none => none
      | some r => some (setRateRangeForAllDecks s1 (toInt (s1.controls r * 100)))

/-- The slot `DlgPrefDeck::slotNumDecksChanged`. -/
def slotNumDecksChanged (env : Env) (s : DlgPrefDeck) (new_count : ℚ) (initializing : Bool) :
    Option DlgPrefDeck :=
  let numdecks := staticCastInt new_count
  if numdecks ≤ s.m_iNumConfiguredDecks then some s
  else
    let s1 := (loopIndices s.m_iNumConfiguredDecks numdecks).foldl
      (fun acc i => addMirrors acc (env.groupForDeck i)) s
    let s2 := { s1 with m_iNumConfiguredDecks := numdecks }
    if initializing then some s2 else propagateFirst s2

/-- The slot `DlgPrefDeck::slotNumSamplersChanged`. -/
def slotNumSamplersChanged (env : Env) (s : DlgPrefDeck) (new_count : ℚ) (initializing : Bool) :
    Option DlgPrefDeck :=
  let numsamplers := staticCastInt new_count
  if numsamplers ≤ s.m_iNumConfiguredSamplers then some s
  else
    let s1 := (loopIndices s.m_iNumConfiguredSamplers numsamplers).foldl
      (fun acc i => addMirrors acc (env.groupForSampler i)) s
    let s2 := { s1 with m_iNumConfiguredSamplers := numsamplers }
    if initializing then some s2 else propagateFirst s2

/-! ### Slots that record a selection -/

/-- The slot `DlgPrefDeck::slotMoveIntroStartCheckbox`. -/
def slotMoveIntroStartCheckbox (s : DlgPrefDeck) (checked : Bool) : DlgPrefDeck :=
  { s with m_bSetIntroStartAtMainCue := checked }

/-- The slot `DlgPrefDeck::slotRateRangeComboBox`. -/
def slotRateRangeComboBox (s : DlgPrefDeck) (index : Int) : DlgPrefDeck :=
  { s with m_iRateRangePercent := variantToInt (s.ComboBoxRateRange.itemData index) }

/-- The slot `DlgPrefDeck::slotRateInversionCheckbox`. -/
def slotRateInversionCheckbox (s : DlgPrefDeck) (inverted : Bool) : DlgPrefDeck :=
  { s with m_bRateDownIncreasesSpeed := inverted }

/-- The slot `DlgPrefDeck::slotDisallowTrackLoadToPlayingDeckCheckbox`. -/
def slotDisallowTrackLoadToPlayingDeckCheckbox (s : DlgPrefDeck) (checked : Bool) : DlgPrefDeck :=
  { s with m_bDisallowTrackLoadToPlayingDeck := checked }

/-- The slot `DlgPrefDeck::slotCueModeCombobox`. -/
def slotCueModeCombobox (s : DlgPrefDeck) (index : Int) : DlgPrefDeck :=
  { s with m_cueMode := variantToInt (s.ComboBoxCueMode.itemData index) }

/-- The slot `DlgPrefDeck::slotCloneDeckOnLoadDoubleTapCheckbox`. -/
def slotCloneDeckOnLoadDoubleTapCheckbox (s : DlgPrefDeck) (checked : Bool) : DlgPrefDeck :=
  { s with m_bCloneDeckOnLoadDoubleTap := checked }

/-- The slot `DlgPrefDeck::slotRateTempCoarseSpinbox`. -/
def slotRateTempCoarseSpinbox (s : DlgPrefDeck) (value : ℚ) : DlgPrefDeck :=
  { s with m_dRateTempCoarse := value }

/-- The slot `DlgPrefDeck::slotRateTempFineSpinbox`. -/
def slotRateTempFineSpinbox (s : DlgPrefDeck) (value : ℚ) : DlgPrefDeck :=
  { s with m_dRateTempFine := value }

/-- The slot `DlgPrefDeck::slotRatePermCoarseSpinbox`. -/
def slotRatePermCoarseSpinbox (s : DlgPrefDeck) (value : ℚ) : DlgPrefDeck :=
  { s with m_dRatePermCoarse := value }

/-- The slot `DlgPrefDeck::slotRatePermFineSpinbox`. -/
def slotRatePermFineSpinbox (s : DlgPrefDeck) (value : ℚ) : DlgPrefDeck :=
  { s with m_dRatePermFine := value }

/-- The slot `DlgPrefDeck::slotRateRampSensitivitySlider`. -/
def slotRateRampSensitivitySlider (s : DlgPrefDeck) (value : Int) : DlgPrefDeck :=
  { s with m_iRateRampSensitivity := value }

/-- The slot `DlgPrefDeck::slotRateRampingModeLinearButton`. -/
def slotRateRampingModeLinearButton (env : Env) (s : DlgPrefDeck) (checked : Bool) : DlgPrefDeck :=
  if checked then { s with m_bRateRamping := env.Linear }
  else { s with m_bRateRamping := env.Stepping }

/-- The slot `DlgPrefDeck::slotSetTrackLoadMode`. -/
def slotSetTrackLoadMode (s : DlgPrefDeck) (comboboxIndex : Int) : DlgPrefDeck :=
  { s with m_seekOnLoadMode := variantToInt (s.comboBoxLoadPoint.itemData comboboxIndex) }

/-- The slot `DlgPrefDeck::slotUpdateSpeedAutoReset`. -/
def slotUpdateSpeedAutoReset (s : DlgPrefDeck) (b : Bool) : DlgPrefDeck :=
  { s with m_speedAutoReset := b }

/-- The slot `DlgPrefDeck::slotUpdatePitchAutoReset`. -/
def slotUpdatePitchAutoReset (s : DlgPrefDeck) (b : Bool) : DlgPrefDeck :=
  { s with m_pitchAutoReset := b }

/-! ### Radio buttons

The radio buttons of a group are exclusive: checking one unchecks the others.  Checking a
button from the program emits `toggled`, never the group's `buttonClicked`; the latter comes
from the user only. -/

/-- The radio buttons of the page, as the `QAbstractButton*` that `buttonClicked` passes. -/
inductive Button where
  | radioButtonElapsed
  | radioButtonRemaining
  | radioButtonElapsedAndRemaining
  | radioButtonOriginalKey
  | radioButtonCurrentKey
  | radioButtonResetUnlockedKey
  | radioButtonKeepUnlockedKey
deriving DecidableEq

/-- The call `radioButtonRemaining->setChecked(true)`. -/
def checkRemaining (s : DlgPrefDeck) : DlgPrefDeck :=
  { s with radioButtonRemaining := true, radioButtonElapsedAndRemaining := false,
           radioButtonElapsed := false }

/-- The call `radioButtonElapsedAndRemaining->setChecked(true)`. -/
def checkElapsedAndRemaining (s : DlgPrefDeck) : DlgPrefDeck :=
  { s with radioButtonRemaining := false, radioButtonElapsedAndRemaining := true,
           radioButtonElapsed := false }

/-- The call `radioButtonElapsed->setChecked(true)`. -/
def checkElapsed (s : DlgPrefDeck) : DlgPrefDeck :=
  { s with radioButtonRemaining := false, radioButtonElapsedAndRemaining := false,
           radioButtonElapsed := true }

/-- The call `radioButtonOriginalKey->setChecked(true)`. -/
def checkOriginalKey (s : DlgPrefDeck) : DlgPrefDeck :=
  { s with radioButtonOriginalKey := true, radioButtonCurrentKey := false }

/-- The call `radioButtonCurrentKey->setChecked(true)`. -/
def checkCurrentKey (s : DlgPrefDeck) : DlgPrefDeck :=
  { s with radioButtonOriginalKey := false, radioButtonCurrentKey := true }

/-- The call `radioButtonResetUnlockedKey->setChecked(true)`. -/
def checkResetUnlockedKey (s : DlgPrefDeck) : DlgPrefDeck :=
  { s with radioButtonResetUnlockedKey := true, radioButtonKeepUnlockedKey := false }

/-- The call `radioButtonKeepUnlockedKey->setChecked(true)`. -/
def checkKeepUnlockedKey (s : DlgPrefDeck) : DlgPrefDeck :=
  { s with radioButtonResetUnlockedKey := false, radioButtonKeepUnlockedKey := true }

/-- The call `radioButtonRateRampModeLinear->setChecked(true)`, with `toggled` of the linear
button connected to `slotRateRampingModeLinearButton`. -/
def checkRateRampModeLinear (env : Env) (s : DlgPrefDeck) : DlgPrefDeck :=
  let s1 := { s with radioButtonRateRampModeLinear := true,
                     radioButtonRateRampModeStepping := false }
  if s.radioButtonRateRampModeLinear then s1 else slotRateRampingModeLinearButton env s1 true

/-- The call `radioButtonRateRampModeStepping->setChecked(true)`; the linear button is toggled
off when it was on. -/
def checkRateRampModeStepping (env : Env) (s : DlgPrefDeck) : DlgPrefDeck :=
  let s1 := { s with radioButtonRateRampModeLinear := false,
                     radioButtonRateRampModeStepping := true }
  if s.radioButtonRateRampModeLinear then slotRateRampingModeLinearButton env s1 false else s1

/-- The slot `DlgPrefDeck::slotKeyLockModeSelected` (a click of the user). -/
def slotKeyLockModeSelected (env : Env) (s : DlgPrefDeck) (pressedButton : Button) : DlgPrefDeck :=
  if pressedButton = Button.radioButtonCurrentKey then
    { s with m_keylockMode := env.LockCurrentKey }
  else { s with m_keylockMode := env.LockOriginalKey }

/-- The slot `DlgPrefDeck::slotKeyUnlockModeSelected` (a click of the user). -/
def slotKeyUnlockModeSelected (env : Env) (s : DlgPrefDeck) (pressedButton : Button) :
    DlgPrefDeck :=
  if pressedButton = Button.radioButtonResetUnlockedKey then
    { s with m_keyunlockMode := env.ResetLockedKey }
  else { s with m_keyunlockMode := env.KeepLockedKey }

/-- The slot `DlgPrefDeck::slotSetTrackTimeDisplay(QAbstractButton*)` (a click of the user). -/
def slotSetTrackTimeDisplayButton (env : Env) (s : DlgPrefDeck) (b : Button) : DlgPrefDeck :=
  if b = Button.radioButtonRemaining then { s with m_timeDisplayMode := env.REMAINING }
  else if b = Button.radioButtonElapsedAndRemaining then
    { s with m_timeDisplayMode := env.ELAPSED_AND_REMAINING }
  else { s with m_timeDisplayMode := env.ELAPSED }

/-- The slot `DlgPrefDeck::slotSetTrackTimeDisplay(double)`. -/
def slotSetTrackTimeDisplay (env : Env) (s : DlgPrefDeck) (v : ℚ) : DlgPrefDeck :=
  let s1 := { s with m_timeDisplayMode := toInt v,
                     m_pConfig := configSet s.m_pConfig (ck "PositionDisplay") v }
  if s1.m_timeDisplayMode = env.REMAINING then checkRemaining s1
  else if s1.m_timeDisplayMode = env.ELAPSED_AND_REMAINING then checkElapsedAndRemaining s1
  else checkElapsed s1

/-! ### Widget setters with their connected slots -/

/-- The call `checkBoxIntroStartMove->setChecked(b)` once `toggled` is connected. -/
def setIntroStartMove (s : DlgPrefDeck) (b : Bool) : DlgPrefDeck :=
  if s.checkBoxIntroStartMove = b then s
  else slotMoveIntroStartCheckbox { s with checkBoxIntroStartMove := b } b

/-- The call `checkBoxDisallowLoadToPlayingDeck->setChecked(b)` once `toggled` is connected. -/
def setDisallowLoadToPlayingDeck (s : DlgPrefDeck) (b : Bool) : DlgPrefDeck :=
  if s.checkBoxDisallowLoadToPlayingDeck = b then s
  else slotDisallowTrackLoadToPlayingDeckCheckbox
    { s with checkBoxDisallowLoadToPlayingDeck := b } b

/-- The call `checkBoxCloneDeckOnLoadDoubleTap->setChecked(b)` once `toggled` is connected. -/
def setCloneDeckOnLoadDoubleTap (s : DlgPrefDeck) (b : Bool) : DlgPrefDeck :=
  if s.checkBoxCloneDeckOnLoadDoubleTap = b then s
  else slotCloneDeckOnLoadDoubleTapCheckbox { s with checkBoxCloneDeckOnLoadDoubleTap := b } b

/-- The call `checkBoxInvertSpeedSlider->setChecked(b)` once `toggled` is connected. -/
def setInvertSpeedSlider (s : DlgPrefDeck) (b : Bool) : DlgPrefDeck :=
  if s.checkBoxInvertSpeedSlider = b then s
  else slotRateInversionCheckbox { s with checkBoxInvertSpeedSlider := b } b

/-- The call `checkBoxResetSpeed->setChecked(b)` once `toggled` is connected. -/
def setResetSpeed (s : DlgPrefDeck) (b : Bool) : DlgPrefDeck :=
  if s.checkBoxResetSpeed = b then s
  else slotUpdateSpeedAutoReset { s with checkBoxResetSpeed := b } b

/-- The call `checkBoxResetPitch->setChecked(b)` once `toggled` is connected. -/
def setResetPitch (s : DlgPrefDeck) (b : Bool) : DlgPrefDeck :=
  if s.checkBoxResetPitch = b then s
  else slotUpdatePitchAutoReset { s with checkBoxResetPitch := b } b

/-- The call `ComboBoxRateRange->setCurrentIndex(i)` once `currentIndexChanged` is connected:
an index that names no item clears the selection, and a change of the current index is
passed to `slotRateRangeComboBox`. -/
def setRateRangeIndex (s : DlgPrefDeck) (i : Int) : DlgPrefDeck :=
  let j := s.ComboBoxRateRange.normIndex i
  if j = s.ComboBoxRateRange.currentIndex then s
  else slotRateRangeComboBox
    { s with ComboBoxRateRange := { s.ComboBoxRateRange with currentIndex := j } } j

/-- The call `ComboBoxRateRange->addItem(text, d)` once `currentIndexChanged` is connected. -/
def addRateRangeItem (s : DlgPrefDeck) (d : ℚ) : DlgPrefDeck :=
  let c := s.ComboBoxRateRange.addItem d
  if c.currentIndex = s.ComboBoxRateRange.currentIndex then { s with ComboBoxRateRange := c }
  else slotRateRangeComboBox { s with ComboBoxRateRange := c } c.currentIndex

/-- The call `ComboBoxCueMode->setCurrentIndex(i)` once `currentIndexChanged` is connected. -/
def setCueModeIndex (s : DlgPrefDeck) (i : Int) : DlgPrefDeck :=
  let j := s.ComboBoxCueMode.normIndex i
  if j = s.ComboBoxCueMode.currentIndex then s
  else slotCueModeCombobox
    { s with ComboBoxCueMode := { s.ComboBoxCueMode with currentIndex := j } } j

/-- The call `comboBoxLoadPoint->setCurrentIndex(i)` once `currentIndexChanged` is connected. -/
def setLoadPointIndex (s : DlgPrefDeck) (i : Int) : DlgPrefDeck :=
  let j := s.comboBoxLoadPoint.normIndex i
  if j = s.comboBoxLoadPoint.currentIndex then s
  else slotSetTrackLoadMode
    { s with comboBoxLoadPoint := { s.comboBoxLoadPoint with currentIndex := j } } j

/-- The call `SliderRateRampSensitivity->setValue(v)` once `valueChanged` is connected to
`slotRateRampSensitivitySlider`.  The spin box that mirrors the slider is not represented. -/
def setRateRampSensitivitySlider (s : DlgPrefDeck) (v : Int) : DlgPrefDeck :=
  let w := s.SliderRateRampSensitivity.bound v
  if w = s.SliderRateRampSensitivity.value then s
  else slotRateRampSensitivitySlider
    { s with SliderRateRampSensitivity := { s.SliderRateRampSensitivity with value := w } } w

/-- The call `spinBoxTemporaryRateCoarse->setValue(v)` with `valueChanged` connected. -/
def setTemporaryRateCoarse (s : DlgPrefDeck) (v : ℚ) : DlgPrefDeck :=
  let w := s.spinBoxTemporaryRateCoarse.bound v
  if w = s.spinBoxTemporaryRateCoarse.value then s
  else slotRateTempCoarseSpinbox
    { s with spinBoxTemporaryRateCoarse := { s.spinBoxTemporaryRateCoarse with value := w } } w

/-- The call `spinBoxTemporaryRateFine->setValue(v)` with `valueChanged` connected. -/
def setTemporaryRateFine (s : DlgPrefDeck) (v : ℚ) : DlgPrefDeck :=
  let w := s.spinBoxTemporaryRateFine.bound v
  if w = s.spinBoxTemporaryRateFine.value then s
  else slotRateTempFineSpinbox
    { s with spinBoxTemporaryRateFine := { s.spinBoxTemporaryRateFine with value := w } } w

/-- The call `spinBoxPermanentRateCoarse->setValue(v)` with `valueChanged` connected. -/
def setPermanentRateCoarse (s : DlgPrefDeck) (v : ℚ) : DlgPrefDeck :=
  let w := s.spinBoxPermanentRateCoarse.bound v
  if w = s.spinBoxPermanentRateCoarse.value then s
  else slotRatePermCoarseSpinbox
    { s with spinBoxPermanentRateCoarse := { s.spinBoxPermanentRateCoarse with value := w } } w

/-- The call `spinBoxPermanentRateFine->setValue(v)` with `valueChanged` connected. -/
def setPermanentRateFine (s : DlgPrefDeck) (v : ℚ) : DlgPrefDeck :=
  let w := s.spinBoxPermanentRateFine.bound v
  if w = s.spinBoxPermanentRateFine.value then s
  else slotRatePermFineSpinbox
    { s with spinBoxPermanentRateFine := { s.spinBoxPermanentRateFine with value := w } } w

/-! ### `slotUpdate`, `slotResetToDefaults`, `slotApply` -/

/-- The method `DlgPrefDeck::cueDefaultIndexByData`. -/
def cueDefaultIndexByData (s : DlgPrefDeck) (userData : Int) : Int :=
  ((loopIndices 0 s.ComboBoxCueMode.count).find?
    (fun i => decide (variantToInt (s.ComboBoxCueMode.itemData i) = userData))).getD 0

/-- Lines 442-447 of `slotUpdate`, `rateRange` being the value of the first rate range
mirror: the percentage is looked up among the items of `ComboBoxRateRange`; an item is added
when none is found; the index that was looked up is made current.  The product
`rateRange * 100.` is the exact one; the rounding of the binary product, which can leave
the data of the added item a little off the whole percent, is not represented. -/
def showRateRange (s : DlgPrefDeck) (rateRange : ℚ) : DlgPrefDeck :=
  let index := s.ComboBoxRateRange.findData (toDouble (toInt (rateRange * 100)))
  let s1 := if index = -1 then addRateRangeItem s (rateRange * 100) else s
  setRateRangeIndex s1 index

/-- What `showRateRange` makes of `ComboBoxRateRange` and of the pending rate range percent:
the effect of lines 442-447 on the two members they touch. -/
def rateRangeShown (box : QComboBox) (pending : Int) (rateRange : ℚ) : QComboBox × Int :=
  let index := box.findData (toDouble (toInt (rateRange * 100)))
  let box1 := if index = -1 then box.addItem (rateRange * 100) else box
  let pending1 :=
    if index = -1 then
      if (box.addItem (rateRange * 100)).currentIndex = box.currentIndex then pending
      else variantToInt ((box.addItem (rateRange * 100)).itemData
        (box.addItem (rateRange * 100)).currentIndex)
    else pending
  ({ box1 with currentIndex := box1.normIndex index },
    if box1.normIndex index = box1.currentIndex then pending1
    else variantToInt (box1.itemData (box1.normIndex index)))

/-- Lines 441-447 of `slotUpdate`. -/
def updateRateRange (s : DlgPrefDeck) : Option DlgPrefDeck :=
  match s.m_rateRangeControls.head? with
  | none => none
  | some p => some (showRateRange s (s.controls p))

/-- Line 450 of `slotUpdate`, `rateDirection` being the value of the first rate direction
mirror. -/
def showRateDirection (s : DlgPrefDeck) (rateDirection : ℚ) : DlgPrefDeck :=
  setInvertSpeedSlider s (decide (rateDirection = kRateDirectionInverted))

/-- Lines 449-450 of `slotUpdate`. -/
def updateRateDirection (s : DlgPrefDeck) : Option DlgPrefDeck :=
  match s.m_rateDirectionControls.head? with
  | none => none
  | some p => some (showRateDirection s (s.controls p))

/-- Lines 453-454 of `slotUpdate`, `cueMode` being the value of the first cue mode mirror. -/
def showCueMode (s : DlgPrefDeck) (cueMode : ℚ) : DlgPrefDeck :=
  setCueModeIndex s (s.ComboBoxCueMode.findData (toDouble (toInt cueMode)))

/-- Lines 452-454 of `slotUpdate`. -/
def updateCueMode (s : DlgPrefDeck) : Option DlgPrefDeck :=
  match s.m_cueControls.head? with
  | none => none
  | some p => some (showCueMode s (s.controls p))

/-- Lines 458-462 of `slotUpdate`, `v` being the value of the first key lock mirror. -/
def showKeylockMode (env : Env) (s : DlgPrefDeck) (v : ℚ) : DlgPrefDeck :=
  if toInt v = env.LockCurrentKey then checkCurrentKey s else checkOriginalKey s

/-- Lines 456-462 of `slotUpdate`. -/
def updateKeylockMode (env : Env) (s : DlgPrefDeck) : Option DlgPrefDeck :=
  match s.m_keylockModeControls.head? with
  | none => none
  | some p => some (showKeylockMode env s (s.controls p))

/-- Lines 466-470 of `slotUpdate`, `v` being the value of the first key unlock mirror. -/
def showKeyunlockMode (env : Env) (s : DlgPrefDeck) (v : ℚ) : DlgPrefDeck :=
  if toInt v = env.KeepLockedKey then checkKeepUnlockedKey s else checkResetUnlockedKey s

/-- Lines 464-470 of `slotUpdate`. -/
def updateKeyunlockMode (env : Env) (s : DlgPrefDeck) : Option DlgPrefDeck :=
  match s.m_keyunlockModeControls.head? with
  | none => none
  | some p => some (showKeyunlockMode env s (s.controls p))

/-- Lines 472-486 of `slotUpdate`: the check boxes follow the stored `SpeedAutoReset`. -/
def updateAutoReset (env : Env) (s : DlgPrefDeck) : DlgPrefDeck :=
  let reset := getValueInt s.m_pConfig (ck "SpeedAutoReset") env.RESET_PITCH
  if reset = env.RESET_PITCH then setResetSpeed (setResetPitch s true) false
  else if reset = env.RESET_SPEED then setResetSpeed (setResetPitch s false) true
  else if reset = env.RESET_PITCH_AND_SPEED then setResetSpeed (setResetPitch s true) true
  else if reset = env.RESET_NONE then setResetSpeed (setResetPitch s false) false
  else s

/-- The radio button of the pending ramp mode is checked (lines 374-378 and 488-492). -/
def showRampMode (env : Env) (s : DlgPrefDeck) : DlgPrefDeck :=
  if s.m_bRateRamping = env.Linear then checkRateRampModeLinear env s
  else checkRateRampModeStepping env s

/-- The state of `checkBoxResetPitch` after lines 472-486 of `slotUpdate`, for the stored
code `reset` and the previous state `old` of the box. -/
def shownResetPitch (env : Env) (reset : Int) (old : Bool) : Bool :=
  if reset = env.RESET_PITCH then true
  else if reset = env.RESET_SPEED then false
  else if reset = env.RESET_PITCH_AND_SPEED then true
  else if reset = env.RESET_NONE then false
  else old

/-- The state of `checkBoxResetSpeed` after lines 472-486 of `slotUpdate`, for the stored
code `reset` and the previous state `old` of the box. -/
def shownResetSpeed (env : Env) (reset : Int) (old : Bool) : Bool :=
  if reset = env.RESET_PITCH then false
  else if reset = env.RESET_SPEED then true
  else if reset = env.RESET_PITCH_AND_SPEED then true
  else if reset = env.RESET_NONE then false
  else old

/-- Lines 488-501 of `slotUpdate`. -/
def updateRates (env : Env) (s : DlgPrefDeck) : DlgPrefDeck :=
  let s1 := showRampMode env s
  let s2 := setRateRampSensitivitySlider s1
    (getValueInt s1.m_pConfig (ck "RateRampSensitivity") kDefaultRateRampSensitivity)
  let s3 := setTemporaryRateCoarse s2 s2.temporaryRateChangeCoarse
  let s4 := setTemporaryRateFine s3 s3.temporaryRateChangeFine
  let s5 := setPermanentRateCoarse s4 s4.permanentRateChangeCoarse
  setPermanentRateFine s5 s5.permanentRateChangeFine

/-- Lines 430-439 of `slotUpdate`. -/
def updateChecks (env : Env) (s : DlgPrefDeck) : DlgPrefDeck :=
  let s1 := setIntroStartMove s (getValueBool s.m_pConfig (ck "SetIntroStartAtMainCue") false)
  let s2 := slotSetTrackTimeDisplay env s1 (s1.controls (ck "ShowDurationRemaining"))
  let s3 := setDisallowLoadToPlayingDeck s2
    (!getValueBool s2.m_pConfig (ck "AllowTrackLoadToPlayingDeck") false)
  setCloneDeckOnLoadDoubleTap s3 (getValueBool s3.m_pConfig (ck "CloneDeckOnLoadDoubleTap") true)

/-- The method `DlgPrefDeck::slotUpdate`. -/
def slotUpdate (env : Env) (s : DlgPrefDeck) : Option DlgPrefDeck :=
  (updateRateRange (updateChecks env s)).bind fun s1 =>
  (updateRateDirection s1).bind fun s2 =>
  (updateCueMode s2).bind fun s3 =>
  (updateKeylockMode env s3).bind fun s4 =>
  (updateKeyunlockMode env s4).bind fun s5 =>
  some (updateRates env (updateAutoReset env s5))

/-- The method `DlgPrefDeck::slotResetToDefaults`. -/
def slotResetToDefaults (env : Env) (s : DlgPrefDeck) : DlgPrefDeck :=
  let s1 := checkRemaining s
  let s2 := setInvertSpeedSlider s1 false
  let s3 := setRateRangeIndex s2 (s2.ComboBoxRateRange.findData (toDouble kDefaultRateRangePercent))
  let s4 := setDisallowLoadToPlayingDeck s3 true
  let s5 := setCloneDeckOnLoadDoubleTap s4 env.kDefaultCloneDeckOnLoad
  let s6 := setCueModeIndex s5 0
  let s7 := setLoadPointIndex s6 (s6.comboBoxLoadPoint.findData (toDouble env.IntroStart))
  let s8 := checkRateRampModeStepping env s7
  let s9 := setRateRampSensitivitySlider s8 kDefaultRateRampSensitivity
  let s10 := setTemporaryRateCoarse s9 4
  let s11 := setTemporaryRateFine s10 2
  let s12 := setPermanentRateCoarse s11 (1 / 2)
  let s13 := setPermanentRateFine s12 (1 / 20)
  let s14 := setResetSpeed s13 false
  let s15 := setResetPitch s14 true
  checkResetUnlockedKey (checkOriginalKey s15)

/-- The code that `slotApply` stores in `SpeedAutoReset` (lines 706-714). -/
def autoResetCode (env : Env) (s : DlgPrefDeck) : Int :=
  if s.m_speedAutoReset && s.m_pitchAutoReset then env.RESET_PITCH_AND_SPEED
  else if s.m_speedAutoReset then env.RESET_SPEED
  else if s.m_pitchAutoReset then env.RESET_PITCH
  else env.RESET_NONE

/-- Lines 672-700 of `slotApply`: everything before the rate direction. -/
def applyHead (s : DlgPrefDeck) : DlgPrefDeck :=
  let c1 := configSet s.m_pConfig (ck "SetIntroStartAtMainCue")
    (toDouble (boolToInt s.m_bSetIntroStartAtMainCue))
  let timeDisplay := toDouble s.m_timeDisplayMode
  let c2 := configSet c1 (ck "PositionDisplay") timeDisplay
  let v1 := controlSet s.controls (ck "ShowDurationRemaining") timeDisplay
  let timeFormat := variantToDouble (s.comboBoxTimeFormat.itemData s.comboBoxTimeFormat.currentIndex)
  let v2 := controlSet v1 (ck "TimeFormat") timeFormat
  let c3 := configSet c2 (ck "TimeFormat") timeFormat
  let v3 := setEach v2 s.m_cueControls (toDouble s.m_cueMode)
  let c4 := configSet c3 (ck "CueDefault") (toDouble s.m_cueMode)
  let c5 := configSet c4 (ck "AllowTrackLoadToPlayingDeck")
    (toDouble (boolToInt (!s.m_bDisallowTrackLoadToPlayingDeck)))
  let c6 := configSet c5 (ck "CueRecall") (toDouble s.m_seekOnLoadMode)
  let c7 := configSet c6 (ck "CloneDeckOnLoadDoubleTap")
    (toDouble (boolToInt s.m_bCloneDeckOnLoadDoubleTap))
  let s1 := setRateRangeForAllDecks { s with m_pConfig := c7, controls := v3 } s.m_iRateRangePercent
  { s1 with
    m_pConfig := configSet s1.m_pConfig (ck "RateRangePercent") (toDouble s.m_iRateRangePercent) }

/-- Lines 703-747 of `slotApply`: everything after the rate direction. -/
def applyTail (env : Env) (s : DlgPrefDeck) : DlgPrefDeck :=
  let c1 := configSet s.m_pConfig (ck "RateDir") (toDouble (boolToInt s.m_bRateDownIncreasesSpeed))
  let c2 := configSet c1 (ck "SpeedAutoReset") (toDouble (autoResetCode env s))
  let c3 := configSet c2 (ck "keylockMode") (toDouble s.m_keylockMode)
  let v1 := setEach s.controls s.m_keylockModeControls (toDouble s.m_keylockMode)
  let c4 := configSet c3 (ck "keyunlockMode") (toDouble s.m_keyunlockMode)
  let v2 := setEach v1 s.m_keyunlockModeControls (toDouble s.m_keyunlockMode)
  let c5 := configSet c4 (ck "RateRamp") (toDouble s.m_bRateRamping)
  let c6 := configSet c5 (ck "RateRampSensitivity") (toDouble s.m_iRateRampSensitivity)
  let c7 := configSet c6 (ck "RateTempLeft") s.m_dRateTempCoarse
  let c8 := configSet c7 (ck "RateTempRight") s.m_dRateTempFine
  let c9 := configSet c8 (ck "RatePermLeft") s.m_dRatePermCoarse
  let c10 := configSet c9 (ck "RatePermRight") s.m_dRatePermFine
  { s with
    m_pConfig := c10,
    controls := v2,
    rateRampMode := s.m_bRateRamping,
    rateRampSensitivity := s.m_iRateRampSensitivity,
    temporaryRateChangeCoarse := s.m_dRateTempCoarse,
    temporaryRateChangeFine := s.m_dRateTempFine,
    permanentRateChangeCoarse := s.m_dRatePermCoarse,
    permanentRateChangeFine := s.m_dRatePermFine }

/-- The method `DlgPrefDeck::slotApply`. -/
def slotApply (env : Env) (s : DlgPrefDeck) : Option DlgPrefDeck :=
  let s1 := applyHead s
  (setRateDirectionForAllDecks s1 s1.m_bRateDownIncreasesSpeed).map (applyTail env)

/-! ### The constructor -/

/-- Lines 48-59: the member initialisers, then the mirrors for the decks and samplers that
exist already. -/
def initMirrors (env : Env) (s0 : DlgPrefDeck) : Option DlgPrefDeck :=
  let s := { s0 with
    m_iNumConfiguredDecks := 0, m_iNumConfiguredSamplers := 0,
    m_rateControls := [], m_rateRangeControls := [], m_rateDirectionControls := [],
    m_cueControls := [], m_keylockModeControls := [], m_keyunlockModeControls := [] }
  (slotNumDecksChanged env s (s.controls ⟨"[Master]", "num_decks"⟩) true).bind fun s1 =>
  slotNumSamplersChanged env s1 (s1.controls ⟨"[Master]", "num_samplers"⟩) true

/-- Lines 61-78: the cue mode. -/
def initCueMode (env : Env) (s : DlgPrefDeck) : DlgPrefDeck :=
  let cueDefaultValue := getValueInt s.m_pConfig (ck "CueDefault") 0
  let box := (((((s.ComboBoxCueMode.addItem (toDouble env.Mixxx)).addItem
    (toDouble env.MixxxNoBlinking)).addItem (toDouble env.Pioneer)).addItem
    (toDouble env.Denon)).addItem (toDouble env.Numark)).addItem (toDouble env.CueAndPlay)
  let s1 := { s with ComboBoxCueMode := box }
  let cueModeIndex := cueDefaultIndexByData s1 cueDefaultValue
  let s2 := { s1 with ComboBoxCueMode :=
    { s1.ComboBoxCueMode with currentIndex := s1.ComboBoxCueMode.normIndex cueModeIndex } }
  let s3 := slotCueModeCombobox s2 cueModeIndex
  { s3 with controls := setEach s3.controls s3.m_cueControls (toDouble s3.m_cueMode) }

/-- Lines 84-107: the track time display. -/
def initTrackTimeDisplay (env : Env) (s : DlgPrefDeck) : DlgPrefDeck :=
  let positionDisplayType :=
    getValueDouble s.m_pConfig (ck "PositionDisplay") (toDouble env.ELAPSED_AND_REMAINING)
  if positionDisplayType = toDouble env.REMAINING then
    { checkRemaining s with
      controls := controlSet s.controls (ck "ShowDurationRemaining") (toDouble env.REMAINING) }
  else if positionDisplayType = toDouble env.ELAPSED_AND_REMAINING then
    { checkElapsedAndRemaining s with
      controls :=
        controlSet s.controls (ck "ShowDurationRemaining") (toDouble env.ELAPSED_AND_REMAINING) }
  else
    { checkElapsed s with
      controls := controlSet s.controls (ck "ShowDurationRemaining") (toDouble env.ELAPSED) }

/-- Lines 114-154: the time format. -/
def initTimeFormat (env : Env) (s : DlgPrefDeck) : DlgPrefDeck :=
  let box := (((((s.comboBoxTimeFormat.clear).addItem (toDouble env.TRADITIONAL)).addItem
    (toDouble env.TRADITIONAL_COARSE)).addItem (toDouble env.SECONDS)).addItem
    (toDouble env.SECONDS_LONG)).addItem (toDouble env.KILO_SECONDS)
  let time_format := toDouble (getValueInt s.m_pConfig (ck "TimeFormat") env.TRADITIONAL)
  { s with
    controls := controlSet s.controls (ck "TimeFormat") time_format,
    comboBoxTimeFormat := { box with currentIndex := box.normIndex (box.findData time_format) } }

/-- Lines 156-211: loading into a playing deck, the load point, the intro start option and
cloning. -/
def initLoad (env : Env) (s : DlgPrefDeck) : DlgPrefDeck :=
  let disallow := !getValueBool s.m_pConfig (ck "AllowTrackLoadToPlayingDeck") false
  let box := (((s.comboBoxLoadPoint.addItem (toDouble env.IntroStart)).addItem
    (toDouble env.MainCue)).addItem (toDouble env.FirstSound)).addItem (toDouble env.Beginning)
  let seekModeExisted := configExists s.m_pConfig (ck "CueRecall")
  let seekMode := getValueInt s.m_pConfig (ck "CueRecall") env.IntroStart
  let introStartMoveDefault :=
    (decide (seekMode = env.MainCue) || !seekModeExisted) &&
      !(decide (s.m_cueMode = env.Denon) || decide (s.m_cueMode = env.Numark))
  let setIntro := getValueBool s.m_pConfig (ck "SetIntroStartAtMainCue") introStartMoveDefault
  let clone := getValueBool s.m_pConfig (ck "CloneDeckOnLoadDoubleTap") true
  { s with
    m_bDisallowTrackLoadToPlayingDeck := disallow,
    checkBoxDisallowLoadToPlayingDeck := disallow,
    comboBoxLoadPoint := { box with currentIndex := box.normIndex (box.findData (toDouble seekMode)) },
    m_seekOnLoadMode := seekMode,
    m_bSetIntroStartAtMainCue := setIntro,
    m_pConfig := configSet s.m_pConfig (ck "SetIntroStartAtMainCue") (toDouble (boolToInt setIntro)),
    checkBoxIntroStartMove := setIntro,
    m_bCloneDeckOnLoadDoubleTap := clone,
    checkBoxCloneDeckOnLoadDoubleTap := clone }

/-- Lines 213-215: the rate direction. -/
def initRateDirection (s : DlgPrefDeck) : Option DlgPrefDeck :=
  let inverted := getValueBool s.m_pConfig (ck "RateDir") true
  match setRateDirectionForAllDecks { s with m_bRateDownIncreasesSpeed := inverted } inverted with
  | none => none
  | some s1 => some { s1 with checkBoxInvertSpeedSlider := inverted }

/-- The eight entries of `ComboBoxRateRange` (lines 221-229). -/
def rateRangePresets : List ℚ := [4, 6, 8, 10, 16, 24, 50, 90]

/-- Lines 235-249: the rate range percent read from the settings, the legacy index being
migrated when it is the only entry. -/
def storedRateRangePercent (c : UserSettings) : Int :=
  if configExists c (ck "RateRange") && !configExists c (ck "RateRangePercent") then
    let legacyIndex := getValueStringToInt c (ck "RateRange")
    if legacyIndex = 0 then 6
    else if legacyIndex = 1 then 8
    else wrapInt (wrapInt (legacyIndex - 1) * 10)
  else getValueInt c (ck "RateRangePercent") kDefaultRateRangePercent

/-- Lines 235-252: the rate range percent the constructor chooses. -/
def initialRateRangePercent (c : UserSettings) : Int :=
  let chosen := storedRateRangePercent c
  if ¬ (chosen > 0 ∧ chosen ≤ 90) then kDefaultRateRangePercent else chosen

/-- Lines 221-253: the rate range. -/
def initRateRange (s : DlgPrefDeck) : DlgPrefDeck :=
  let box := rateRangePresets.foldl (fun b d => b.addItem d) s.ComboBoxRateRange.clear
  let pct := initialRateRangePercent s.m_pConfig
  setRateRangeForAllDecks { s with ComboBoxRateRange := box, m_iRateRangePercent := pct } pct

/-- Lines 255-283: the key lock and key unlock modes. -/
def initKeylock (env : Env) (s : DlgPrefDeck) : DlgPrefDeck :=
  let keylockMode := getValueInt s.m_pConfig (ck "keylockMode") env.LockOriginalKey
  let v1 := setEach s.controls s.m_keylockModeControls (toDouble keylockMode)
  let keyunlockMode := getValueInt s.m_pConfig (ck "keyunlockMode") env.ResetLockedKey
  let v2 := setEach v1 s.m_keyunlockModeControls (toDouble keyunlockMode)
  { s with m_keylockMode := keylockMode, m_keyunlockMode := keyunlockMode, controls := v2 }

/-- Lines 296-315: the speed and pitch reset check boxes. -/
def initAutoReset (env : Env) (s : DlgPrefDeck) : DlgPrefDeck :=
  let configSPAutoReset := getValueInt s.m_pConfig (ck "SpeedAutoReset") env.RESET_PITCH
  let speed := decide (configSPAutoReset = env.RESET_SPEED) ||
    decide (configSPAutoReset = env.RESET_PITCH_AND_SPEED)
  let pitch := decide (configSPAutoReset = env.RESET_PITCH) ||
    decide (configSPAutoReset = env.RESET_PITCH_AND_SPEED)
  { s with m_speedAutoReset := speed, m_pitchAutoReset := pitch,
           checkBoxResetSpeed := speed, checkBoxResetPitch := pitch }

/-- Lines 317-378: the ramp sensitivity and the ramp mode.  The slider is set before its
slot is connected; the radio buttons are set after. -/
def initRamp (env : Env) (s : DlgPrefDeck) : DlgPrefDeck :=
  let sens := getValueInt s.m_pConfig (ck "RateRampSensitivity") kDefaultRateRampSensitivity
  let s1 := { s with
    m_iRateRampSensitivity := sens,
    SliderRateRampSensitivity :=
      { s.SliderRateRampSensitivity with value := s.SliderRateRampSensitivity.bound sens },
    m_bRateRamping := getValueInt s.m_pConfig (ck "RateRamp") env.Stepping }
  showRampMode env s1

/-- Lines 380-415: the four rate change amounts. -/
def initRateButtons (s : DlgPrefDeck) : DlgPrefDeck :=
  let s1 := { s with
    m_dRateTempCoarse :=
      getValueDouble s.m_pConfig (ck "RateTempLeft") kDefaultTemporaryRateChangeCoarse,
    m_dRateTempFine :=
      getValueDouble s.m_pConfig (ck "RateTempRight") kDefaultTemporaryRateChangeFine,
    m_dRatePermCoarse :=
      getValueDouble s.m_pConfig (ck "RatePermLeft") kDefaultPermanentRateChangeCoarse,
    m_dRatePermFine :=
      getValueDouble s.m_pConfig (ck "RatePermRight") kDefaultPermanentRateChangeFine }
  let s2 := setTemporaryRateCoarse s1 s1.m_dRateTempCoarse
  let s3 := setTemporaryRateFine s2 s2.m_dRateTempFine
  let s4 := setPermanentRateCoarse s3 s3.m_dRatePermCoarse
  let s5 := setPermanentRateFine s4 s4.m_dRatePermFine
  { s5 with
    temporaryRateChangeCoarse := s5.m_dRateTempCoarse,
    temporaryRateChangeFine := s5.m_dRateTempFine,
    permanentRateChangeCoarse := s5.m_dRatePermCoarse,
    permanentRateChangeFine := s5.m_dRatePermFine }

/-- The constructor up to, and without, its final call of `slotUpdate`.  The argument is the
state once `setupUi` has built the widgets: its settings, control values and widgets are
those the page starts from; its other members are not yet initialised. -/
def constructHead (env : Env) (s0 : DlgPrefDeck) : Option DlgPrefDeck :=
  (initMirrors env s0).bind fun s1 =>
  (initRateDirection (initLoad env (initTimeFormat env (initTrackTimeDisplay env
    (initCueMode env s1))))).map fun s2 =>
  initRateButtons (initRamp env (initAutoReset env (initKeylock env (initRateRange s2))))

/-- The constructor `DlgPrefDeck::DlgPrefDeck`. -/
def construct (env : Env) (s0 : DlgPrefDeck) : Option DlgPrefDeck :=
  (constructHead env s0).bind (slotUpdate env)

/-! ### Predicates used by the statements -/

/-- Every proxy of each of the six mirror lists of `s` is kept by `s'`, in place, at the
front of the same list. -/
def MirrorsKept (s s' : DlgPrefDeck) : Prop :=
  (∃ t, s'.m_rateControls = s.m_rateControls ++ t) ∧
  (∃ t, s'.m_rateRangeControls = s.m_rateRangeControls ++ t) ∧
  (∃ t, s'.m_rateDirectionControls = s.m_rateDirectionControls ++ t) ∧
  (∃ t, s'.m_cueControls = s.m_cueControls ++ t) ∧
  (∃ t, s'.m_keylockModeControls = s.m_keylockModeControls ++ t) ∧
  (∃ t, s'.m_keyunlockModeControls = s.m_keyunlockModeControls ++ t)

/-- The six mirror lists of `s` and `s'` are the same lists. -/
def SameMirrors (s s' : DlgPrefDeck) : Prop :=
  s'.m_rateControls = s.m_rateControls ∧
  s'.m_rateRangeControls = s.m_rateRangeControls ∧
  s'.m_rateDirectionControls = s.m_rateDirectionControls ∧
  s'.m_cueControls = s.m_cueControls ∧
  s'.m_keylockModeControls = s.m_keylockModeControls ∧
  s'.m_keyunlockModeControls = s.m_keyunlockModeControls

/-- A change of `[Master],num_decks` or `[Master],num_samplers`, as the page receives it:
the constructor passes `initializing = true`, the connected slots pass `false`. -/
inductive CountChange where
  | decks (new_count : ℚ) (initializing : Bool)
  | samplers (new_count : ℚ) (initializing : Bool)

/-- A sequence of calls of `slotNumDecksChanged` and `slotNumSamplersChanged`. -/
def applyCountChanges (env : Env) : List CountChange → DlgPrefDeck → Option DlgPrefDeck
  | [], s => some s
  | CountChange.decks n b :: cs, s =>
    (slotNumDecksChanged env s n b).bind (applyCountChanges env cs)
  | CountChange.samplers n b :: cs, s =>
    (slotNumSamplersChanged env s n b).bind (applyCountChanges env cs)

/-- The proxies of control `item` for decks `0 .. decks - 1` and samplers
`0 .. samplers - 1`, one each. -/
def expectedMirrors (env : Env) (decks samplers : Int) (item : String) : List ConfigKey :=
  (loopIndices 0 decks).map (fun i => ⟨env.groupForDeck i, item⟩) ++
    (loopIndices 0 samplers).map (fun i => ⟨env.groupForSampler i, item⟩)

/-- Each of the six mirror lists holds, in some order, exactly one proxy for each configured
deck index and one for each configured sampler index. -/
def OneMirrorEach (env : Env) (s : DlgPrefDeck) : Prop :=
  0 ≤ s.m_iNumConfiguredDecks ∧ 0 ≤ s.m_iNumConfiguredSamplers ∧
  List.Perm s.m_rateControls
    (expectedMirrors env s.m_iNumConfiguredDecks s.m_iNumConfiguredSamplers "rate") ∧
  List.Perm s.m_rateRangeControls
    (expectedMirrors env s.m_iNumConfiguredDecks s.m_iNumConfiguredSamplers "rateRange") ∧
  List.Perm s.m_rateDirectionControls
    (expectedMirrors env s.m_iNumConfiguredDecks s.m_iNumConfiguredSamplers "rate_dir") ∧
  List.Perm s.m_cueControls
    (expectedMirrors env s.m_iNumConfiguredDecks s.m_iNumConfiguredSamplers "cue_mode") ∧
  List.Perm s.m_keylockModeControls
    (expectedMirrors env s.m_iNumConfiguredDecks s.m_iNumConfiguredSamplers "keylockMode") ∧
  List.Perm s.m_keyunlockModeControls
    (expectedMirrors env s.m_iNumConfiguredDecks s.m_iNumConfiguredSamplers "keyunlockMode")

/-- Each of the six mirror lists has as many proxies as there are configured decks and
samplers. -/
def MirrorCounts (s : DlgPrefDeck) : Prop :=
  (s.m_rateControls.length : Int) = s.m_iNumConfiguredDecks + s.m_iNumConfiguredSamplers ∧
  (s.m_rateRangeControls.length : Int) = s.m_iNumConfiguredDecks + s.m_iNumConfiguredSamplers ∧
  (s.m_rateDirectionControls.length : Int) =
    s.m_iNumConfiguredDecks + s.m_iNumConfiguredSamplers ∧
  (s.m_cueControls.length : Int) = s.m_iNumConfiguredDecks + s.m_iNumConfiguredSamplers ∧
  (s.m_keylockModeControls.length : Int) =
    s.m_iNumConfiguredDecks + s.m_iNumConfiguredSamplers ∧
  (s.m_keyunlockModeControls.length : Int) =
    s.m_iNumConfiguredDecks + s.m_iNumConfiguredSamplers

/-- No group occurs twice in any of the six mirror lists. -/
def NoGroupRepeated (s : DlgPrefDeck) : Prop :=
  (s.m_rateControls.map ConfigKey.group).Nodup ∧
  (s.m_rateRangeControls.map ConfigKey.group).Nodup ∧
  (s.m_rateDirectionControls.map ConfigKey.group).Nodup ∧
  (s.m_cueControls.map ConfigKey.group).Nodup ∧
  (s.m_keylockModeControls.map ConfigKey.group).Nodup ∧
  (s.m_keyunlockModeControls.map ConfigKey.group).Nodup

/-- The page has no mirrors and no configured deck or sampler. -/
def NoMirrors (s : DlgPrefDeck) : Prop :=
  s.m_iNumConfiguredDecks = 0 ∧ s.m_iNumConfiguredSamplers = 0 ∧
  s.m_rateControls = [] ∧ s.m_rateRangeControls = [] ∧ s.m_rateDirectionControls = [] ∧
  s.m_cueControls = [] ∧ s.m_keylockModeControls = [] ∧ s.m_keyunlockModeControls = []

/-- The group names distinguish the players: two deck indices from 0 on, or two sampler
indices from 0 on, have different groups, and no deck shares its group with a sampler. -/
def GroupsDistinct (env : Env) : Prop :=
  (∀ i j : Int, 0 ≤ i → 0 ≤ j → env.groupForDeck i = env.groupForDeck j → i = j) ∧
  (∀ i j : Int, 0 ≤ i → 0 ≤ j → env.groupForSampler i = env.groupForSampler j → i = j) ∧
  (∀ i j : Int, 0 ≤ i → 0 ≤ j → env.groupForDeck i ≠ env.groupForSampler j)

/-- The six mirror lists of `s'` are those of `s` followed by one proxy for each group
`g i`, `i` in `is`. -/
def MirrorsAppended (g : Int → String) (is : List Int) (s s' : DlgPrefDeck) : Prop :=
  s'.m_rateControls = s.m_rateControls ++ is.map (fun i => ⟨g i, "rate"⟩) ∧
  s'.m_rateRangeControls = s.m_rateRangeControls ++ is.map (fun i => ⟨g i, "rateRange"⟩) ∧
  s'.m_rateDirectionControls =
    s.m_rateDirectionControls ++ is.map (fun i => ⟨g i, "rate_dir"⟩) ∧
  s'.m_cueControls = s.m_cueControls ++ is.map (fun i => ⟨g i, "cue_mode"⟩) ∧
  s'.m_keylockModeControls =
    s.m_keylockModeControls ++ is.map (fun i => ⟨g i, "keylockMode"⟩) ∧
  s'.m_keyunlockModeControls =
    s.m_keyunlockModeControls ++ is.map (fun i => ⟨g i, "keyunlockMode"⟩)

/-! ### Sample data for the instances of the theorems -/

/-- A group suffix: `i + 1` strokes. -/
def tally (i : Int) : String := String.mk (List.replicate (i.toNat + 1) '|')

/-- An environment with the enumerator values of Mixxx and group names that differ from
player to player. -/
def sampleEnv : Env where
  groupForDeck := fun i => "[Channel" ++ tally i ++ "]"
  groupForSampler := fun i => "[Sampler" ++ tally i ++ "]"
  kDefaultCloneDeckOnLoad := true
  Mixxx := 0
  MixxxNoBlinking := 4
  Pioneer := 1
  Denon := 2
  Numark := 3
  CueAndPlay := 5
  ELAPSED := 0
  REMAINING := 1
  ELAPSED_AND_REMAINING := 2
  TRADITIONAL := 0
  TRADITIONAL_COARSE := 1
  SECONDS := 2
  SECONDS_LONG := 3
  KILO_SECONDS := 4
  IntroStart := 3
  MainCue := 0
  FirstSound := 2
  Beginning := 1
  LockOriginalKey := 0
  LockCurrentKey := 1
  ResetLockedKey := 0
  KeepLockedKey := 1
  RESET_NONE := 0
  RESET_PITCH := 1
  RESET_SPEED := 3
  RESET_PITCH_AND_SPEED := 2
  Stepping := 0
  Linear := 1

/-- The range `[lo, hi]` of a slider. -/
def clampInt (lo hi v : Int) : Int := max lo (min hi v)

/-- The range `[lo, hi]` of a spin box. -/
def clampRat (lo hi v : ℚ) : ℚ := max lo (min hi v)

/-- A page as `setupUi` leaves it: empty combo boxes, nothing checked, sliders and spin
boxes at the low end of their range; no settings stored; two decks and one sampler
announced by `[Master]`. -/
def formPage : DlgPrefDeck where
  m_pConfig := fun _ => none
  controls := fun k =>
    if k = ⟨"[Master]", "num_decks"⟩ then 2
    else if k = ⟨"[Master]", "num_samplers"⟩ then 1 else 0
  rateRampMode := 0
  rateRampSensitivity := 0
  temporaryRateChangeCoarse := 0
  temporaryRateChangeFine := 0
  permanentRateChangeCoarse := 0
  permanentRateChangeFine := 0
  m_rateControls := []
  m_rateRangeControls := []
  m_rateDirectionControls := []
  m_cueControls := []
  m_keylockModeControls := []
  m_keyunlockModeControls := []
  m_iNumConfiguredDecks := 0
  m_iNumConfiguredSamplers := 0
  m_cueMode := 0
  m_timeDisplayMode := 0
  m_bDisallowTrackLoadToPlayingDeck := false
  m_seekOnLoadMode := 0
  m_bSetIntroStartAtMainCue := false
  m_bCloneDeckOnLoadDoubleTap := false
  m_bRateDownIncreasesSpeed := false
  m_iRateRangePercent := 0
  m_keylockMode := 0
  m_keyunlockMode := 0
  m_speedAutoReset := false
  m_pitchAutoReset := false
  m_bRateRamping := 0
  m_iRateRampSensitivity := 0
  m_dRateTempCoarse := 0
  m_dRateTempFine := 0
  m_dRatePermCoarse := 0
  m_dRatePermFine := 0
  ComboBoxCueMode := { items := [], currentIndex := -1 }
  comboBoxTimeFormat := { items := [], currentIndex := -1 }
  comboBoxLoadPoint := { items := [], currentIndex := -1 }
  ComboBoxRateRange := { items := [], currentIndex := -1 }
  radioButtonElapsed := false
  radioButtonRemaining := false
  radioButtonElapsedAndRemaining := false
  radioButtonOriginalKey := false
  radioButtonCurrentKey := false
  radioButtonResetUnlockedKey := false
  radioButtonKeepUnlockedKey := false
  radioButtonRateRampModeLinear := false
  radioButtonRateRampModeStepping := false
  checkBoxDisallowLoadToPlayingDeck := false
  checkBoxIntroStartMove := false
  checkBoxCloneDeckOnLoadDoubleTap := false
  checkBoxInvertSpeedSlider := false
  checkBoxResetSpeed := false
  checkBoxResetPitch := false
  SliderRateRampSensitivity := { value := 100, bound := clampInt 100 2500 }
  spinBoxTemporaryRateCoarse := { value := 0, bound := clampRat 0 100 }
  spinBoxTemporaryRateFine := { value := 0, bound := clampRat 0 100 }
  spinBoxPermanentRateCoarse := { value := 0, bound := clampRat 0 100 }
  spinBoxPermanentRateFine := { value := 0, bound := clampRat 0 100 }

/-- A page with the mirrors of one deck, the user having selected Pioneer cue mode, a rate
range of 10 percent and an inverted rate slider. -/
def oneDeckPage : DlgPrefDeck :=
  { formPage with
    m_rateControls := [⟨"[Channel|]", "rate"⟩],
    m_rateRangeControls := [⟨"[Channel|]", "rateRange"⟩],
    m_rateDirectionControls := [⟨"[Channel|]", "rate_dir"⟩],
    m_cueControls := [⟨"[Channel|]", "cue_mode"⟩],
    m_keylockModeControls := [⟨"[Channel|]", "keylockMode"⟩],
    m_keyunlockModeControls := [⟨"[Channel|]", "keyunlockMode"⟩],
    m_iNumConfiguredDecks := 1,
    m_cueMode := 1,
    m_iRateRangePercent := 10,
    m_bRateDownIncreasesSpeed := true }

/-! ### Predicates of `slotApply` -/

/-- Every proxy of a mirror list is a proxy of the control the list is named after. -/
def MirrorItems (s : DlgPrefDeck) : Prop :=
  (∀ p ∈ s.m_rateControls, p.item = "rate") ∧
  (∀ p ∈ s.m_rateRangeControls, p.item = "rateRange") ∧
  (∀ p ∈ s.m_rateDirectionControls, p.item = "rate_dir") ∧
  (∀ p ∈ s.m_cueControls, p.item = "cue_mode") ∧
  (∀ p ∈ s.m_keylockModeControls, p.item = "keylockMode") ∧
  (∀ p ∈ s.m_keyunlockModeControls, p.item = "keyunlockMode")

/-- The stored settings and the mirrors agree: cue mode, key lock and key unlock mode are
stored as the mirrors hold them, the rate range mirrors hold the stored percentage over 100,
and the rate direction mirrors hold -1 for a stored `RateDir` of 1 and +1 for 0. -/
def MirrorsAgree (s : DlgPrefDeck) : Prop :=
  (∀ p ∈ s.m_cueControls, s.m_pConfig (ck "CueDefault") = some (s.controls p)) ∧
  (∀ p ∈ s.m_keylockModeControls, s.m_pConfig (ck "keylockMode") = some (s.controls p)) ∧
  (∀ p ∈ s.m_keyunlockModeControls, s.m_pConfig (ck "keyunlockMode") = some (s.controls p)) ∧
  (∃ pct, s.m_pConfig (ck "RateRangePercent") = some pct ∧
    ∀ p ∈ s.m_rateRangeControls, s.controls p = pct / 100) ∧
  (s.m_pConfig (ck "RateDir") = some 1 ∨ s.m_pConfig (ck "RateDir") = some 0) ∧
  (s.m_pConfig (ck "RateDir") = some 1 → ∀ p ∈ s.m_rateDirectionControls, s.controls p = -1) ∧
  (s.m_pConfig (ck "RateDir") = some 0 → ∀ p ∈ s.m_rateDirectionControls, s.controls p = 1)

/-- The pending selections of `s` and `s'` are the same. -/
def SamePending (s s' : DlgPrefDeck) : Prop :=
  s'.m_cueMode = s.m_cueMode ∧
  s'.m_timeDisplayMode = s.m_timeDisplayMode ∧
  s'.m_bDisallowTrackLoadToPlayingDeck = s.m_bDisallowTrackLoadToPlayingDeck ∧
  s'.m_seekOnLoadMode = s.m_seekOnLoadMode ∧
  s'.m_bSetIntroStartAtMainCue = s.m_bSetIntroStartAtMainCue ∧
  s'.m_bCloneDeckOnLoadDoubleTap = s.m_bCloneDeckOnLoadDoubleTap ∧
  s'.m_bRateDownIncreasesSpeed = s.m_bRateDownIncreasesSpeed ∧
  s'.m_iRateRangePercent = s.m_iRateRangePercent ∧
  s'.m_keylockMode = s.m_keylockMode ∧
  s'.m_keyunlockMode = s.m_keyunlockMode ∧
  s'.m_speedAutoReset = s.m_speedAutoReset ∧
  s'.m_pitchAutoReset = s.m_pitchAutoReset ∧
  s'.m_bRateRamping = s.m_bRateRamping ∧
  s'.m_iRateRampSensitivity = s.m_iRateRampSensitivity ∧
  s'.m_dRateTempCoarse = s.m_dRateTempCoarse ∧
  s'.m_dRateTempFine = s.m_dRateTempFine ∧
  s'.m_dRatePermCoarse = s.m_dRatePermCoarse ∧
  s'.m_dRatePermFine = s.m_dRatePermFine

/-- The effects of a step from `s` to `s'` are confined to the `[Controls]` entries of the
settings and to control values: entries of other groups, the configured counts, the mirror
lists and the pending selections are the same. -/
def ApplyConfined (s s' : DlgPrefDeck) : Prop :=
  (∀ k : ConfigKey, k.group ≠ controlsGroup → s'.m_pConfig k = s.m_pConfig k) ∧
  s'.m_iNumConfiguredDecks = s.m_iNumConfiguredDecks ∧
  s'.m_iNumConfiguredSamplers = s.m_iNumConfiguredSamplers ∧
  SameMirrors s s' ∧ SamePending s s'

/-- The steps of `slotUpdate` in order, the five arguments being the values the first rate
range, rate direction, cue mode, key lock and key unlock mirrors hold. -/
def slotUpdateWith (env : Env) (s : DlgPrefDeck) (rateRange rateDirection cueMode keylock
    keyunlock : ℚ) : DlgPrefDeck :=
  updateRates env (updateAutoReset env (showKeyunlockMode env (showKeylockMode env
    (showCueMode (showRateDirection (showRateRange (updateChecks env s) rateRange)
      rateDirection) cueMode) keylock) keyunlock))

/-- The constructor's steps between the creation of the mirrors and the final `slotUpdate`,
`first` being `m_rateDirectionControls[0]`. -/
def constructStages (env : Env) (s1 : DlgPrefDeck) (first : ConfigKey) : DlgPrefDeck :=
  let s2 := initLoad env (initTimeFormat env (initTrackTimeDisplay env (initCueMode env s1)))
  let inverted := getValueBool s2.m_pConfig (ck "RateDir") true
  let s3 := applyRateDirection { s2 with m_bRateDownIncreasesSpeed := inverted } first inverted
  initRateButtons (initRamp env (initAutoReset env (initKeylock env
    (initRateRange { s3 with checkBoxInvertSpeedSlider := inverted }))))

/-- A write to the rate range of the first player that is made outside the page, by the
engine or by a controller script.  No slot of the page is connected to that control. -/
def setRateRangeOutside (s : DlgPrefDeck) (v : ℚ) : DlgPrefDeck :=
  match s.m_rateRangeControls with
  | [] => s
  | p :: _ => { s with controls := controlSet s.controls p v }

/-- The user clicks the radio button `Elapsed`: the button becomes the checked one of its
group, and the group reports the click to `slotSetTrackTimeDisplay(QAbstractButton*)`. -/
def clickElapsed (env : Env) (s : DlgPrefDeck) : DlgPrefDeck :=
  slotSetTrackTimeDisplayButton env (checkElapsed s) Button.radioButtonElapsed

/-- The user clicks the radio button `Lock current key`. -/
def clickCurrentKey (env : Env) (s : DlgPrefDeck) : DlgPrefDeck :=
  slotKeyLockModeSelected env (checkCurrentKey s) Button.radioButtonCurrentKey

/-- The user clicks the radio button `Keep locked key`. -/
def clickKeepUnlockedKey (env : Env) (s : DlgPrefDeck) : DlgPrefDeck :=
  slotKeyUnlockModeSelected env (checkKeepUnlockedKey s) Button.radioButtonKeepUnlockedKey

/-- The page after the user has clicked the radio buttons `Elapsed`, `Lock current key` and
`Keep locked key`, in that order. -/
def userClicks (env : Env) (s : DlgPrefDeck) : DlgPrefDeck :=
  clickKeepUnlockedKey env (clickCurrentKey env (clickElapsed env s))

/-- The items of `ComboBoxCueMode` once the constructor has added the six cue modes to the
items the form gave it. -/
def cueModeBox (env : Env) (box : QComboBox) : QComboBox :=
  (((((box.addItem (toDouble env.Mixxx)).addItem (toDouble env.MixxxNoBlinking)).addItem
    (toDouble env.Pioneer)).addItem (toDouble env.Denon)).addItem (toDouble env.Numark)).addItem
    (toDouble env.CueAndPlay)

/-- The index `cueDefaultIndexByData` returns for a combo box. -/
def indexByData (box : QComboBox) (userData : Int) : Int :=
  ((loopIndices 0 box.count).find?
    (fun i => decide (variantToInt (box.itemData i) = userData))).getD 0

/-- The rate range combo box as the constructor fills it: the eight presets, the first one
current. -/
def rateRangeBox : QComboBox := { items := rateRangePresets, currentIndex := 0 }

/-- The states `s` and `s'` differ at most in the mirror lists, the configured counts and
the control values. -/
def OnlyMirrorsDiffer (s s' : DlgPrefDeck) : Prop :=
  s' = { s with
    m_rateControls := s'.m_rateControls,
    m_rateRangeControls := s'.m_rateRangeControls,
    m_rateDirectionControls := s'.m_rateDirectionControls,
    m_cueControls := s'.m_cueControls,
    m_keylockModeControls := s'.m_keylockModeControls,
    m_keyunlockModeControls := s'.m_keyunlockModeControls,
    m_iNumConfiguredDecks := s'.m_iNumConfiguredDecks,
    m_iNumConfiguredSamplers := s'.m_iNumConfiguredSamplers,
    controls := s'.controls }

/-- None of the six mirror lists is empty. -/
def HasMirrors (s : DlgPrefDeck) : Prop :=
  s.m_rateControls ≠ [] ∧ s.m_rateRangeControls ≠ [] ∧ s.m_rateDirectionControls ≠ [] ∧
  s.m_cueControls ≠ [] ∧ s.m_keylockModeControls ≠ [] ∧ s.m_keyunlockModeControls ≠ []

/-- At least one deck or sampler exists when the page is constructed. -/
def HasPlayer (s0 : DlgPrefDeck) : Prop :=
  0 < staticCastInt (s0.controls ⟨"[Master]", "num_decks"⟩) ∨
  0 < staticCastInt (s0.controls ⟨"[Master]", "num_samplers"⟩)

/-- The display mode the constructor puts into `[Controls],ShowDurationRemaining`
(lines 90-107). -/
def shownDisplayMode (env : Env) (c : UserSettings) : ℚ :=
  if getValueDouble c (ck "PositionDisplay") (toDouble env.ELAPSED_AND_REMAINING) =
      toDouble env.REMAINING then toDouble env.REMAINING
  else if getValueDouble c (ck "PositionDisplay") (toDouble env.ELAPSED_AND_REMAINING) =
      toDouble env.ELAPSED_AND_REMAINING then toDouble env.ELAPSED_AND_REMAINING
  else toDouble env.ELAPSED

/-- The pending rate change amount after the constructor, for a spin box of the form and
the amount `v` read from the settings: the spin box is set to `v` (lines 407-410), and set
again to the amount handed to `RateControl` (lines 498-501); each time the pending member
takes the value of the spin box when that value changes. -/
def pendingAmount (box : QDoubleSpinBox) (v : ℚ) : ℚ :=
  let first := if box.bound v = box.value then v else box.bound v
  if box.bound first = box.bound v then first else box.bound first

/-- The pending ramp mode after the constructor, for the stored mode `rr` and the state
`linearOn` of the linear radio button in the form. -/
def pendingRampMode (env : Env) (rr : Int) (linearOn : Bool) : Int :=
  let first :=
    if rr = env.Linear then (if linearOn then rr else env.Linear)
    else (if linearOn then env.Stepping else rr)
  if first = env.Linear then env.Linear
  else if decide (rr = env.Linear) then env.Stepping else first

/-- The pending cue mode after the constructor, for the combo box of the form and the stored
`CueDefault`: the item `cueDefaultIndexByData` picks (lines 73-75), then the item that
`slotUpdate` makes current from the first cue mode mirror (lines 452-454). -/
def pendingCueMode (env : Env) (form : QComboBox) (cueDefaultValue : Int) : Int :=
  let box := cueModeBox env form
  let picked := indexByData box cueDefaultValue
  let first := variantToInt (box.itemData picked)
  let shown := box.normIndex (box.findData (toDouble (toInt (toDouble first))))
  if shown = box.normIndex picked then first else variantToInt (box.itemData shown)

/-- The page `s` that the constructor builds from the form state `s0`, member by member. -/
def Constructed (env : Env) (s0 s : DlgPrefDeck) : Prop :=
  s.m_cueMode = pendingCueMode env s0.ComboBoxCueMode (getValueInt s0.m_pConfig (ck "CueDefault") 0) ∧
  s.m_timeDisplayMode = toInt (shownDisplayMode env s0.m_pConfig) ∧
  s.controls (ck "ShowDurationRemaining") = shownDisplayMode env s0.m_pConfig ∧
  s.m_pConfig (ck "PositionDisplay") = some (shownDisplayMode env s0.m_pConfig) ∧
  s.controls (ck "TimeFormat") =
    toDouble (getValueInt s0.m_pConfig (ck "TimeFormat") env.TRADITIONAL) ∧
  s.m_bDisallowTrackLoadToPlayingDeck =
    (!getValueBool s0.m_pConfig (ck "AllowTrackLoadToPlayingDeck") false) ∧
  s.m_seekOnLoadMode = getValueInt s0.m_pConfig (ck "CueRecall") env.IntroStart ∧
  s.m_bCloneDeckOnLoadDoubleTap =
    getValueBool s0.m_pConfig (ck "CloneDeckOnLoadDoubleTap") true ∧
  s.m_bRateDownIncreasesSpeed = getValueBool s0.m_pConfig (ck "RateDir") true ∧
  s.m_iRateRangePercent =
    (rateRangeShown rateRangeBox (initialRateRangePercent s0.m_pConfig)
      (toDouble (initialRateRangePercent s0.m_pConfig) / 100)).2 ∧
  s.ComboBoxRateRange =
    (rateRangeShown rateRangeBox (initialRateRangePercent s0.m_pConfig)
      (toDouble (initialRateRangePercent s0.m_pConfig) / 100)).1 ∧
  s.m_keylockMode = getValueInt s0.m_pConfig (ck "keylockMode") env.LockOriginalKey ∧
  s.m_keyunlockMode = getValueInt s0.m_pConfig (ck "keyunlockMode") env.ResetLockedKey ∧
  s.m_pitchAutoReset =
    shownResetPitch env (getValueInt s0.m_pConfig (ck "SpeedAutoReset") env.RESET_PITCH)
      (decide (getValueInt s0.m_pConfig (ck "SpeedAutoReset") env.RESET_PITCH = env.RESET_PITCH) ||
        decide (getValueInt s0.m_pConfig (ck "SpeedAutoReset") env.RESET_PITCH =
          env.RESET_PITCH_AND_SPEED)) ∧
  s.m_speedAutoReset =
    shownResetSpeed env (getValueInt s0.m_pConfig (ck "SpeedAutoReset") env.RESET_PITCH)
      (decide (getValueInt s0.m_pConfig (ck "SpeedAutoReset") env.RESET_PITCH = env.RESET_SPEED) ||
        decide (getValueInt s0.m_pConfig (ck "SpeedAutoReset") env.RESET_PITCH =
          env.RESET_PITCH_AND_SPEED)) ∧
  s.m_bRateRamping =
    pendingRampMode env (getValueInt s0.m_pConfig (ck "RateRamp") env.Stepping)
      s0.radioButtonRateRampModeLinear ∧
  s.m_iRateRampSensitivity =
    getValueInt s0.m_pConfig (ck "RateRampSensitivity") kDefaultRateRampSensitivity ∧
  s.m_dRateTempCoarse = pendingAmount s0.spinBoxTemporaryRateCoarse
    (getValueDouble s0.m_pConfig (ck "RateTempLeft") kDefaultTemporaryRateChangeCoarse) ∧
  s.m_dRateTempFine = pendingAmount s0.spinBoxTemporaryRateFine
    (getValueDouble s0.m_pConfig (ck "RateTempRight") kDefaultTemporaryRateChangeFine) ∧
  s.m_dRatePermCoarse = pendingAmount s0.spinBoxPermanentRateCoarse
    (getValueDouble s0.m_pConfig (ck "RatePermLeft") kDefaultPermanentRateChangeCoarse) ∧
  s.m_dRatePermFine = pendingAmount s0.spinBoxPermanentRateFine
    (getValueDouble s0.m_pConfig (ck "RatePermRight") kDefaultPermanentRateChangeFine) ∧
  (∀ item : String, item ≠ "SetIntroStartAtMainCue" → item ≠ "PositionDisplay" →
    s.m_pConfig (ck item) = s0.m_pConfig (ck item)) ∧
  s.checkBoxInvertSpeedSlider = getValueBool s0.m_pConfig (ck "RateDir") true ∧
  s.radioButtonRemaining =
    decide (toInt (shownDisplayMode env s0.m_pConfig) = env.REMAINING) ∧
  s.radioButtonElapsedAndRemaining =
    decide (¬ toInt (shownDisplayMode env s0.m_pConfig) = env.REMAINING ∧
      toInt (shownDisplayMode env s0.m_pConfig) = env.ELAPSED_AND_REMAINING) ∧
  s.radioButtonElapsed =
    decide (¬ toInt (shownDisplayMode env s0.m_pConfig) = env.REMAINING ∧
      ¬ toInt (shownDisplayMode env s0.m_pConfig) = env.ELAPSED_AND_REMAINING)

/-- The defaults of the page, entry by entry: each member whose entry is absent from the
settings `c` holds its documented default in `s`.  The rate range percent is the default 8
when neither `RateRangePercent` nor the legacy `RateRange` is stored. -/
def DocumentedDefaults (env : Env) (c : UserSettings) (s : DlgPrefDeck) : Prop :=
  (c (ck "CueDefault") = none → s.m_cueMode = env.Mixxx) ∧
  (c (ck "PositionDisplay") = none → s.m_timeDisplayMode = env.ELAPSED_AND_REMAINING) ∧
  (c (ck "TimeFormat") = none → s.controls (ck "TimeFormat") = toDouble env.TRADITIONAL) ∧
  (c (ck "AllowTrackLoadToPlayingDeck") = none → s.m_bDisallowTrackLoadToPlayingDeck = true) ∧
  (c (ck "CueRecall") = none → s.m_seekOnLoadMode = env.IntroStart) ∧
  (c (ck "CloneDeckOnLoadDoubleTap") = none → s.m_bCloneDeckOnLoadDoubleTap = true) ∧
  (c (ck "RateRangePercent") = none → c (ck "RateRange") = none →
    s.m_iRateRangePercent = kDefaultRateRangePercent) ∧
  (c (ck "keylockMode") = none → s.m_keylockMode = env.LockOriginalKey) ∧
  (c (ck "keyunlockMode") = none → s.m_keyunlockMode = env.ResetLockedKey) ∧
  (c (ck "SpeedAutoReset") = none → s.m_pitchAutoReset = true ∧ s.m_speedAutoReset = false) ∧
  (c (ck "RateRamp") = none → s.m_bRateRamping = env.Stepping) ∧
  (c (ck "RateRampSensitivity") = none →
    s.m_iRateRampSensitivity = kDefaultRateRampSensitivity) ∧
  (c (ck "RateTempLeft") = none → s.m_dRateTempCoarse = kDefaultTemporaryRateChangeCoarse) ∧
  (c (ck "RateTempRight") = none → s.m_dRateTempFine = kDefaultTemporaryRateChangeFine) ∧
  (c (ck "RatePermLeft") = none → s.m_dRatePermCoarse = kDefaultPermanentRateChangeCoarse) ∧
  (c (ck "RatePermRight") = none → s.m_dRatePermFine = kDefaultPermanentRateChangeFine)

/-- The form fits the defaults: its cue mode combo box has no items of its own, and its four
spin boxes accept the default amounts as they are. -/
def FormFitsDefaults (s0 : DlgPrefDeck) : Prop :=
  s0.ComboBoxCueMode.items = [] ∧
  s0.spinBoxTemporaryRateCoarse.bound kDefaultTemporaryRateChangeCoarse =
    kDefaultTemporaryRateChangeCoarse ∧
  s0.spinBoxTemporaryRateFine.bound kDefaultTemporaryRateChangeFine =
    kDefaultTemporaryRateChangeFine ∧
  s0.spinBoxPermanentRateCoarse.bound kDefaultPermanentRateChangeCoarse =
    kDefaultPermanentRateChangeCoarse ∧
  s0.spinBoxPermanentRateFine.bound kDefaultPermanentRateChangeFine =
    kDefaultPermanentRateChangeFine

/-- The sample form with a settings file that holds the legacy `[Controls],RateRange = 0`
and nothing else. -/
def legacyPage : DlgPrefDeck :=
  { formPage with m_pConfig := fun k => if k = ck "RateRange" then some 0 else none }

/-- A settings file in which every entry of the page is present and valid; the rate range is
7 percent, a value a user may have set with an earlier version or by hand. -/
def storedSettings : UserSettings := fun k =>
  if k.group = controlsGroup then
    List.lookup k.item
      [("CueDefault", 0), ("PositionDisplay", 2), ("TimeFormat", 0),
       ("AllowTrackLoadToPlayingDeck", 0), ("CueRecall", 3), ("SetIntroStartAtMainCue", 0),
       ("CloneDeckOnLoadDoubleTap", 1), ("RateDir", 1), ("RateRangePercent", 7),
       ("keylockMode", 0), ("keyunlockMode", 0), ("SpeedAutoReset", 1), ("RateRamp", 0),
       ("RateRampSensitivity", 250), ("RateTempLeft", 4), ("RateTempRight", 2),
       ("RatePermLeft", 1 / 2), ("RatePermRight", 1 / 20)]
  else none

/-- The sample form with the stored settings. -/
def storedPage : DlgPrefDeck := { formPage with m_pConfig := storedSettings }

/-- A write to the control `p` that is made outside the page, by the engine, a skin or a
controller script.  No slot of the page is connected to the controls of the players. -/
def controlSetOutside (s : DlgPrefDeck) (p : ConfigKey) (v : ℚ) : DlgPrefDeck :=
  { s with controls := controlSet s.controls p v }

/-- The page after a controller script has given the second deck the uninverted slider
direction and the rate one half. -/
def secondDeckScripted (s : DlgPrefDeck) : DlgPrefDeck :=
  controlSetOutside (controlSetOutside s ⟨"[Channel||]", "rate_dir"⟩ 1)
    ⟨"[Channel||]", "rate"⟩ (1 / 2)

/-- The sample form with a settings file that holds the legacy `[Controls],RateRange =
429496731` and nothing else. -/
def overflowPage : DlgPrefDeck :=
  { formPage with
    m_pConfig := fun k => if k = ck "RateRange" then some 429496731 else none }

/-- The six cue modes the constructor offers in `ComboBoxCueMode` (lines 66-71), in the
order of the items. -/
def cueModes (env : Env) : List Int :=
  [env.Mixxx, env.MixxxNoBlinking, env.Pioneer, env.Denon, env.Numark, env.CueAndPlay]

/-- The index `r` is the one a search for `userData` from the first item of `box` on ends
at: no item before `r` has the data `userData`, and either the item at `r` has it, or no
item of the box has it and `r` is 0. -/
def PicksFirstMatch (box : QComboBox) (userData r : Int) : Prop :=
  (∀ i, 0 ≤ i → i < r → variantToInt (box.itemData i) ≠ userData) ∧
  (variantToInt (box.itemData r) = userData ∨
    (r = 0 ∧ ∀ i, 0 ≤ i → i < box.count → variantToInt (box.itemData i) ≠ userData))

/-- The four auto-reset codes of `BaseTrackPlayer`, which are declared outside the file, are
pairwise distinct. -/
def AutoResetCodesDistinct (env : Env) : Prop :=
  env.RESET_NONE ≠ env.RESET_PITCH ∧ env.RESET_NONE ≠ env.RESET_SPEED ∧
  env.RESET_NONE ≠ env.RESET_PITCH_AND_SPEED ∧ env.RESET_PITCH ≠ env.RESET_SPEED ∧
  env.RESET_PITCH ≠ env.RESET_PITCH_AND_SPEED ∧ env.RESET_SPEED ≠ env.RESET_PITCH_AND_SPEED

/-- The one-deck page with the speed reset pending and the pitch reset not. -/
def speedResetPage : DlgPrefDeck := { oneDeckPage with m_speedAutoReset := true }

/-- The sample form with a settings file that holds `[Controls],SpeedAutoReset = 3`, the
code `RESET_SPEED` of the sample environment, and nothing else. -/
def speedResetForm : DlgPrefDeck :=
  { formPage with m_pConfig := fun k => if k = ck "SpeedAutoReset" then some 3 else none }

/-- The sample form with a settings file that holds `[Controls],SetIntroStartAtMainCue = 5`
and nothing else. -/
def storedFivePage : DlgPrefDeck :=
  { formPage with
    m_pConfig := fun k => if k = ck "SetIntroStartAtMainCue" then some 5 else none }

/-- The sample form with a settings file that holds `[Controls],CueDefault = 2`, Denon mode
in the sample environment, and nothing else. -/
def denonPage : DlgPrefDeck :=
  { formPage with m_pConfig := fun k => if k = ck "CueDefault" then some 2 else none }

end DlgPrefDeck

/-! ## The PortMidi adapter (`src/controllers/midi/portmidicontroller.h`)

The header declares the event buffer, the SysEx buffer, its write index and the in-progress
flag.  `PortMidiController::poll` and the constructor are defined in a file that is not part
of the sources at hand; their model below follows the specification of the adapter. -/

namespace PortMidiController

/-- The macro `MIXXX_PORTMIDI_BUFFER_LEN`: the number of MIDI messages to buffer. -/
def MIXXX_PORTMIDI_BUFFER_LEN : Nat := 1024

/-- The size of `unsigned char m_cReceiveMsg[1024]`. -/
def receiveMsgSize : Nat := 1024

/-- Modelled from the spec: an event queued by the hardware, as `poll` classifies it.  A
short message is complete in itself; a system-exclusive message arrives as a start marker,
data bytes and an end marker; `interrupted` is a status byte that cuts a system-exclusive
message short, the error of the specification. -/
inductive MidiEvent where
  | short (status data1 data2 : Nat)
  | sysexStart
  | sysexData (byte : Nat)
  | sysexEnd
  | interrupted (status data1 data2 : Nat)

/-- The MIDI state of the adapter: the members `m_cReceiveMsg`, `m_cReceiveMsg_index` and
`m_bInSysex` of the header, and the messages forwarded upward so far. -/
structure State where
  m_cReceiveMsg : List Nat
  m_cReceiveMsg_index : Nat
  m_bInSysex : Bool
  forwarded : List (List Nat)

/-- Modelled from the spec: the state the constructor leaves; no message is in progress and
the accumulation buffer is empty. -/
def initial : State :=
  { m_cReceiveMsg := List.replicate receiveMsgSize 0,
    m_cReceiveMsg_index := 0,
    m_bInSysex := false,
    forwarded := [] }

/-- Modelled from the spec: the accumulation buffer is reset to empty and the flag is
cleared, as on message completion or error. -/
def resetSysex (c : State) : State :=
  { c with m_cReceiveMsg_index := 0, m_bInSysex := false }

/-- Modelled from the spec: one byte is written at the write index.  A message that would
exceed the fixed capacity is dropped. -/
def appendByte (c : State) (byte : Nat) : State :=
  if c.m_cReceiveMsg_index < receiveMsgSize then
    { c with
      m_cReceiveMsg := c.m_cReceiveMsg.set c.m_cReceiveMsg_index byte,
      m_cReceiveMsg_index := c.m_cReceiveMsg_index + 1 }
  else resetSysex c

/-- Modelled from the spec: what `poll` does with one event.  Outside a system-exclusive
message a short message is forwarded and a start marker sets the flag; inside one, data
bytes are accumulated, the end marker forwards the assembled message and resets the
accumulation state, and an interrupting message resets it and is forwarded itself. -/
def receive (c : State) : MidiEvent → State
  | MidiEvent.short status data1 data2 =>
    if c.m_bInSysex then c else { c with forwarded := c.forwarded ++ [[status, data1, data2]] }
  | MidiEvent.sysexStart =>
    if c.m_bInSysex then c
    else appendByte { c with m_bInSysex := true, m_cReceiveMsg_index := 0 } 240
  | MidiEvent.sysexData byte =>
    if c.m_bInSysex then appendByte c byte else c
  | MidiEvent.sysexEnd =>
    if c.m_bInSysex then
      let c1 := appendByte c 247
      if c1.m_bInSysex then
        resetSysex { c1 with
          forwarded := c1.forwarded ++ [c1.m_cReceiveMsg.take c1.m_cReceiveMsg_index] }
      else c1
    else c
  | MidiEvent.interrupted status data1 data2 =>
    let c1 := resetSysex c
    { c1 with forwarded := c1.forwarded ++ [[status, data1, data2]] }

/-- Modelled from the spec: the events a single `poll` takes from the queue, at most
`MIXXX_PORTMIDI_BUFFER_LEN` of them. -/
def polled (queue : List MidiEvent) : List MidiEvent := queue.take MIXXX_PORTMIDI_BUFFER_LEN

/-- Modelled from the spec: the method `PortMidiController::poll`: the polled events are
processed in order; the others stay queued. -/
def poll (c : State) (queue : List MidiEvent) : State × List MidiEvent :=
  ((polled queue).foldl receive c, queue.drop MIXXX_PORTMIDI_BUFFER_LEN)

/-- Modelled from the spec: the states the adapter can be in: the initial one, and every
state reached from a reachable one by an event. -/
inductive Reachable : State → Prop where
  | init : Reachable initial
  | step (c : State) (e : MidiEvent) : Reachable c → Reachable (receive c e)

/-- The accumulation state is well formed: the write index is 0 while no message is in
progress, it does not exceed the capacity, and the buffer has its declared size. -/
def WellFormed (c : State) : Prop :=
  (c.m_bInSysex = false → c.m_cReceiveMsg_index = 0) ∧
  c.m_cReceiveMsg_index ≤ receiveMsgSize ∧
  c.m_cReceiveMsg.length = receiveMsgSize

end PortMidiController

end Mixxx

/-! ## Theorems -/

namespace Mixxx

namespace DlgPrefDeck

/-! ### The mirror lists under `slotNumDecksChanged` and `slotNumSamplersChanged` -/

theorem setRateRangeForAllDecks_sameMirrors (s : DlgPrefDeck) (p : Int) :
    SameMirrors s (setRateRangeForAllDecks s p) := by
  simp [SameMirrors, setRateRangeForAllDecks]

theorem setRateDirectionForAllDecks_sameMirrors {s s' : DlgPrefDeck} {b : Bool}
    (h : setRateDirectionForAllDecks s b = some s') : SameMirrors s s' := by
  unfold setRateDirectionForAllDecks at h
  cases hd : s.m_rateDirectionControls.head? with
  | none => simp [hd] at h
  | some p =>
    simp only [hd, Option.some.injEq] at h
    subst h
    simp [SameMirrors, applyRateDirection]

theorem setRateDirectionForAllDecks_isSome {s : DlgPrefDeck} (b : Bool)
    (h : s.m_rateDirectionControls ≠ []) : ∃ s', setRateDirectionForAllDecks s b = some s' := by
  unfold setRateDirectionForAllDecks
  cases hl : s.m_rateDirectionControls with
  | nil => exact absurd hl h
  | cons p ps => simp

theorem setRateRangeForAllDecks_counts (s : DlgPrefDeck) (p : Int) :
    (setRateRangeForAllDecks s p).m_iNumConfiguredDecks = s.m_iNumConfiguredDecks ∧
    (setRateRangeForAllDecks s p).m_iNumConfiguredSamplers = s.m_iNumConfiguredSamplers := by
  simp [setRateRangeForAllDecks]

theorem setRateDirectionForAllDecks_counts {s s' : DlgPrefDeck} {b : Bool}
    (h : setRateDirectionForAllDecks s b = some s') :
    s'.m_iNumConfiguredDecks = s.m_iNumConfiguredDecks ∧
    s'.m_iNumConfiguredSamplers = s.m_iNumConfiguredSamplers := by
  unfold setRateDirectionForAllDecks at h
  cases hd : s.m_rateDirectionControls.head? with
  | none => simp [hd] at h
  | some p =>
    simp only [hd, Option.some.injEq] at h
    subst h
    simp [applyRateDirection]

theorem propagateFirst_spec {s : DlgPrefDeck} (h1 : s.m_rateDirectionControls ≠ [])
    (h2 : s.m_rateRangeControls ≠ []) :
    ∃ s', propagateFirst s = some s' ∧ SameMirrors s s' ∧
      s'.m_iNumConfiguredDecks = s.m_iNumConfiguredDecks ∧
      s'.m_iNumConfiguredSamplers = s.m_iNumConfiguredSamplers := by
  unfold propagateFirst
  cases hl : s.m_rateDirectionControls with
  | nil => exact absurd hl h1
  | cons d ds =>
    obtain ⟨s1, hs1⟩ := setRateDirectionForAllDecks_isSome
      (decide (s.controls d = kRateDirectionInverted)) h1
    have hm := setRateDirectionForAllDecks_sameMirrors hs1
    have hc := setRateDirectionForAllDecks_counts hs1
    simp only [List.head?_cons, hs1]
    cases hr : s1.m_rateRangeControls with
    | nil => exact absurd (hm.2.1 ▸ hr) h2
    | cons r rs =>
      refine ⟨_, rfl, ?_, ?_, ?_⟩
      · have := setRateRangeForAllDecks_sameMirrors s1 (toInt (s1.controls r * 100))
        unfold SameMirrors at *
        refine ⟨?_, ?_, ?_, ?_, ?_, ?_⟩
        · rw [this.1, hm.1]
        · rw [this.2.1, hm.2.1]
        · rw [this.2.2.1, hm.2.2.1, hl]
        · rw [this.2.2.2.1, hm.2.2.2.1]
        · rw [this.2.2.2.2.1, hm.2.2.2.2.1]
        · rw [this.2.2.2.2.2, hm.2.2.2.2.2]
      · rw [(setRateRangeForAllDecks_counts s1 _).1, hc.1]
      · rw [(setRateRangeForAllDecks_counts s1 _).2, hc.2]

/-- The lists after the loop that adds mirrors for the groups `g i`, `i` in `is`. -/
theorem foldl_addMirrors_lists (g : Int → String) (is : List Int) (s : DlgPrefDeck) :
    MirrorsAppended g is s (is.foldl (fun acc i => addMirrors acc (g i)) s) ∧
    (is.foldl (fun acc i => addMirrors acc (g i)) s).m_iNumConfiguredDecks =
      s.m_iNumConfiguredDecks ∧
    (is.foldl (fun acc i => addMirrors acc (g i)) s).m_iNumConfiguredSamplers =
      s.m_iNumConfiguredSamplers := by
  induction is generalizing s with
  | nil => simp [MirrorsAppended]
  | cons i is ih =>
    have := ih (addMirrors s (g i))
    unfold MirrorsAppended at this ⊢
    simp only [List.foldl_cons, List.map_cons] at this ⊢
    obtain ⟨⟨a, b, c, d, e, f⟩, k, l⟩ := this
    refine ⟨⟨?_, ?_, ?_, ?_, ?_, ?_⟩, ?_, ?_⟩
    · rw [a]; simp [addMirrors]
    · rw [b]; simp [addMirrors]
    · rw [c]; simp [addMirrors]
    · rw [d]; simp [addMirrors]
    · rw [e]; simp [addMirrors]
    · rw [f]; simp [addMirrors]
    · rw [k]; simp [addMirrors]
    · rw [l]; simp [addMirrors]

theorem loopIndices_ne_nil {lo hi : Int} (h : lo < hi) : loopIndices lo hi ≠ [] := by
  unfold loopIndices
  intro hn
  have hlen := congrArg List.length hn
  simp only [List.length_map, List.length_range, List.length_nil] at hlen
  omega

theorem mirrorsAppended_of_same {g : Int → String} {is : List Int} {s s1 s2 : DlgPrefDeck}
    (h1 : MirrorsAppended g is s s1) (h2 : SameMirrors s1 s2) : MirrorsAppended g is s s2 := by
  unfold MirrorsAppended SameMirrors at *
  obtain ⟨a, b, c, d, e, f⟩ := h2
  rw [a, b, c, d, e, f]
  exact h1

theorem mirrorsKept_of_appended {g : Int → String} {is : List Int} {s s' : DlgPrefDeck}
    (h : MirrorsAppended g is s s') : MirrorsKept s s' := by
  obtain ⟨a, b, c, d, e, f⟩ := h
  exact ⟨⟨_, a⟩, ⟨_, b⟩, ⟨_, c⟩, ⟨_, d⟩, ⟨_, e⟩, ⟨_, f⟩⟩

/-- What the loop and the tail shared by the two slots do to the lists and the counts. -/
theorem addLoop_spec (g : Int → String) (s : DlgPrefDeck) (lo hi : Int) (h : lo < hi)
    (initializing : Bool) (setCount : DlgPrefDeck → DlgPrefDeck)
    (hset : ∀ t, SameMirrors t (setCount t)) :
    ∃ s', (if initializing then
            some (setCount ((loopIndices lo hi).foldl (fun acc i => addMirrors acc (g i)) s))
          else propagateFirst
            (setCount ((loopIndices lo hi).foldl (fun acc i => addMirrors acc (g i)) s))) = some s'
      ∧ MirrorsAppended g (loopIndices lo hi) s s'
      ∧ s'.m_iNumConfiguredDecks =
          (setCount ((loopIndices lo hi).foldl
            (fun acc i => addMirrors acc (g i)) s)).m_iNumConfiguredDecks
      ∧ s'.m_iNumConfiguredSamplers =
          (setCount ((loopIndices lo hi).foldl
            (fun acc i => addMirrors acc (g i)) s)).m_iNumConfiguredSamplers := by
  obtain ⟨happ, -, -⟩ := foldl_addMirrors_lists g (loopIndices lo hi) s
  have hne := loopIndices_ne_nil h
  have hk := mirrorsAppended_of_same happ (hset _)
  cases initializing with
  | true => exact ⟨_, rfl, hk, rfl, rfl⟩
  | false =>
    have h1 : (setCount ((loopIndices lo hi).foldl
        (fun acc i => addMirrors acc (g i)) s)).m_rateDirectionControls ≠ [] := by
      rw [hk.2.2.1]; simp [hne]
    have h2 : (setCount ((loopIndices lo hi).foldl
        (fun acc i => addMirrors acc (g i)) s)).m_rateRangeControls ≠ [] := by
      rw [hk.2.1]; simp [hne]
    obtain ⟨s', hs', hm, hc1, hc2⟩ := propagateFirst_spec h1 h2
    exact ⟨s', by simpa using hs', mirrorsAppended_of_same hk hm, hc1, hc2⟩

/-- The slot `slotNumDecksChanged` when the count grows: it returns, sets the count, and
appends one proxy per new deck to each list. -/
theorem slotNumDecksChanged_grow (env : Env) (s : DlgPrefDeck) (new_count : ℚ)
    (initializing : Bool) (h : s.m_iNumConfiguredDecks < staticCastInt new_count) :
    ∃ s', slotNumDecksChanged env s new_count initializing = some s' ∧
      s'.m_iNumConfiguredDecks = staticCastInt new_count ∧
      s'.m_iNumConfiguredSamplers = s.m_iNumConfiguredSamplers ∧
      MirrorsAppended env.groupForDeck
        (loopIndices s.m_iNumConfiguredDecks (staticCastInt new_count)) s s' := by
  unfold slotNumDecksChanged
  have hn : ¬ staticCastInt new_count ≤ s.m_iNumConfiguredDecks := by omega
  obtain ⟨s', hs', hk, hd, hsm⟩ := addLoop_spec env.groupForDeck s _ _ h initializing
    (fun t => { t with m_iNumConfiguredDecks := staticCastInt new_count })
    (fun t => by simp [SameMirrors])
  obtain ⟨-, -, l⟩ := foldl_addMirrors_lists env.groupForDeck
    (loopIndices s.m_iNumConfiguredDecks (staticCastInt new_count)) s
  refine ⟨s', by simpa [hn] using hs', ?_, ?_, hk⟩
  · rw [hd]
  · rw [hsm]; simpa using l

/-- The slot `slotNumSamplersChanged` when the count grows. -/
theorem slotNumSamplersChanged_grow (env : Env) (s : DlgPrefDeck) (new_count : ℚ)
    (initializing : Bool) (h : s.m_iNumConfiguredSamplers < staticCastInt new_count) :
    ∃ s', slotNumSamplersChanged env s new_count initializing = some s' ∧
      s'.m_iNumConfiguredSamplers = staticCastInt new_count ∧
      s'.m_iNumConfiguredDecks = s.m_iNumConfiguredDecks ∧
      MirrorsAppended env.groupForSampler
        (loopIndices s.m_iNumConfiguredSamplers (staticCastInt new_count)) s s' := by
  unfold slotNumSamplersChanged
  have hn : ¬ staticCastInt new_count ≤ s.m_iNumConfiguredSamplers := by omega
  obtain ⟨s', hs', hk, hd, hsm⟩ := addLoop_spec env.groupForSampler s _ _ h initializing
    (fun t => { t with m_iNumConfiguredSamplers := staticCastInt new_count })
    (fun t => by simp [SameMirrors])
  obtain ⟨-, k, -⟩ := foldl_addMirrors_lists env.groupForSampler
    (loopIndices s.m_iNumConfiguredSamplers (staticCastInt new_count)) s
  refine ⟨s', by simpa [hn] using hs', ?_, ?_, hk⟩
  · rw [hsm]
  · rw [hd]; simpa using k

theorem staticCastInt_of_fits {d : ℚ} (h1 : intMin ≤ toInt d) (h2 : toInt d ≤ intMax) :
    staticCastInt d = toInt d := by
  unfold staticCastInt
  rw [if_pos ⟨h1, h2⟩]

/-- The two count slots for every `new_count`, in terms of the `int` it converts to: each
slot returns, leaves its count equal to the maximum of the old count and that `int`, keeps
every proxy of the six lists at the front of the new list, and changes nothing when that
`int` does not exceed the old count. -/
theorem slotNumChanged_spec (env : Env) (s : DlgPrefDeck) (new_count : ℚ)
    (initializing : Bool) :
    (∃ s', slotNumDecksChanged env s new_count initializing = some s' ∧
      s'.m_iNumConfiguredDecks = max s.m_iNumConfiguredDecks (staticCastInt new_count) ∧
      s'.m_iNumConfiguredSamplers = s.m_iNumConfiguredSamplers ∧
      MirrorsKept s s' ∧
      (staticCastInt new_count ≤ s.m_iNumConfiguredDecks → s' = s)) ∧
    (∃ s', slotNumSamplersChanged env s new_count initializing = some s' ∧
      s'.m_iNumConfiguredSamplers = max s.m_iNumConfiguredSamplers (staticCastInt new_count) ∧
      s'.m_iNumConfiguredDecks = s.m_iNumConfiguredDecks ∧
      MirrorsKept s s' ∧
      (staticCastInt new_count ≤ s.m_iNumConfiguredSamplers → s' = s)) := by
  have hrefl : MirrorsKept s s :=
    ⟨⟨[], by simp⟩, ⟨[], by simp⟩, ⟨[], by simp⟩, ⟨[], by simp⟩, ⟨[], by simp⟩, ⟨[], by simp⟩⟩
  constructor
  · by_cases h : staticCastInt new_count ≤ s.m_iNumConfiguredDecks
    · exact ⟨s, by simp [slotNumDecksChanged, h], by simp [h], rfl, hrefl, fun _ => rfl⟩
    · obtain ⟨s', hs', hd, hsm, hk⟩ :=
        slotNumDecksChanged_grow env s new_count initializing (by omega)
      refine ⟨s', hs', ?_, hsm, mirrorsKept_of_appended hk, fun h' => absurd h' h⟩
      rw [hd]; omega
  · by_cases h : staticCastInt new_count ≤ s.m_iNumConfiguredSamplers
    · exact ⟨s, by simp [slotNumSamplersChanged, h], by simp [h], rfl, hrefl, fun _ => rfl⟩
    · obtain ⟨s', hs', hd, hsm, hk⟩ :=
        slotNumSamplersChanged_grow env s new_count initializing (by omega)
      refine ⟨s', hs', ?_, hsm, mirrorsKept_of_appended hk, fun h' => absurd h' h⟩
      rw [hd]; omega

/-- C1 (as amended). Control mirrors are never shrunk: for every `new_count` whose truncation
is an `int`, `slotNumDecksChanged` (resp. `slotNumSamplersChanged`) returns, leaves the
configured deck (resp. sampler) count equal to the maximum of the old count and the
truncated new count, keeps every proxy of each of the six mirror lists at the front of the
new list, and changes nothing at all when the truncated new count does not exceed the old
count. -/
theorem mirrors_never_shrunk (env : Env) (s : DlgPrefDeck) (new_count : ℚ)
    (initializing : Bool) (hfit : intMin ≤ toInt new_count ∧ toInt new_count ≤ intMax) :
    (∃ s', slotNumDecksChanged env s new_count initializing = some s' ∧
      s'.m_iNumConfiguredDecks = max s.m_iNumConfiguredDecks (toInt new_count) ∧
      s'.m_iNumConfiguredSamplers = s.m_iNumConfiguredSamplers ∧
      MirrorsKept s s' ∧
      (toInt new_count ≤ s.m_iNumConfiguredDecks → s' = s)) ∧
    (∃ s', slotNumSamplersChanged env s new_count initializing = some s' ∧
      s'.m_iNumConfiguredSamplers = max s.m_iNumConfiguredSamplers (toInt new_count) ∧
      s'.m_iNumConfiguredDecks = s.m_iNumConfiguredDecks ∧
      MirrorsKept s s' ∧
      (toInt new_count ≤ s.m_iNumConfiguredSamplers → s' = s)) := by
  have h := slotNumChanged_spec env s new_count initializing
  rw [staticCastInt_of_fits hfit.1 hfit.2] at h
  exact h

theorem toInt_three : toInt (3 : ℚ) = 3 := by simp [toInt]

theorem mirrors_never_shrunk_witness :
    (intMin ≤ toInt (3 : ℚ) ∧ toInt (3 : ℚ) ≤ intMax) ∧
    (∃ s', slotNumDecksChanged sampleEnv oneDeckPage 3 false = some s' ∧
      s'.m_iNumConfiguredDecks = max oneDeckPage.m_iNumConfiguredDecks (toInt (3 : ℚ)) ∧
      s'.m_iNumConfiguredSamplers = oneDeckPage.m_iNumConfiguredSamplers ∧
      MirrorsKept oneDeckPage s' ∧
      (toInt (3 : ℚ) ≤ oneDeckPage.m_iNumConfiguredDecks → s' = oneDeckPage)) ∧
    (∃ s', slotNumSamplersChanged sampleEnv oneDeckPage 3 false = some s' ∧
      s'.m_iNumConfiguredSamplers = max oneDeckPage.m_iNumConfiguredSamplers (toInt (3 : ℚ)) ∧
      s'.m_iNumConfiguredDecks = oneDeckPage.m_iNumConfiguredDecks ∧
      MirrorsKept oneDeckPage s' ∧
      (toInt (3 : ℚ) ≤ oneDeckPage.m_iNumConfiguredSamplers → s' = oneDeckPage)) :=
  ⟨by rw [toInt_three]; decide,
    mirrors_never_shrunk sampleEnv oneDeckPage 3 false (by rw [toInt_three]; decide)⟩

theorem toInt_beyond_int : toInt (3000000000 : ℚ) = 3000000000 := by simp [toInt]

/-- C1 as stated fails where the count does not fit an `int`: `new_count = 3000000000`
truncates to 3000000000, yet its conversion to `int` (line 751) is not that number.  On the
one-deck page the slot returns at once and the count stays 1, where the statement has the
maximum of 1 and 3000000000. -/
theorem count_beyond_int_not_taken :
    toInt (3000000000 : ℚ) = 3000000000 ∧
    slotNumDecksChanged sampleEnv oneDeckPage 3000000000 false = some oneDeckPage ∧
    slotNumSamplersChanged sampleEnv oneDeckPage 3000000000 false = some oneDeckPage ∧
    ¬ (∃ s', slotNumDecksChanged sampleEnv oneDeckPage 3000000000 false = some s' ∧
      s'.m_iNumConfiguredDecks =
        max oneDeckPage.m_iNumConfiguredDecks (toInt (3000000000 : ℚ))) := by
  have hc : staticCastInt (3000000000 : ℚ) = intMin := by
    unfold staticCastInt
    rw [toInt_beyond_int, if_neg (by decide)]
  have h1 : slotNumDecksChanged sampleEnv oneDeckPage 3000000000 false = some oneDeckPage := by
    unfold slotNumDecksChanged
    simp only [hc]
    rw [if_pos (by decide)]
  have h2 : slotNumSamplersChanged sampleEnv oneDeckPage 3000000000 false =
      some oneDeckPage := by
    unfold slotNumSamplersChanged
    simp only [hc]
    rw [if_pos (by decide)]
  refine ⟨toInt_beyond_int, h1, h2, ?_⟩
  rintro ⟨s', hs', hcount⟩
  rw [h1] at hs'
  have e : s' = oneDeckPage := (Option.some.inj hs').symm
  rw [e, toInt_beyond_int] at hcount
  exact absurd hcount (by decide)

/-! ### One mirror per deck and sampler -/

theorem loopIndices_append {lo mid hi : Int} (h1 : lo ≤ mid) (h2 : mid ≤ hi) :
    loopIndices lo hi = loopIndices lo mid ++ loopIndices mid hi := by
  unfold loopIndices
  have e : (hi - lo).toNat = (mid - lo).toNat + (hi - mid).toNat := by omega
  rw [e, List.range_add, List.map_append, List.map_map]
  congr 1
  apply List.map_congr_left
  intro k _
  simp only [Function.comp]
  push_cast
  omega

theorem loopIndices_nodup (lo hi : Int) : (loopIndices lo hi).Nodup := by
  unfold loopIndices
  apply List.Nodup.map _ (List.nodup_range _)
  intro a b hab
  simpa using hab

theorem mem_loopIndices {lo hi i : Int} (h : i ∈ loopIndices lo hi) : lo ≤ i ∧ i < hi := by
  unfold loopIndices at h
  simp only [List.mem_map, List.mem_range] at h
  obtain ⟨k, hk, rfl⟩ := h
  omega

theorem length_loopIndices (lo hi : Int) : (loopIndices lo hi).length = (hi - lo).toNat := by
  simp [loopIndices]

/-- Appending the proxies of the new decks keeps a list a rearrangement of the expected one. -/
theorem perm_expected_decks (env : Env) (item : String) {l : List ConfigKey} {d d' n : Int}
    (h0 : 0 ≤ d) (h1 : d ≤ d')
    (h : List.Perm l (expectedMirrors env d n item)) :
    List.Perm (l ++ (loopIndices d d').map (fun i => ⟨env.groupForDeck i, item⟩))
      (expectedMirrors env d' n item) := by
  unfold expectedMirrors at *
  rw [loopIndices_append h0 h1, List.map_append]
  refine (h.append_right _).trans ?_
  rw [List.append_assoc, List.append_assoc]
  exact List.Perm.append_left _ List.perm_append_comm

/-- Appending the proxies of the new samplers keeps a list a rearrangement of the expected
one. -/
theorem perm_expected_samplers (env : Env) (item : String) {l : List ConfigKey} {d n n' : Int}
    (h0 : 0 ≤ n) (h1 : n ≤ n')
    (h : List.Perm l (expectedMirrors env d n item)) :
    List.Perm (l ++ (loopIndices n n').map (fun i => ⟨env.groupForSampler i, item⟩))
      (expectedMirrors env d n' item) := by
  unfold expectedMirrors at *
  rw [loopIndices_append h0 h1, List.map_append, ← List.append_assoc]
  exact h.append_right _

theorem oneMirrorEach_decks (env : Env) {s s' : DlgPrefDeck} (h : OneMirrorEach env s)
    (hlt : s.m_iNumConfiguredDecks ≤ s'.m_iNumConfiguredDecks)
    (hs : s'.m_iNumConfiguredSamplers = s.m_iNumConfiguredSamplers)
    (ha : MirrorsAppended env.groupForDeck
      (loopIndices s.m_iNumConfiguredDecks s'.m_iNumConfiguredDecks) s s') :
    OneMirrorEach env s' := by
  obtain ⟨h0, h0', a, b, c, d, e, f⟩ := h
  obtain ⟨a', b', c', d', e', f'⟩ := ha
  unfold OneMirrorEach
  rw [hs, a', b', c', d', e', f']
  exact ⟨by omega, h0', perm_expected_decks env _ h0 hlt a, perm_expected_decks env _ h0 hlt b,
    perm_expected_decks env _ h0 hlt c, perm_expected_decks env _ h0 hlt d,
    perm_expected_decks env _ h0 hlt e, perm_expected_decks env _ h0 hlt f⟩

theorem oneMirrorEach_samplers (env : Env) {s s' : DlgPrefDeck} (h : OneMirrorEach env s)
    (hlt : s.m_iNumConfiguredSamplers ≤ s'.m_iNumConfiguredSamplers)
    (hs : s'.m_iNumConfiguredDecks = s.m_iNumConfiguredDecks)
    (ha : MirrorsAppended env.groupForSampler
      (loopIndices s.m_iNumConfiguredSamplers s'.m_iNumConfiguredSamplers) s s') :
    OneMirrorEach env s' := by
  obtain ⟨h0, h0', a, b, c, d, e, f⟩ := h
  obtain ⟨a', b', c', d', e', f'⟩ := ha
  unfold OneMirrorEach
  rw [hs, a', b', c', d', e', f']
  exact ⟨h0, by omega, perm_expected_samplers env _ h0' hlt a,
    perm_expected_samplers env _ h0' hlt b, perm_expected_samplers env _ h0' hlt c,
    perm_expected_samplers env _ h0' hlt d, perm_expected_samplers env _ h0' hlt e,
    perm_expected_samplers env _ h0' hlt f⟩

/-- The invariant is kept by every sequence of count changes, and every such sequence
returns. -/
theorem applyCountChanges_oneMirrorEach (env : Env) (calls : List CountChange)
    (s : DlgPrefDeck) (h : OneMirrorEach env s) :
    ∃ s', applyCountChanges env calls s = some s' ∧ OneMirrorEach env s' := by
  induction calls generalizing s with
  | nil => exact ⟨s, rfl, h⟩
  | cons c cs ih =>
    cases c with
    | decks n b =>
      by_cases hle : staticCastInt n ≤ s.m_iNumConfiguredDecks
      · obtain ⟨s', hs', hinv⟩ := ih s h
        exact ⟨s', by simp [applyCountChanges, slotNumDecksChanged, hle, hs'], hinv⟩
      · obtain ⟨s1, hs1, hd, hsm, ha⟩ := slotNumDecksChanged_grow env s n b (by omega)
        have h1 : OneMirrorEach env s1 :=
          oneMirrorEach_decks env h (by omega) hsm (by rw [hd]; exact ha)
        obtain ⟨s', hs', hinv⟩ := ih s1 h1
        exact ⟨s', by simp [applyCountChanges, hs1, hs'], hinv⟩
    | samplers n b =>
      by_cases hle : staticCastInt n ≤ s.m_iNumConfiguredSamplers
      · obtain ⟨s', hs', hinv⟩ := ih s h
        exact ⟨s', by simp [applyCountChanges, slotNumSamplersChanged, hle, hs'], hinv⟩
      · obtain ⟨s1, hs1, hd, hsm, ha⟩ := slotNumSamplersChanged_grow env s n b (by omega)
        have h1 : OneMirrorEach env s1 :=
          oneMirrorEach_samplers env h (by omega) hsm (by rw [hd]; exact ha)
        obtain ⟨s', hs', hinv⟩ := ih s1 h1
        exact ⟨s', by simp [applyCountChanges, hs1, hs'], hinv⟩

theorem oneMirrorEach_of_noMirrors (env : Env) {s : DlgPrefDeck} (h : NoMirrors s) :
    OneMirrorEach env s := by
  obtain ⟨a, b, c, d, e, f, g, k⟩ := h
  unfold OneMirrorEach
  rw [a, b, c, d, e, f, g, k]
  simp [expectedMirrors, loopIndices]

theorem length_expectedMirrors (env : Env) (item : String) {d n : Int} (hd : 0 ≤ d)
    (hn : 0 ≤ n) : ((expectedMirrors env d n item).length : Int) = d + n := by
  simp only [expectedMirrors, List.length_append, List.length_map, length_loopIndices]
  omega

theorem nodup_groups_expectedMirrors (env : Env) (item : String) (d n : Int)
    (hg : GroupsDistinct env) :
    ((expectedMirrors env d n item).map ConfigKey.group).Nodup := by
  obtain ⟨hdeck, hsamp, hdisj⟩ := hg
  simp only [expectedMirrors, List.map_append, List.map_map]
  rw [List.nodup_append]
  refine ⟨?_, ?_, ?_⟩
  · apply List.Nodup.map_on _ (loopIndices_nodup 0 d)
    intro i hi j hj hij
    exact hdeck i j (mem_loopIndices hi).1 (mem_loopIndices hj).1 hij
  · apply List.Nodup.map_on _ (loopIndices_nodup 0 n)
    intro i hi j hj hij
    exact hsamp i j (mem_loopIndices hi).1 (mem_loopIndices hj).1 hij
  · intro g hg1 hg2
    simp only [List.mem_map, Function.comp] at hg1 hg2
    obtain ⟨i, hi, rfl⟩ := hg1
    obtain ⟨j, hj, hij⟩ := hg2
    exact hdisj i j (mem_loopIndices hi).1 (mem_loopIndices hj).1 hij.symm

theorem mirrorCounts_of_oneMirrorEach (env : Env) {s : DlgPrefDeck} (h : OneMirrorEach env s) :
    MirrorCounts s := by
  obtain ⟨h0, h0', a, b, c, d, e, f⟩ := h
  unfold MirrorCounts
  rw [a.length_eq, b.length_eq, c.length_eq, d.length_eq, e.length_eq, f.length_eq]
  simp only [length_expectedMirrors env _ h0 h0', and_self]

theorem noGroupRepeated_of_oneMirrorEach (env : Env) {s : DlgPrefDeck}
    (hg : GroupsDistinct env) (h : OneMirrorEach env s) : NoGroupRepeated s := by
  obtain ⟨-, -, a, b, c, d, e, f⟩ := h
  exact ⟨((a.map _).nodup_iff).2 (nodup_groups_expectedMirrors env _ _ _ hg),
    ((b.map _).nodup_iff).2 (nodup_groups_expectedMirrors env _ _ _ hg),
    ((c.map _).nodup_iff).2 (nodup_groups_expectedMirrors env _ _ _ hg),
    ((d.map _).nodup_iff).2 (nodup_groups_expectedMirrors env _ _ _ hg),
    ((e.map _).nodup_iff).2 (nodup_groups_expectedMirrors env _ _ _ hg),
    ((f.map _).nodup_iff).2 (nodup_groups_expectedMirrors env _ _ _ hg)⟩

/-- C2. Exactly one mirror per active deck and sampler: from a page without mirrors, every
sequence of `slotNumDecksChanged` and `slotNumSamplersChanged` calls returns a state in which
each of the six mirror lists has `m_iNumConfiguredDecks + m_iNumConfiguredSamplers` proxies,
is a rearrangement of one proxy per deck index `0 .. m_iNumConfiguredDecks - 1` and one per
sampler index `0 .. m_iNumConfiguredSamplers - 1`, and repeats no group (the group names of
`PlayerManager` being distinct). -/
theorem one_mirror_per_player (env : Env) (hg : GroupsDistinct env) (s0 : DlgPrefDeck)
    (h0 : NoMirrors s0) (calls : List CountChange) :
    ∃ s, applyCountChanges env calls s0 = some s ∧
      MirrorCounts s ∧ OneMirrorEach env s ∧ NoGroupRepeated s := by
  obtain ⟨s, hs, hinv⟩ :=
    applyCountChanges_oneMirrorEach env calls s0 (oneMirrorEach_of_noMirrors env h0)
  exact ⟨s, hs, mirrorCounts_of_oneMirrorEach env hinv, hinv,
    noGroupRepeated_of_oneMirrorEach env hg hinv⟩

/-! ### Sample data -/

theorem sampleEnv_groupsDistinct : GroupsDistinct sampleEnv := by
  refine ⟨?_, ?_, ?_⟩
  · intro i j hi hj h
    have := congrArg String.length h
    simp [sampleEnv, tally, String.length_append] at this
    omega
  · intro i j hi hj h
    have := congrArg String.length h
    simp [sampleEnv, tally, String.length_append] at this
    omega
  · intro i j _ _ h
    have := congrArg (fun s => s.data.get? 1) h
    simp [sampleEnv, String.data_append] at this

theorem formPage_noMirrors : NoMirrors formPage := by
  simp [NoMirrors, formPage]

/-- C2 at the sample page: two decks, then one sampler, then a third deck. -/
theorem one_mirror_per_player_witness :
    GroupsDistinct sampleEnv ∧ NoMirrors formPage ∧
    ∃ s, applyCountChanges sampleEnv
        [CountChange.decks 2 true, CountChange.samplers 1 true, CountChange.decks 3 false]
        formPage = some s ∧
      MirrorCounts s ∧ OneMirrorEach sampleEnv s ∧ NoGroupRepeated s :=
  ⟨sampleEnv_groupsDistinct, formPage_noMirrors,
    one_mirror_per_player sampleEnv sampleEnv_groupsDistinct formPage formPage_noMirrors _⟩

/-! ### `slotApply` -/

theorem setEach_apply (c : ControlValues) (ps : List ConfigKey) (v : ℚ) (k : ConfigKey) :
    setEach c ps v k = if k ∈ ps then v else c k := by
  unfold setEach
  induction ps generalizing c with
  | nil => simp
  | cons p ps ih =>
    rw [List.foldl_cons, ih]
    by_cases h1 : k ∈ ps
    · simp [h1]
    · by_cases h2 : k = p
      · simp [h2, controlSet]
      · simp [h1, h2, controlSet]

theorem negateEach_apply_of_not_mem (c : ControlValues) (ps : List ConfigKey) (k : ConfigKey)
    (h : k ∉ ps) : negateEach c ps k = c k := by
  unfold negateEach
  induction ps generalizing c with
  | nil => simp
  | cons p ps ih =>
    rw [List.foldl_cons, ih _ (fun hk => h (List.mem_cons_of_mem _ hk))]
    have : k ≠ p := fun hk => h (hk ▸ List.mem_cons_self _ _)
    simp [controlSet, this]

theorem not_mem_of_item {ps : List ConfigKey} {a b : String} {p : ConfigKey}
    (h : ∀ q ∈ ps, q.item = a) (hp : p.item = b) (hab : b ≠ a) : p ∉ ps :=
  fun hm => hab (hp ▸ h p hm)

theorem applyRateDirection_controls {s : DlgPrefDeck} (d : ConfigKey) (b : Bool)
    {k : ConfigKey} (h : k ∉ s.m_rateControls) :
    (applyRateDirection s d b).controls k =
      if k ∈ s.m_rateDirectionControls then (if b then kRateDirectionInverted else 1)
      else s.controls k := by
  unfold applyRateDirection
  simp only
  by_cases hc : (if b then kRateDirectionInverted else (1 : ℚ)) ≠ s.controls d
  · rw [if_pos hc, negateEach_apply_of_not_mem _ _ _ h, setEach_apply]
  · rw [if_neg hc, setEach_apply]

theorem slotApply_eq {env : Env} {s : DlgPrefDeck} {d : ConfigKey} {ds : List ConfigKey}
    (h : s.m_rateDirectionControls = d :: ds) :
    slotApply env s = some (applyTail env
      (applyRateDirection (applyHead s) d s.m_bRateDownIncreasesSpeed)) := by
  have h1 : (applyHead s).m_rateDirectionControls = d :: ds := by
    simp [applyHead, setRateRangeForAllDecks, h]
  have h3 : (applyHead s).m_bRateDownIncreasesSpeed = s.m_bRateDownIncreasesSpeed := by
    simp [applyHead, setRateRangeForAllDecks]
  simp only [slotApply, setRateDirectionForAllDecks, h1, List.head?_cons, Option.map_some', h3]

/-- The control values after the three stages of `slotApply`, away from the rate mirrors. -/
theorem applyStages_controls (env : Env) (s : DlgPrefDeck) (d : ConfigKey) (b : Bool)
    {k : ConfigKey} (h : k ∉ s.m_rateControls) :
    (applyTail env (applyRateDirection (applyHead s) d b)).controls k =
      if k ∈ s.m_keyunlockModeControls then toDouble s.m_keyunlockMode
      else if k ∈ s.m_keylockModeControls then toDouble s.m_keylockMode
      else if k ∈ s.m_rateDirectionControls then (if b then kRateDirectionInverted else 1)
      else if k ∈ s.m_rateRangeControls then toDouble s.m_iRateRangePercent / 100
      else if k ∈ s.m_cueControls then toDouble s.m_cueMode
      else if k = ck "TimeFormat" then
        variantToDouble (s.comboBoxTimeFormat.itemData s.comboBoxTimeFormat.currentIndex)
      else if k = ck "ShowDurationRemaining" then toDouble s.m_timeDisplayMode
      else s.controls k := by
  have e1 : (applyTail env (applyRateDirection (applyHead s) d b)).controls k =
      if k ∈ s.m_keyunlockModeControls then toDouble s.m_keyunlockMode
      else if k ∈ s.m_keylockModeControls then toDouble s.m_keylockMode
      else (applyRateDirection (applyHead s) d b).controls k := by
    simp [applyTail, setEach_apply, applyRateDirection, applyHead, setRateRangeForAllDecks]
  have h' : k ∉ (applyHead s).m_rateControls := by
    simpa [applyHead, setRateRangeForAllDecks] using h
  rw [e1, applyRateDirection_controls d b h']
  simp [applyHead, setRateRangeForAllDecks, setEach_apply, controlSet]

theorem mirrorsAgree_of_applyStages (env : Env) (s : DlgPrefDeck) (d : ConfigKey)
    (hw : MirrorItems s) :
    MirrorsAgree (applyTail env (applyRateDirection (applyHead s) d s.m_bRateDownIncreasesSpeed))
    := by
  obtain ⟨hr, hrr, hrd, hc, hkl, hku⟩ := hw
  have lists : SameMirrors s
      (applyTail env (applyRateDirection (applyHead s) d s.m_bRateDownIncreasesSpeed)) := by
    simp [SameMirrors, applyTail, applyRateDirection, applyHead, setRateRangeForAllDecks]
  obtain ⟨-, l2, l3, l4, l5, l6⟩ := lists
  unfold MirrorsAgree
  rw [l2, l3, l4, l5, l6]
  refine ⟨?_, ?_, ?_, ?_, ?_, ?_, ?_⟩
  · intro p hp
    have i := hc p hp
    rw [applyStages_controls env s d _ (not_mem_of_item hr i (by decide)),
      if_neg (not_mem_of_item hku i (by decide)), if_neg (not_mem_of_item hkl i (by decide)),
      if_neg (not_mem_of_item hrd i (by decide)), if_neg (not_mem_of_item hrr i (by decide)),
      if_pos hp]
    simp [applyTail, applyRateDirection, applyHead, setRateRangeForAllDecks, configSet, ck]
  · intro p hp
    have i := hkl p hp
    rw [applyStages_controls env s d _ (not_mem_of_item hr i (by decide)),
      if_neg (not_mem_of_item hku i (by decide)), if_pos hp]
    simp [applyTail, applyRateDirection, applyHead, setRateRangeForAllDecks, configSet, ck]
  · intro p hp
    have i := hku p hp
    rw [applyStages_controls env s d _ (not_mem_of_item hr i (by decide)), if_pos hp]
    simp [applyTail, applyRateDirection, applyHead, setRateRangeForAllDecks, configSet, ck]
  · refine ⟨toDouble s.m_iRateRangePercent, ?_, ?_⟩
    · simp [applyTail, applyRateDirection, applyHead, setRateRangeForAllDecks, configSet, ck]
    · intro p hp
      have i := hrr p hp
      rw [applyStages_controls env s d _ (not_mem_of_item hr i (by decide)),
        if_neg (not_mem_of_item hku i (by decide)), if_neg (not_mem_of_item hkl i (by decide)),
        if_neg (not_mem_of_item hrd i (by decide)), if_pos hp]
  · cases hb : s.m_bRateDownIncreasesSpeed <;>
      simp [applyTail, applyRateDirection, applyHead, setRateRangeForAllDecks, configSet, ck,
        hb, boolToInt, toDouble]
  · intro hcfg p hp
    have i := hrd p hp
    rw [applyStages_controls env s d _ (not_mem_of_item hr i (by decide)),
      if_neg (not_mem_of_item hku i (by decide)), if_neg (not_mem_of_item hkl i (by decide)),
      if_pos hp]
    cases hb : s.m_bRateDownIncreasesSpeed
    · simp [applyTail, applyRateDirection, applyHead, setRateRangeForAllDecks, configSet, ck,
        hb, boolToInt, toDouble] at hcfg
    · simp [kRateDirectionInverted]
  · intro hcfg p hp
    have i := hrd p hp
    rw [applyStages_controls env s d _ (not_mem_of_item hr i (by decide)),
      if_neg (not_mem_of_item hku i (by decide)), if_neg (not_mem_of_item hkl i (by decide)),
      if_pos hp]
    cases hb : s.m_bRateDownIncreasesSpeed
    · simp
    · simp [applyTail, applyRateDirection, applyHead, setRateRangeForAllDecks, configSet, ck,
        hb, boolToInt, toDouble] at hcfg

/-- C3. After `slotApply` the stored settings and the mirrors agree for every deck and
sampler: each `cue_mode`, `keylockMode` and `keyunlockMode` mirror holds the stored
`CueDefault`, `keylockMode` and `keyunlockMode`, each `rateRange` mirror holds the stored
`RateRangePercent` over 100, and each `rate_dir` mirror holds -1 when the stored `RateDir` is
1 and +1 when it is 0.  The page has at least one deck or sampler, and each list holds the
proxies of its own control. -/
theorem apply_syncs_mirrors (env : Env) (s : DlgPrefDeck) (hw : MirrorItems s)
    (hne : s.m_rateDirectionControls ≠ []) :
    ∃ s', slotApply env s = some s' ∧ MirrorsAgree s' := by
  cases hl : s.m_rateDirectionControls with
  | nil => exact absurd hl hne
  | cons d ds => exact ⟨_, slotApply_eq hl, mirrorsAgree_of_applyStages env s d hw⟩

theorem oneDeckPage_mirrorItems : MirrorItems oneDeckPage := by
  simp [MirrorItems, oneDeckPage, formPage]

/-- C3 at the sample page with one deck. -/
theorem apply_syncs_mirrors_witness :
    MirrorItems oneDeckPage ∧ oneDeckPage.m_rateDirectionControls ≠ [] ∧
    ∃ s', slotApply sampleEnv oneDeckPage = some s' ∧ MirrorsAgree s' :=
  ⟨oneDeckPage_mirrorItems, by simp [oneDeckPage],
    apply_syncs_mirrors sampleEnv oneDeckPage oneDeckPage_mirrorItems (by simp [oneDeckPage])⟩

theorem configSet_other_group (c : UserSettings) (item : String) (v : ℚ) {k : ConfigKey}
    (h : k.group ≠ controlsGroup) : configSet c (ck item) v k = c k := by
  have : k ≠ ck item := fun e => h (by rw [e]; rfl)
  simp [configSet, this]

theorem applyStages_confined (env : Env) (s : DlgPrefDeck) (d : ConfigKey) (b : Bool) :
    ApplyConfined s (applyTail env (applyRateDirection (applyHead s) d b)) := by
  refine ⟨?_, ?_, ?_, ?_, ?_⟩
  · intro k hk
    simp [applyTail, applyRateDirection, applyHead, setRateRangeForAllDecks,
      configSet_other_group _ _ _ hk]
  · simp [applyTail, applyRateDirection, applyHead, setRateRangeForAllDecks]
  · simp [applyTail, applyRateDirection, applyHead, setRateRangeForAllDecks]
  · simp [SameMirrors, applyTail, applyRateDirection, applyHead, setRateRangeForAllDecks]
  · simp [SamePending, applyTail, applyRateDirection, applyHead, setRateRangeForAllDecks]

/-- C8. The effects of `slotApply` are confined: on a page with at least one deck or
sampler it returns, and it leaves every settings entry whose group is not `[Controls]`, the
numbers of configured decks and samplers, the six mirror lists and every pending selection
unchanged. -/
theorem apply_confined (env : Env) (s : DlgPrefDeck) (hne : s.m_rateDirectionControls ≠ []) :
    ∃ s', slotApply env s = some s' ∧ ApplyConfined s s' := by
  cases hl : s.m_rateDirectionControls with
  | nil => exact absurd hl hne
  | cons d ds => exact ⟨_, slotApply_eq hl, applyStages_confined env s d _⟩

/-- C8 at the sample page with one deck. -/
theorem apply_confined_witness :
    oneDeckPage.m_rateDirectionControls ≠ [] ∧
    ∃ s', slotApply sampleEnv oneDeckPage = some s' ∧ ApplyConfined oneDeckPage s' :=
  ⟨by simp [oneDeckPage], apply_confined sampleEnv oneDeckPage (by simp [oneDeckPage])⟩

/-! ### Widget setters in closed form

A setter that finds the widget unchanged does nothing; otherwise it stores the new widget
state and passes it to the slot.  Either way the widget ends in the requested state, and the
pending member changes only when the widget did. -/

theorem setIntroStartMove_eq (s : DlgPrefDeck) (b : Bool) :
    setIntroStartMove s b =
      { s with
        checkBoxIntroStartMove := b,
        m_bSetIntroStartAtMainCue :=
          if s.checkBoxIntroStartMove = b then s.m_bSetIntroStartAtMainCue else b } := by
  unfold setIntroStartMove slotMoveIntroStartCheckbox
  by_cases h : s.checkBoxIntroStartMove = b
  · simp only [h, if_true]; subst h; rfl
  · simp only [h, if_false]

theorem setDisallowLoadToPlayingDeck_eq (s : DlgPrefDeck) (b : Bool) :
    setDisallowLoadToPlayingDeck s b =
      { s with
        checkBoxDisallowLoadToPlayingDeck := b,
        m_bDisallowTrackLoadToPlayingDeck :=
          if s.checkBoxDisallowLoadToPlayingDeck = b then s.m_bDisallowTrackLoadToPlayingDeck
          else b } := by
  unfold setDisallowLoadToPlayingDeck slotDisallowTrackLoadToPlayingDeckCheckbox
  by_cases h : s.checkBoxDisallowLoadToPlayingDeck = b
  · simp only [h, if_true]; subst h; rfl
  · simp only [h, if_false]

theorem setCloneDeckOnLoadDoubleTap_eq (s : DlgPrefDeck) (b : Bool) :
    setCloneDeckOnLoadDoubleTap s b =
      { s with
        checkBoxCloneDeckOnLoadDoubleTap := b,
        m_bCloneDeckOnLoadDoubleTap :=
          if s.checkBoxCloneDeckOnLoadDoubleTap = b then s.m_bCloneDeckOnLoadDoubleTap
          else b } := by
  unfold setCloneDeckOnLoadDoubleTap slotCloneDeckOnLoadDoubleTapCheckbox
  by_cases h : s.checkBoxCloneDeckOnLoadDoubleTap = b
  · simp only [h, if_true]; subst h; rfl
  · simp only [h, if_false]

theorem setInvertSpeedSlider_eq (s : DlgPrefDeck) (b : Bool) :
    setInvertSpeedSlider s b =
      { s with
        checkBoxInvertSpeedSlider := b,
        m_bRateDownIncreasesSpeed :=
          if s.checkBoxInvertSpeedSlider = b then s.m_bRateDownIncreasesSpeed else b } := by
  unfold setInvertSpeedSlider slotRateInversionCheckbox
  by_cases h : s.checkBoxInvertSpeedSlider = b
  · simp only [h, if_true]; subst h; rfl
  · simp only [h, if_false]

theorem setResetSpeed_eq (s : DlgPrefDeck) (b : Bool) :
    setResetSpeed s b =
      { s with
        checkBoxResetSpeed := b,
        m_speedAutoReset := if s.checkBoxResetSpeed = b then s.m_speedAutoReset else b } := by
  unfold setResetSpeed slotUpdateSpeedAutoReset
  by_cases h : s.checkBoxResetSpeed = b
  · simp only [h, if_true]; subst h; rfl
  · simp only [h, if_false]

theorem setResetPitch_eq (s : DlgPrefDeck) (b : Bool) :
    setResetPitch s b =
      { s with
        checkBoxResetPitch := b,
        m_pitchAutoReset := if s.checkBoxResetPitch = b then s.m_pitchAutoReset else b } := by
  unfold setResetPitch slotUpdatePitchAutoReset
  by_cases h : s.checkBoxResetPitch = b
  · simp only [h, if_true]; subst h; rfl
  · simp only [h, if_false]

theorem setRateRangeIndex_eq (s : DlgPrefDeck) (i : Int) :
    setRateRangeIndex s i =
      { s with
        ComboBoxRateRange :=
          { s.ComboBoxRateRange with currentIndex := s.ComboBoxRateRange.normIndex i },
        m_iRateRangePercent :=
          if s.ComboBoxRateRange.normIndex i = s.ComboBoxRateRange.currentIndex then
            s.m_iRateRangePercent
          else variantToInt (s.ComboBoxRateRange.itemData (s.ComboBoxRateRange.normIndex i)) } := by
  unfold setRateRangeIndex slotRateRangeComboBox
  by_cases h : s.ComboBoxRateRange.normIndex i = s.ComboBoxRateRange.currentIndex
  · simp only [h, if_true]
  · simp only [h, if_false]; rfl

theorem addRateRangeItem_eq (s : DlgPrefDeck) (d : ℚ) :
    addRateRangeItem s d =
      { s with
        ComboBoxRateRange := s.ComboBoxRateRange.addItem d,
        m_iRateRangePercent :=
          if (s.ComboBoxRateRange.addItem d).currentIndex = s.ComboBoxRateRange.currentIndex then
            s.m_iRateRangePercent
          else variantToInt ((s.ComboBoxRateRange.addItem d).itemData
            (s.ComboBoxRateRange.addItem d).currentIndex) } := by
  unfold addRateRangeItem slotRateRangeComboBox
  by_cases h : (s.ComboBoxRateRange.addItem d).currentIndex = s.ComboBoxRateRange.currentIndex
  · simp only [h, if_true]
  · simp only [h, if_false]

theorem setCueModeIndex_eq (s : DlgPrefDeck) (i : Int) :
    setCueModeIndex s i =
      { s with
        ComboBoxCueMode :=
          { s.ComboBoxCueMode with currentIndex := s.ComboBoxCueMode.normIndex i },
        m_cueMode :=
          if s.ComboBoxCueMode.normIndex i = s.ComboBoxCueMode.currentIndex then s.m_cueMode
          else variantToInt (s.ComboBoxCueMode.itemData (s.ComboBoxCueMode.normIndex i)) } := by
  unfold setCueModeIndex slotCueModeCombobox
  by_cases h : s.ComboBoxCueMode.normIndex i = s.ComboBoxCueMode.currentIndex
  · simp only [h, if_true]
  · simp only [h, if_false]; rfl

theorem setLoadPointIndex_eq (s : DlgPrefDeck) (i : Int) :
    setLoadPointIndex s i =
      { s with
        comboBoxLoadPoint :=
          { s.comboBoxLoadPoint with currentIndex := s.comboBoxLoadPoint.normIndex i },
        m_seekOnLoadMode :=
          if s.comboBoxLoadPoint.normIndex i = s.comboBoxLoadPoint.currentIndex then
            s.m_seekOnLoadMode
          else variantToInt (s.comboBoxLoadPoint.itemData (s.comboBoxLoadPoint.normIndex i)) } := by
  unfold setLoadPointIndex slotSetTrackLoadMode
  by_cases h : s.comboBoxLoadPoint.normIndex i = s.comboBoxLoadPoint.currentIndex
  · simp only [h, if_true]
  · simp only [h, if_false]; rfl

theorem setRateRampSensitivitySlider_eq (s : DlgPrefDeck) (v : Int) :
    setRateRampSensitivitySlider s v =
      { s with
        SliderRateRampSensitivity :=
          { s.SliderRateRampSensitivity with value := s.SliderRateRampSensitivity.bound v },
        m_iRateRampSensitivity :=
          if s.SliderRateRampSensitivity.bound v = s.SliderRateRampSensitivity.value then
            s.m_iRateRampSensitivity
          else s.SliderRateRampSensitivity.bound v } := by
  unfold setRateRampSensitivitySlider slotRateRampSensitivitySlider
  by_cases h : s.SliderRateRampSensitivity.bound v = s.SliderRateRampSensitivity.value
  · simp only [h, if_true]
  · simp only [h, if_false]

theorem setTemporaryRateCoarse_eq (s : DlgPrefDeck) (v : ℚ) :
    setTemporaryRateCoarse s v =
      { s with
        spinBoxTemporaryRateCoarse :=
          { s.spinBoxTemporaryRateCoarse with value := s.spinBoxTemporaryRateCoarse.bound v },
        m_dRateTempCoarse :=
          if s.spinBoxTemporaryRateCoarse.bound v = s.spinBoxTemporaryRateCoarse.value then
            s.m_dRateTempCoarse
          else s.spinBoxTemporaryRateCoarse.bound v } := by
  unfold setTemporaryRateCoarse slotRateTempCoarseSpinbox
  by_cases h : s.spinBoxTemporaryRateCoarse.bound v = s.spinBoxTemporaryRateCoarse.value
  · simp only [h, if_true]
  · simp only [h, if_false]

theorem setTemporaryRateFine_eq (s : DlgPrefDeck) (v : ℚ) :
    setTemporaryRateFine s v =
      { s with
        spinBoxTemporaryRateFine :=
          { s.spinBoxTemporaryRateFine with value := s.spinBoxTemporaryRateFine.bound v },
        m_dRateTempFine :=
          if s.spinBoxTemporaryRateFine.bound v = s.spinBoxTemporaryRateFine.value then
            s.m_dRateTempFine
          else s.spinBoxTemporaryRateFine.bound v } := by
  unfold setTemporaryRateFine slotRateTempFineSpinbox
  by_cases h : s.spinBoxTemporaryRateFine.bound v = s.spinBoxTemporaryRateFine.value
  · simp only [h, if_true]
  · simp only [h, if_false]

theorem setPermanentRateCoarse_eq (s : DlgPrefDeck) (v : ℚ) :
    setPermanentRateCoarse s v =
      { s with
        spinBoxPermanentRateCoarse :=
          { s.spinBoxPermanentRateCoarse with value := s.spinBoxPermanentRateCoarse.bound v },
        m_dRatePermCoarse :=
          if s.spinBoxPermanentRateCoarse.bound v = s.spinBoxPermanentRateCoarse.value then
            s.m_dRatePermCoarse
          else s.spinBoxPermanentRateCoarse.bound v } := by
  unfold setPermanentRateCoarse slotRatePermCoarseSpinbox
  by_cases h : s.spinBoxPermanentRateCoarse.bound v = s.spinBoxPermanentRateCoarse.value
  · simp only [h, if_true]
  · simp only [h, if_false]

theorem setPermanentRateFine_eq (s : DlgPrefDeck) (v : ℚ) :
    setPermanentRateFine s v =
      { s with
        spinBoxPermanentRateFine :=
          { s.spinBoxPermanentRateFine with value := s.spinBoxPermanentRateFine.bound v },
        m_dRatePermFine :=
          if s.spinBoxPermanentRateFine.bound v = s.spinBoxPermanentRateFine.value then
            s.m_dRatePermFine
          else s.spinBoxPermanentRateFine.bound v } := by
  unfold setPermanentRateFine slotRatePermFineSpinbox
  by_cases h : s.spinBoxPermanentRateFine.bound v = s.spinBoxPermanentRateFine.value
  · simp only [h, if_true]
  · simp only [h, if_false]

theorem checkRateRampModeLinear_eq (env : Env) (s : DlgPrefDeck) :
    checkRateRampModeLinear env s =
      { s with
        radioButtonRateRampModeLinear := true,
        radioButtonRateRampModeStepping := false,
        m_bRateRamping := if s.radioButtonRateRampModeLinear then s.m_bRateRamping
                          else env.Linear } := by
  unfold checkRateRampModeLinear slotRateRampingModeLinearButton
  cases h : s.radioButtonRateRampModeLinear <;> simp

theorem checkRateRampModeStepping_eq (env : Env) (s : DlgPrefDeck) :
    checkRateRampModeStepping env s =
      { s with
        radioButtonRateRampModeLinear := false,
        radioButtonRateRampModeStepping := true,
        m_bRateRamping := if s.radioButtonRateRampModeLinear then env.Stepping
                          else s.m_bRateRamping } := by
  unfold checkRateRampModeStepping slotRateRampingModeLinearButton
  cases h : s.radioButtonRateRampModeLinear <;> simp

/-! ### `slotUpdate` step by step -/

theorem updateChecks_frame (env : Env) (s : DlgPrefDeck) :
    (updateChecks env s).controls = s.controls ∧ SameMirrors s (updateChecks env s) := by
  simp [updateChecks, SameMirrors, setIntroStartMove_eq, setDisallowLoadToPlayingDeck_eq,
    setCloneDeckOnLoadDoubleTap_eq, slotSetTrackTimeDisplay, checkRemaining,
    checkElapsedAndRemaining, checkElapsed, apply_ite DlgPrefDeck.controls,
    apply_ite DlgPrefDeck.m_rateControls, apply_ite DlgPrefDeck.m_rateRangeControls,
    apply_ite DlgPrefDeck.m_rateDirectionControls, apply_ite DlgPrefDeck.m_cueControls,
    apply_ite DlgPrefDeck.m_keylockModeControls, apply_ite DlgPrefDeck.m_keyunlockModeControls]

theorem showRateRange_frame (s : DlgPrefDeck) (v : ℚ) :
    (showRateRange s v).controls = s.controls ∧ SameMirrors s (showRateRange s v) := by
  simp [showRateRange, SameMirrors, setRateRangeIndex_eq, addRateRangeItem_eq,
    apply_ite DlgPrefDeck.controls,
    apply_ite DlgPrefDeck.m_rateControls, apply_ite DlgPrefDeck.m_rateRangeControls,
    apply_ite DlgPrefDeck.m_rateDirectionControls, apply_ite DlgPrefDeck.m_cueControls,
    apply_ite DlgPrefDeck.m_keylockModeControls, apply_ite DlgPrefDeck.m_keyunlockModeControls]

theorem showRateDirection_frame (s : DlgPrefDeck) (v : ℚ) :
    (showRateDirection s v).controls = s.controls ∧ SameMirrors s (showRateDirection s v) := by
  simp [showRateDirection, SameMirrors, setInvertSpeedSlider_eq]

theorem showCueMode_frame (s : DlgPrefDeck) (v : ℚ) :
    (showCueMode s v).controls = s.controls ∧ SameMirrors s (showCueMode s v) := by
  simp [showCueMode, SameMirrors, setCueModeIndex_eq]

theorem showKeylockMode_frame (env : Env) (s : DlgPrefDeck) (v : ℚ) :
    (showKeylockMode env s v).controls = s.controls ∧
      SameMirrors s (showKeylockMode env s v) := by
  unfold showKeylockMode
  split <;> simp [SameMirrors, checkCurrentKey, checkOriginalKey]

theorem showKeyunlockMode_frame (env : Env) (s : DlgPrefDeck) (v : ℚ) :
    (showKeyunlockMode env s v).controls = s.controls ∧
      SameMirrors s (showKeyunlockMode env s v) := by
  unfold showKeyunlockMode
  split <;> simp [SameMirrors, checkKeepUnlockedKey, checkResetUnlockedKey]

theorem slotUpdate_eq (env : Env) (s : DlgPrefDeck) {p1 p2 p3 p4 p5 : ConfigKey}
    {t1 t2 t3 t4 t5 : List ConfigKey}
    (h1 : s.m_rateRangeControls = p1 :: t1) (h2 : s.m_rateDirectionControls = p2 :: t2)
    (h3 : s.m_cueControls = p3 :: t3) (h4 : s.m_keylockModeControls = p4 :: t4)
    (h5 : s.m_keyunlockModeControls = p5 :: t5) :
    slotUpdate env s = some (slotUpdateWith env s (s.controls p1) (s.controls p2)
      (s.controls p3) (s.controls p4) (s.controls p5)) := by
  obtain ⟨c0, -, a0, b0, d0, e0, f0⟩ := updateChecks_frame env s
  obtain ⟨c1, -, a1, b1, d1, e1, f1⟩ := showRateRange_frame (updateChecks env s) (s.controls p1)
  obtain ⟨c2, -, a2, b2, d2, e2, f2⟩ := showRateDirection_frame
    (showRateRange (updateChecks env s) (s.controls p1)) (s.controls p2)
  obtain ⟨c3, -, a3, b3, d3, e3, f3⟩ := showCueMode_frame (showRateDirection
    (showRateRange (updateChecks env s) (s.controls p1)) (s.controls p2)) (s.controls p3)
  obtain ⟨c4, -, a4, b4, d4, e4, f4⟩ := showKeylockMode_frame env (showCueMode (showRateDirection
    (showRateRange (updateChecks env s) (s.controls p1)) (s.controls p2)) (s.controls p3))
    (s.controls p4)
  unfold slotUpdate slotUpdateWith
  simp only [updateRateRange, a0, h1, List.head?_cons, c0, Option.bind_eq_bind, Option.some_bind,
    updateRateDirection, b1, b0, h2, c1, updateCueMode, d2, d1, d0, h3, c2,
    updateKeylockMode, e3, e2, e1, e0, h4, c3, updateKeyunlockMode, f4, f3, f2, f1, f0, h5, c4]

/-! ### The steps of `slotUpdate` and of the constructor in closed form -/

theorem slotSetTrackTimeDisplay_eq (env : Env) (s : DlgPrefDeck) (v : ℚ) :
    slotSetTrackTimeDisplay env s v =
      { s with
        m_timeDisplayMode := toInt v,
        m_pConfig := configSet s.m_pConfig (ck "PositionDisplay") v,
        radioButtonRemaining := decide (toInt v = env.REMAINING),
        radioButtonElapsedAndRemaining :=
          decide (¬ toInt v = env.REMAINING ∧ toInt v = env.ELAPSED_AND_REMAINING),
        radioButtonElapsed :=
          decide (¬ toInt v = env.REMAINING ∧ ¬ toInt v = env.ELAPSED_AND_REMAINING) } := by
  unfold slotSetTrackTimeDisplay checkRemaining checkElapsedAndRemaining checkElapsed
  by_cases h1 : toInt v = env.REMAINING
  · simp [h1]
  · by_cases h2 : toInt v = env.ELAPSED_AND_REMAINING
    · have h1' : ¬ env.ELAPSED_AND_REMAINING = env.REMAINING := h2 ▸ h1
      simp [h2, h1']
    · simp [h1, h2]

theorem showKeylockMode_eq (env : Env) (s : DlgPrefDeck) (v : ℚ) :
    showKeylockMode env s v =
      { s with
        radioButtonOriginalKey := decide (¬ toInt v = env.LockCurrentKey),
        radioButtonCurrentKey := decide (toInt v = env.LockCurrentKey) } := by
  unfold showKeylockMode checkCurrentKey checkOriginalKey
  by_cases h : toInt v = env.LockCurrentKey <;> simp [h]

theorem showKeyunlockMode_eq (env : Env) (s : DlgPrefDeck) (v : ℚ) :
    showKeyunlockMode env s v =
      { s with
        radioButtonResetUnlockedKey := decide (¬ toInt v = env.KeepLockedKey),
        radioButtonKeepUnlockedKey := decide (toInt v = env.KeepLockedKey) } := by
  unfold showKeyunlockMode checkKeepUnlockedKey checkResetUnlockedKey
  by_cases h : toInt v = env.KeepLockedKey <;> simp [h]

theorem showRampMode_eq (env : Env) (s : DlgPrefDeck) :
    showRampMode env s =
      { s with
        radioButtonRateRampModeLinear := decide (s.m_bRateRamping = env.Linear),
        radioButtonRateRampModeStepping := decide (¬ s.m_bRateRamping = env.Linear),
        m_bRateRamping :=
          if s.m_bRateRamping = env.Linear then
            (if s.radioButtonRateRampModeLinear then s.m_bRateRamping else env.Linear)
          else (if s.radioButtonRateRampModeLinear then env.Stepping else s.m_bRateRamping) } := by
  unfold showRampMode
  by_cases h : s.m_bRateRamping = env.Linear
  · simp only [h, if_true, checkRateRampModeLinear_eq, decide_True, not_true_eq_false,
      decide_False]
  · simp only [h, if_false, checkRateRampModeStepping_eq, decide_False, not_false_eq_true,
      decide_True]

/-- The ramp mode the page holds once its radio button has been checked: the pending mode
when that is `Linear`, and otherwise `Stepping` when the linear button was on. -/
theorem showRampMode_rateRamping (env : Env) (s : DlgPrefDeck) :
    (showRampMode env s).m_bRateRamping =
      if s.m_bRateRamping = env.Linear then env.Linear
      else if s.radioButtonRateRampModeLinear then env.Stepping else s.m_bRateRamping := by
  rw [showRampMode_eq]
  by_cases h : s.m_bRateRamping = env.Linear
  · simp [h]
  · simp [h]

theorem updateAutoReset_eq (env : Env) (s : DlgPrefDeck) :
    updateAutoReset env s =
      { s with
        checkBoxResetPitch := shownResetPitch env
          (getValueInt s.m_pConfig (ck "SpeedAutoReset") env.RESET_PITCH) s.checkBoxResetPitch,
        checkBoxResetSpeed := shownResetSpeed env
          (getValueInt s.m_pConfig (ck "SpeedAutoReset") env.RESET_PITCH) s.checkBoxResetSpeed,
        m_pitchAutoReset :=
          if s.checkBoxResetPitch = shownResetPitch env
              (getValueInt s.m_pConfig (ck "SpeedAutoReset") env.RESET_PITCH)
              s.checkBoxResetPitch then s.m_pitchAutoReset
          else shownResetPitch env
              (getValueInt s.m_pConfig (ck "SpeedAutoReset") env.RESET_PITCH)
              s.checkBoxResetPitch,
        m_speedAutoReset :=
          if s.checkBoxResetSpeed = shownResetSpeed env
              (getValueInt s.m_pConfig (ck "SpeedAutoReset") env.RESET_PITCH)
              s.checkBoxResetSpeed then s.m_speedAutoReset
          else shownResetSpeed env
              (getValueInt s.m_pConfig (ck "SpeedAutoReset") env.RESET_PITCH)
              s.checkBoxResetSpeed } := by
  unfold updateAutoReset shownResetPitch shownResetSpeed
  simp only [setResetSpeed_eq, setResetPitch_eq]
  split_ifs <;> simp_all

theorem initTrackTimeDisplay_eq (env : Env) (s : DlgPrefDeck) :
    initTrackTimeDisplay env s =
      { s with
        radioButtonRemaining := decide (getValueDouble s.m_pConfig (ck "PositionDisplay")
          (toDouble env.ELAPSED_AND_REMAINING) = toDouble env.REMAINING),
        radioButtonElapsedAndRemaining :=
          decide (¬ getValueDouble s.m_pConfig (ck "PositionDisplay")
              (toDouble env.ELAPSED_AND_REMAINING) = toDouble env.REMAINING ∧
            getValueDouble s.m_pConfig (ck "PositionDisplay")
              (toDouble env.ELAPSED_AND_REMAINING) = toDouble env.ELAPSED_AND_REMAINING),
        radioButtonElapsed :=
          decide (¬ getValueDouble s.m_pConfig (ck "PositionDisplay")
              (toDouble env.ELAPSED_AND_REMAINING) = toDouble env.REMAINING ∧
            ¬ getValueDouble s.m_pConfig (ck "PositionDisplay")
              (toDouble env.ELAPSED_AND_REMAINING) = toDouble env.ELAPSED_AND_REMAINING),
        controls := controlSet s.controls (ck "ShowDurationRemaining")
          (if getValueDouble s.m_pConfig (ck "PositionDisplay")
              (toDouble env.ELAPSED_AND_REMAINING) = toDouble env.REMAINING then
            toDouble env.REMAINING
          else if getValueDouble s.m_pConfig (ck "PositionDisplay")
              (toDouble env.ELAPSED_AND_REMAINING) = toDouble env.ELAPSED_AND_REMAINING then
            toDouble env.ELAPSED_AND_REMAINING
          else toDouble env.ELAPSED) } := by
  unfold initTrackTimeDisplay checkRemaining checkElapsedAndRemaining checkElapsed
  by_cases h1 : getValueDouble s.m_pConfig (ck "PositionDisplay")
      (toDouble env.ELAPSED_AND_REMAINING) = toDouble env.REMAINING
  · simp [h1]
  · by_cases h2 : getValueDouble s.m_pConfig (ck "PositionDisplay")
        (toDouble env.ELAPSED_AND_REMAINING) = toDouble env.ELAPSED_AND_REMAINING
    · have h1' : ¬ toDouble env.ELAPSED_AND_REMAINING = toDouble env.REMAINING := h2 ▸ h1
      simp [h2, h1']
    · simp [h1, h2]

theorem showRateRange_eq (s : DlgPrefDeck) (r : ℚ) :
    showRateRange s r =
      { s with
        ComboBoxRateRange := (rateRangeShown s.ComboBoxRateRange s.m_iRateRangePercent r).1,
        m_iRateRangePercent := (rateRangeShown s.ComboBoxRateRange s.m_iRateRangePercent r).2 } := by
  unfold showRateRange rateRangeShown
  by_cases h : s.ComboBoxRateRange.findData (toDouble (toInt (r * 100))) = -1
  · simp only [h, if_true, setRateRangeIndex_eq, addRateRangeItem_eq]
  · simp only [h, if_false, setRateRangeIndex_eq]

theorem toInt_intCast (n : Int) : toInt (n : ℚ) = n := by
  simp [toInt]

theorem toInt_toDouble (n : Int) : toInt (toDouble n) = n := toInt_intCast n

theorem toInt_percent (n : Int) : toInt (toDouble n / 100 * 100) = n := by
  rw [div_mul_cancel₀ _ (by norm_num : (100 : ℚ) ≠ 0)]
  exact toInt_toDouble n

theorem variantToInt_toDouble (n : Int) : variantToInt (some (toDouble n)) = n := by
  simp [variantToInt, toDouble]

/-- The rate range box and the pending percentage after `slotUpdate`. -/
theorem slotUpdateWith_rateRange (env : Env) (s : DlgPrefDeck) (v1 v2 v3 v4 v5 : ℚ) :
    (slotUpdateWith env s v1 v2 v3 v4 v5).ComboBoxRateRange =
      (rateRangeShown s.ComboBoxRateRange s.m_iRateRangePercent v1).1 ∧
    (slotUpdateWith env s v1 v2 v3 v4 v5).m_iRateRangePercent =
      (rateRangeShown s.ComboBoxRateRange s.m_iRateRangePercent v1).2 := by
  simp only [slotUpdateWith, updateRates, updateChecks, showRateDirection, showCueMode,
    slotSetTrackTimeDisplay_eq, showKeylockMode_eq, showKeyunlockMode_eq, showRampMode_eq,
    showRateRange_eq, updateAutoReset_eq,
    setIntroStartMove_eq, setDisallowLoadToPlayingDeck_eq, setCloneDeckOnLoadDoubleTap_eq,
    setInvertSpeedSlider_eq, setCueModeIndex_eq, setTemporaryRateCoarse_eq, setTemporaryRateFine_eq,
    setPermanentRateCoarse_eq, setPermanentRateFine_eq, setRateRampSensitivitySlider_eq,
    and_self]

theorem rateRangeShown_seven :
    rateRangeShown { items := rateRangePresets, currentIndex := 2 } 8 (7 / 100) =
      ({ items := rateRangePresets ++ [7], currentIndex := -1 }, 0) := by
  have h : toInt (7 : ℚ) = 7 := by
    simpa using toInt_intCast 7
  simp [rateRangeShown, h, QComboBox.findData, QComboBox.findFrom, rateRangePresets, toDouble,
    QComboBox.addItem, QComboBox.normIndex, QComboBox.itemData, variantToInt]

/-! ### Reset to defaults -/

/-- What `slotResetToDefaults` leaves alone: the mirror lists and the three pending selections
whose radio buttons report clicks only. -/
theorem slotResetToDefaults_frame (env : Env) (s : DlgPrefDeck) :
    SameMirrors s (slotResetToDefaults env s) ∧
    (slotResetToDefaults env s).m_timeDisplayMode = s.m_timeDisplayMode ∧
    (slotResetToDefaults env s).m_keylockMode = s.m_keylockMode ∧
    (slotResetToDefaults env s).m_keyunlockMode = s.m_keyunlockMode := by
  simp only [SameMirrors, slotResetToDefaults, checkRemaining, checkOriginalKey,
    checkResetUnlockedKey, checkRateRampModeStepping_eq,
    setInvertSpeedSlider_eq, setRateRangeIndex_eq, setDisallowLoadToPlayingDeck_eq,
    setCloneDeckOnLoadDoubleTap_eq, setCueModeIndex_eq, setLoadPointIndex_eq,
    setRateRampSensitivitySlider_eq, setTemporaryRateCoarse_eq, setTemporaryRateFine_eq,
    setPermanentRateCoarse_eq, setPermanentRateFine_eq, setResetSpeed_eq, setResetPitch_eq,
    and_self]

/-- The radio buttons that `slotResetToDefaults` checks. -/
theorem slotResetToDefaults_radio (env : Env) (s : DlgPrefDeck) :
    (slotResetToDefaults env s).radioButtonRemaining = true ∧
    (slotResetToDefaults env s).radioButtonOriginalKey = true ∧
    (slotResetToDefaults env s).radioButtonResetUnlockedKey = true := by
  simp only [slotResetToDefaults, checkRemaining, checkOriginalKey,
    checkResetUnlockedKey, checkRateRampModeStepping_eq,
    setInvertSpeedSlider_eq, setRateRangeIndex_eq, setDisallowLoadToPlayingDeck_eq,
    setCloneDeckOnLoadDoubleTap_eq, setCueModeIndex_eq, setLoadPointIndex_eq,
    setRateRampSensitivitySlider_eq, setTemporaryRateCoarse_eq, setTemporaryRateFine_eq,
    setPermanentRateCoarse_eq, setPermanentRateFine_eq, setResetSpeed_eq, setResetPitch_eq,
    and_self]

/-- The three entries that `slotApply` stores from pending selections with radio buttons. -/
theorem applyStages_radioEntries (env : Env) (s : DlgPrefDeck) (d : ConfigKey) (b : Bool) :
    (applyTail env (applyRateDirection (applyHead s) d b)).m_pConfig (ck "PositionDisplay") =
      some (toDouble s.m_timeDisplayMode) ∧
    (applyTail env (applyRateDirection (applyHead s) d b)).m_pConfig (ck "keylockMode") =
      some (toDouble s.m_keylockMode) ∧
    (applyTail env (applyRateDirection (applyHead s) d b)).m_pConfig (ck "keyunlockMode") =
      some (toDouble s.m_keyunlockMode) := by
  simp [applyTail, applyRateDirection, applyHead, setRateRangeForAllDecks, configSet, ck]

/-- Resetting and then applying stores the display mode and the key lock modes that were
pending before the reset. -/
theorem reset_apply_radioEntries (env : Env) (s : DlgPrefDeck)
    (hne : s.m_rateDirectionControls ≠ []) :
    ∃ s', slotApply env (slotResetToDefaults env s) = some s' ∧
      s'.m_pConfig (ck "PositionDisplay") = some (toDouble s.m_timeDisplayMode) ∧
      s'.m_pConfig (ck "keylockMode") = some (toDouble s.m_keylockMode) ∧
      s'.m_pConfig (ck "keyunlockMode") = some (toDouble s.m_keyunlockMode) := by
  obtain ⟨⟨-, -, hl, -, -, -⟩, h1, h2, h3⟩ := slotResetToDefaults_frame env s
  cases hd : s.m_rateDirectionControls with
  | nil => exact absurd hd hne
  | cons d ds =>
    rw [hd] at hl
    refine ⟨_, slotApply_eq hl, ?_⟩
    rw [← h1, ← h2, ← h3]
    exact applyStages_radioEntries env _ d _

/-! ### Reads of the settings across a write -/

theorem getValueBool_configSet_ne (c : UserSettings) {k k' : ConfigKey} (v : ℚ) (d : Bool)
    (h : k' ≠ k) : getValueBool (configSet c k v) k' d = getValueBool c k' d := by
  simp [getValueBool, configSet, h]

theorem getValueInt_configSet_ne (c : UserSettings) {k k' : ConfigKey} (v : ℚ) (d : Int)
    (h : k' ≠ k) : getValueInt (configSet c k v) k' d = getValueInt c k' d := by
  simp [getValueInt, configSet, h]

theorem getValueDouble_configSet_ne (c : UserSettings) {k k' : ConfigKey} (v : ℚ) (d : ℚ)
    (h : k' ≠ k) : getValueDouble (configSet c k v) k' d = getValueDouble c k' d := by
  simp [getValueDouble, configSet, h]

theorem ck_ne {a b : String} (h : a ≠ b) : ck a ≠ ck b := by
  intro e
  exact h (congrArg ConfigKey.item e)

/-- The pending selections after the steps of `slotUpdate`, in terms of the state before. -/
theorem slotUpdateWith_pending (env : Env) (s : DlgPrefDeck) (v1 v2 v3 v4 v5 : ℚ) :
    (slotUpdateWith env s v1 v2 v3 v4 v5).m_timeDisplayMode =
      toInt (s.controls (ck "ShowDurationRemaining")) ∧
    (slotUpdateWith env s v1 v2 v3 v4 v5).m_seekOnLoadMode = s.m_seekOnLoadMode ∧
    (slotUpdateWith env s v1 v2 v3 v4 v5).m_keylockMode = s.m_keylockMode ∧
    (slotUpdateWith env s v1 v2 v3 v4 v5).m_keyunlockMode = s.m_keyunlockMode ∧
    (slotUpdateWith env s v1 v2 v3 v4 v5).m_bDisallowTrackLoadToPlayingDeck =
      (if s.checkBoxDisallowLoadToPlayingDeck =
          !getValueBool s.m_pConfig (ck "AllowTrackLoadToPlayingDeck") false then
        s.m_bDisallowTrackLoadToPlayingDeck
      else !getValueBool s.m_pConfig (ck "AllowTrackLoadToPlayingDeck") false) ∧
    (slotUpdateWith env s v1 v2 v3 v4 v5).m_bCloneDeckOnLoadDoubleTap =
      (if s.checkBoxCloneDeckOnLoadDoubleTap =
          getValueBool s.m_pConfig (ck "CloneDeckOnLoadDoubleTap") true then
        s.m_bCloneDeckOnLoadDoubleTap
      else getValueBool s.m_pConfig (ck "CloneDeckOnLoadDoubleTap") true) ∧
    (slotUpdateWith env s v1 v2 v3 v4 v5).m_bSetIntroStartAtMainCue =
      (if s.checkBoxIntroStartMove =
          getValueBool s.m_pConfig (ck "SetIntroStartAtMainCue") false then
        s.m_bSetIntroStartAtMainCue
      else getValueBool s.m_pConfig (ck "SetIntroStartAtMainCue") false) ∧
    (slotUpdateWith env s v1 v2 v3 v4 v5).m_bRateDownIncreasesSpeed =
      (if s.checkBoxInvertSpeedSlider = decide (v2 = kRateDirectionInverted) then
        s.m_bRateDownIncreasesSpeed
      else decide (v2 = kRateDirectionInverted)) ∧
    (slotUpdateWith env s v1 v2 v3 v4 v5).m_cueMode =
      (if s.ComboBoxCueMode.normIndex (s.ComboBoxCueMode.findData (toDouble (toInt v3))) =
          s.ComboBoxCueMode.currentIndex then s.m_cueMode
      else variantToInt (s.ComboBoxCueMode.itemData
        (s.ComboBoxCueMode.normIndex (s.ComboBoxCueMode.findData (toDouble (toInt v3)))))) ∧
    (slotUpdateWith env s v1 v2 v3 v4 v5).m_pitchAutoReset =
      (if s.checkBoxResetPitch = shownResetPitch env
          (getValueInt s.m_pConfig (ck "SpeedAutoReset") env.RESET_PITCH) s.checkBoxResetPitch
        then s.m_pitchAutoReset
      else shownResetPitch env
          (getValueInt s.m_pConfig (ck "SpeedAutoReset") env.RESET_PITCH) s.checkBoxResetPitch) ∧
    (slotUpdateWith env s v1 v2 v3 v4 v5).m_speedAutoReset =
      (if s.checkBoxResetSpeed = shownResetSpeed env
          (getValueInt s.m_pConfig (ck "SpeedAutoReset") env.RESET_PITCH) s.checkBoxResetSpeed
        then s.m_speedAutoReset
      else shownResetSpeed env
          (getValueInt s.m_pConfig (ck "SpeedAutoReset") env.RESET_PITCH) s.checkBoxResetSpeed) ∧
    (slotUpdateWith env s v1 v2 v3 v4 v5).m_bRateRamping = (showRampMode env s).m_bRateRamping ∧
    (slotUpdateWith env s v1 v2 v3 v4 v5).m_iRateRampSensitivity =
      (if s.SliderRateRampSensitivity.bound
          (getValueInt s.m_pConfig (ck "RateRampSensitivity") kDefaultRateRampSensitivity) =
          s.SliderRateRampSensitivity.value then s.m_iRateRampSensitivity
      else s.SliderRateRampSensitivity.bound
          (getValueInt s.m_pConfig (ck "RateRampSensitivity") kDefaultRateRampSensitivity)) ∧
    (slotUpdateWith env s v1 v2 v3 v4 v5).m_dRateTempCoarse =
      (if s.spinBoxTemporaryRateCoarse.bound s.temporaryRateChangeCoarse =
          s.spinBoxTemporaryRateCoarse.value then s.m_dRateTempCoarse
      else s.spinBoxTemporaryRateCoarse.bound s.temporaryRateChangeCoarse) ∧
    (slotUpdateWith env s v1 v2 v3 v4 v5).m_dRateTempFine =
      (if s.spinBoxTemporaryRateFine.bound s.temporaryRateChangeFine =
          s.spinBoxTemporaryRateFine.value then s.m_dRateTempFine
      else s.spinBoxTemporaryRateFine.bound s.temporaryRateChangeFine) ∧
    (slotUpdateWith env s v1 v2 v3 v4 v5).m_dRatePermCoarse =
      (if s.spinBoxPermanentRateCoarse.bound s.permanentRateChangeCoarse =
          s.spinBoxPermanentRateCoarse.value then s.m_dRatePermCoarse
      else s.spinBoxPermanentRateCoarse.bound s.permanentRateChangeCoarse) ∧
    (slotUpdateWith env s v1 v2 v3 v4 v5).m_dRatePermFine =
      (if s.spinBoxPermanentRateFine.bound s.permanentRateChangeFine =
          s.spinBoxPermanentRateFine.value then s.m_dRatePermFine
      else s.spinBoxPermanentRateFine.bound s.permanentRateChangeFine) := by
  have k1 : ck "AllowTrackLoadToPlayingDeck" ≠ ck "PositionDisplay" := ck_ne (by decide)
  have k2 : ck "CloneDeckOnLoadDoubleTap" ≠ ck "PositionDisplay" := ck_ne (by decide)
  have k3 : ck "SpeedAutoReset" ≠ ck "PositionDisplay" := ck_ne (by decide)
  have k4 : ck "RateRampSensitivity" ≠ ck "PositionDisplay" := ck_ne (by decide)
  simp only [slotUpdateWith, updateRates, updateChecks, showRateDirection, showCueMode,
    slotSetTrackTimeDisplay_eq, showKeylockMode_eq, showKeyunlockMode_eq, showRampMode_eq,
    showRateRange_eq, updateAutoReset_eq,
    setIntroStartMove_eq, setDisallowLoadToPlayingDeck_eq, setCloneDeckOnLoadDoubleTap_eq,
    setInvertSpeedSlider_eq, setCueModeIndex_eq, setTemporaryRateCoarse_eq, setTemporaryRateFine_eq,
    setPermanentRateCoarse_eq, setPermanentRateFine_eq, setRateRampSensitivitySlider_eq,
    getValueBool_configSet_ne _ _ _ k1, getValueBool_configSet_ne _ _ _ k2,
    getValueInt_configSet_ne _ _ _ k3, getValueInt_configSet_ne _ _ _ k4, and_self]

/-! ### The constructor step by step -/

theorem initialRateRangePercent_configSet (c : UserSettings) {item : String} (v : ℚ)
    (h1 : item ≠ "RateRange") (h2 : item ≠ "RateRangePercent") :
    initialRateRangePercent (configSet c (ck item) v) = initialRateRangePercent c := by
  have k1 : ck "RateRange" ≠ ck item := ck_ne (Ne.symm h1)
  have k2 : ck "RateRangePercent" ≠ ck item := ck_ne (Ne.symm h2)
  simp [initialRateRangePercent, storedRateRangePercent, configExists, getValueStringToInt,
    getValueInt, configSet, k1, k2]

theorem rateRangeBox_eq (box : QComboBox) :
    rateRangePresets.foldl (fun b d => b.addItem d) (QComboBox.clear box) = rateRangeBox := by
  simp [rateRangePresets, QComboBox.addItem, QComboBox.clear, rateRangeBox]

theorem itemData_withIndex (box : QComboBox) (j i : Int) :
    QComboBox.itemData { box with currentIndex := j } i = box.itemData i := rfl

theorem initCueMode_eq (env : Env) (s : DlgPrefDeck) :
    initCueMode env s =
      { s with
        ComboBoxCueMode :=
          { cueModeBox env s.ComboBoxCueMode with
            currentIndex := (cueModeBox env s.ComboBoxCueMode).normIndex
              (indexByData (cueModeBox env s.ComboBoxCueMode)
                (getValueInt s.m_pConfig (ck "CueDefault") 0)) },
        m_cueMode := variantToInt ((cueModeBox env s.ComboBoxCueMode).itemData
          (indexByData (cueModeBox env s.ComboBoxCueMode)
            (getValueInt s.m_pConfig (ck "CueDefault") 0))),
        controls := setEach s.controls s.m_cueControls
          (toDouble (variantToInt ((cueModeBox env s.ComboBoxCueMode).itemData
            (indexByData (cueModeBox env s.ComboBoxCueMode)
              (getValueInt s.m_pConfig (ck "CueDefault") 0))))) } := by
  simp only [initCueMode, slotCueModeCombobox, cueDefaultIndexByData, cueModeBox, indexByData,
    itemData_withIndex]

theorem initRateRange_eq (s : DlgPrefDeck) :
    initRateRange s =
      { s with
        ComboBoxRateRange := rateRangeBox,
        m_iRateRangePercent := initialRateRangePercent s.m_pConfig,
        controls := setEach s.controls s.m_rateRangeControls
          (toDouble (initialRateRangePercent s.m_pConfig) / 100) } := by
  simp only [initRateRange, setRateRangeForAllDecks, rateRangeBox_eq]

theorem initRamp_eq (env : Env) (s : DlgPrefDeck) :
    initRamp env s =
      { s with
        m_iRateRampSensitivity :=
          getValueInt s.m_pConfig (ck "RateRampSensitivity") kDefaultRateRampSensitivity,
        SliderRateRampSensitivity :=
          { s.SliderRateRampSensitivity with
            value := s.SliderRateRampSensitivity.bound
              (getValueInt s.m_pConfig (ck "RateRampSensitivity") kDefaultRateRampSensitivity) },
        radioButtonRateRampModeLinear :=
          decide (getValueInt s.m_pConfig (ck "RateRamp") env.Stepping = env.Linear),
        radioButtonRateRampModeStepping :=
          decide (¬ getValueInt s.m_pConfig (ck "RateRamp") env.Stepping = env.Linear),
        m_bRateRamping :=
          if getValueInt s.m_pConfig (ck "RateRamp") env.Stepping = env.Linear then
            (if s.radioButtonRateRampModeLinear then
              getValueInt s.m_pConfig (ck "RateRamp") env.Stepping else env.Linear)
          else (if s.radioButtonRateRampModeLinear then env.Stepping
            else getValueInt s.m_pConfig (ck "RateRamp") env.Stepping) } := by
  simp only [initRamp, showRampMode_eq]

theorem initRateButtons_eq (s : DlgPrefDeck) :
    initRateButtons s =
      { s with
        m_dRateTempCoarse :=
          if s.spinBoxTemporaryRateCoarse.bound (getValueDouble s.m_pConfig (ck "RateTempLeft")
              kDefaultTemporaryRateChangeCoarse) = s.spinBoxTemporaryRateCoarse.value then
            getValueDouble s.m_pConfig (ck "RateTempLeft") kDefaultTemporaryRateChangeCoarse
          else s.spinBoxTemporaryRateCoarse.bound (getValueDouble s.m_pConfig (ck "RateTempLeft")
              kDefaultTemporaryRateChangeCoarse),
        m_dRateTempFine :=
          if s.spinBoxTemporaryRateFine.bound (getValueDouble s.m_pConfig (ck "RateTempRight")
              kDefaultTemporaryRateChangeFine) = s.spinBoxTemporaryRateFine.value then
            getValueDouble s.m_pConfig (ck "RateTempRight") kDefaultTemporaryRateChangeFine
          else s.spinBoxTemporaryRateFine.bound (getValueDouble s.m_pConfig (ck "RateTempRight")
              kDefaultTemporaryRateChangeFine),
        m_dRatePermCoarse :=
          if s.spinBoxPermanentRateCoarse.bound (getValueDouble s.m_pConfig (ck "RatePermLeft")
              kDefaultPermanentRateChangeCoarse) = s.spinBoxPermanentRateCoarse.value then
            getValueDouble s.m_pConfig (ck "RatePermLeft") kDefaultPermanentRateChangeCoarse
          else s.spinBoxPermanentRateCoarse.bound (getValueDouble s.m_pConfig (ck "RatePermLeft")
              kDefaultPermanentRateChangeCoarse),
        m_dRatePermFine :=
          if s.spinBoxPermanentRateFine.bound (getValueDouble s.m_pConfig (ck "RatePermRight")
              kDefaultPermanentRateChangeFine) = s.spinBoxPermanentRateFine.value then
            getValueDouble s.m_pConfig (ck "RatePermRight") kDefaultPermanentRateChangeFine
          else s.spinBoxPermanentRateFine.bound (getValueDouble s.m_pConfig (ck "RatePermRight")
              kDefaultPermanentRateChangeFine),
        spinBoxTemporaryRateCoarse :=
          { s.spinBoxTemporaryRateCoarse with
            value := s.spinBoxTemporaryRateCoarse.bound (getValueDouble s.m_pConfig
              (ck "RateTempLeft") kDefaultTemporaryRateChangeCoarse) },
        spinBoxTemporaryRateFine :=
          { s.spinBoxTemporaryRateFine with
            value := s.spinBoxTemporaryRateFine.bound (getValueDouble s.m_pConfig
              (ck "RateTempRight") kDefaultTemporaryRateChangeFine) },
        spinBoxPermanentRateCoarse :=
          { s.spinBoxPermanentRateCoarse with
            value := s.spinBoxPermanentRateCoarse.bound (getValueDouble s.m_pConfig
              (ck "RatePermLeft") kDefaultPermanentRateChangeCoarse) },
        spinBoxPermanentRateFine :=
          { s.spinBoxPermanentRateFine with
            value := s.spinBoxPermanentRateFine.bound (getValueDouble s.m_pConfig
              (ck "RatePermRight") kDefaultPermanentRateChangeFine) },
        temporaryRateChangeCoarse :=
          if s.spinBoxTemporaryRateCoarse.bound (getValueDouble s.m_pConfig (ck "RateTempLeft")
              kDefaultTemporaryRateChangeCoarse) = s.spinBoxTemporaryRateCoarse.value then
            getValueDouble s.m_pConfig (ck "RateTempLeft") kDefaultTemporaryRateChangeCoarse
          else s.spinBoxTemporaryRateCoarse.bound (getValueDouble s.m_pConfig (ck "RateTempLeft")
              kDefaultTemporaryRateChangeCoarse),
        temporaryRateChangeFine :=
          if s.spinBoxTemporaryRateFine.bound (getValueDouble s.m_pConfig (ck "RateTempRight")
              kDefaultTemporaryRateChangeFine) = s.spinBoxTemporaryRateFine.value then
            getValueDouble s.m_pConfig (ck "RateTempRight") kDefaultTemporaryRateChangeFine
          else s.spinBoxTemporaryRateFine.bound (getValueDouble s.m_pConfig (ck "RateTempRight")
              kDefaultTemporaryRateChangeFine),
        permanentRateChangeCoarse :=
          if s.spinBoxPermanentRateCoarse.bound (getValueDouble s.m_pConfig (ck "RatePermLeft")
              kDefaultPermanentRateChangeCoarse) = s.spinBoxPermanentRateCoarse.value then
            getValueDouble s.m_pConfig (ck "RatePermLeft") kDefaultPermanentRateChangeCoarse
          else s.spinBoxPermanentRateCoarse.bound (getValueDouble s.m_pConfig (ck "RatePermLeft")
              kDefaultPermanentRateChangeCoarse),
        permanentRateChangeFine :=
          if s.spinBoxPermanentRateFine.bound (getValueDouble s.m_pConfig (ck "RatePermRight")
              kDefaultPermanentRateChangeFine) = s.spinBoxPermanentRateFine.value then
            getValueDouble s.m_pConfig (ck "RatePermRight") kDefaultPermanentRateChangeFine
          else s.spinBoxPermanentRateFine.bound (getValueDouble s.m_pConfig (ck "RatePermRight")
              kDefaultPermanentRateChangeFine) } := by
  simp only [initRateButtons, setTemporaryRateCoarse_eq, setTemporaryRateFine_eq,
    setPermanentRateCoarse_eq, setPermanentRateFine_eq]

/-- The control values when the constructor reaches its final `slotUpdate`, away from the
rate mirrors. -/
theorem constructStages_controls (env : Env) (s : DlgPrefDeck) (d : ConfigKey) {k : ConfigKey}
    (h : k ∉ s.m_rateControls) :
    (constructStages env s d).controls k =
      if k ∈ s.m_keyunlockModeControls then
        toDouble (getValueInt s.m_pConfig (ck "keyunlockMode") env.ResetLockedKey)
      else if k ∈ s.m_keylockModeControls then
        toDouble (getValueInt s.m_pConfig (ck "keylockMode") env.LockOriginalKey)
      else if k ∈ s.m_rateRangeControls then toDouble (initialRateRangePercent s.m_pConfig) / 100
      else if k ∈ s.m_rateDirectionControls then
        (if getValueBool s.m_pConfig (ck "RateDir") true then kRateDirectionInverted else 1)
      else if k = ck "TimeFormat" then
        toDouble (getValueInt s.m_pConfig (ck "TimeFormat") env.TRADITIONAL)
      else if k = ck "ShowDurationRemaining" then
        (if getValueDouble s.m_pConfig (ck "PositionDisplay")
            (toDouble env.ELAPSED_AND_REMAINING) = toDouble env.REMAINING then
          toDouble env.REMAINING
        else if getValueDouble s.m_pConfig (ck "PositionDisplay")
            (toDouble env.ELAPSED_AND_REMAINING) = toDouble env.ELAPSED_AND_REMAINING then
          toDouble env.ELAPSED_AND_REMAINING
        else toDouble env.ELAPSED)
      else if k ∈ s.m_cueControls then toDouble (constructStages env s d).m_cueMode
      else s.controls k := by
  have k1 : ck "RateDir" ≠ ck "SetIntroStartAtMainCue" := ck_ne (by decide)
  have k2 : ck "keylockMode" ≠ ck "SetIntroStartAtMainCue" := ck_ne (by decide)
  have k3 : ck "keyunlockMode" ≠ ck "SetIntroStartAtMainCue" := ck_ne (by decide)
  simp only [constructStages, initLoad, initTimeFormat, initTrackTimeDisplay_eq,
    initCueMode_eq, applyRateDirection, initRateButtons_eq, initRamp_eq, initAutoReset,
    initKeylock, initRateRange_eq,
    initialRateRangePercent_configSet _ _ (by decide : "SetIntroStartAtMainCue" ≠ "RateRange")
      (by decide : "SetIntroStartAtMainCue" ≠ "RateRangePercent"),
    getValueBool_configSet_ne _ _ _ k1, getValueInt_configSet_ne _ _ _ k2,
    getValueInt_configSet_ne _ _ _ k3,
    setEach_apply, ite_apply, negateEach_apply_of_not_mem _ _ _ h, ite_self, controlSet]

/-- The remaining members of the page when the constructor reaches its final `slotUpdate`. -/
theorem constructStages_fields2 (env : Env) (s : DlgPrefDeck) (d : ConfigKey) :
    (constructStages env s d).m_pitchAutoReset =
      (decide (getValueInt s.m_pConfig (ck "SpeedAutoReset") env.RESET_PITCH = env.RESET_PITCH) ||
        decide (getValueInt s.m_pConfig (ck "SpeedAutoReset") env.RESET_PITCH =
          env.RESET_PITCH_AND_SPEED)) ∧
    (constructStages env s d).checkBoxResetPitch =
      (decide (getValueInt s.m_pConfig (ck "SpeedAutoReset") env.RESET_PITCH = env.RESET_PITCH) ||
        decide (getValueInt s.m_pConfig (ck "SpeedAutoReset") env.RESET_PITCH =
          env.RESET_PITCH_AND_SPEED)) ∧
    (constructStages env s d).m_speedAutoReset =
      (decide (getValueInt s.m_pConfig (ck "SpeedAutoReset") env.RESET_PITCH = env.RESET_SPEED) ||
        decide (getValueInt s.m_pConfig (ck "SpeedAutoReset") env.RESET_PITCH =
          env.RESET_PITCH_AND_SPEED)) ∧
    (constructStages env s d).checkBoxResetSpeed =
      (decide (getValueInt s.m_pConfig (ck "SpeedAutoReset") env.RESET_PITCH = env.RESET_SPEED) ||
        decide (getValueInt s.m_pConfig (ck "SpeedAutoReset") env.RESET_PITCH =
          env.RESET_PITCH_AND_SPEED)) ∧
    (constructStages env s d).m_bRateRamping =
      (if getValueInt s.m_pConfig (ck "RateRamp") env.Stepping = env.Linear then
        (if s.radioButtonRateRampModeLinear then
          getValueInt s.m_pConfig (ck "RateRamp") env.Stepping else env.Linear)
      else (if s.radioButtonRateRampModeLinear then env.Stepping
        else getValueInt s.m_pConfig (ck "RateRamp") env.Stepping)) ∧
    (constructStages env s d).radioButtonRateRampModeLinear =
      decide (getValueInt s.m_pConfig (ck "RateRamp") env.Stepping = env.Linear) ∧
    (constructStages env s d).m_bSetIntroStartAtMainCue =
      (constructStages env s d).checkBoxIntroStartMove ∧
    (constructStages env s d).m_pConfig (ck "SetIntroStartAtMainCue") =
      some (toDouble (boolToInt (constructStages env s d).checkBoxIntroStartMove)) ∧
    (∀ item : String, item ≠ "SetIntroStartAtMainCue" →
      (constructStages env s d).m_pConfig (ck item) = s.m_pConfig (ck item)) ∧
    (constructStages env s d).m_dRateTempCoarse =
      (if s.spinBoxTemporaryRateCoarse.bound (getValueDouble s.m_pConfig (ck "RateTempLeft")
          kDefaultTemporaryRateChangeCoarse) = s.spinBoxTemporaryRateCoarse.value then
        getValueDouble s.m_pConfig (ck "RateTempLeft") kDefaultTemporaryRateChangeCoarse
      else s.spinBoxTemporaryRateCoarse.bound (getValueDouble s.m_pConfig (ck "RateTempLeft")
          kDefaultTemporaryRateChangeCoarse)) ∧
    (constructStages env s d).m_dRateTempFine =
      (if s.spinBoxTemporaryRateFine.bound (getValueDouble s.m_pConfig (ck "RateTempRight")
          kDefaultTemporaryRateChangeFine) = s.spinBoxTemporaryRateFine.value then
        getValueDouble s.m_pConfig (ck "RateTempRight") kDefaultTemporaryRateChangeFine
      else s.spinBoxTemporaryRateFine.bound (getValueDouble s.m_pConfig (ck "RateTempRight")
          kDefaultTemporaryRateChangeFine)) ∧
    (constructStages env s d).m_dRatePermCoarse =
      (if s.spinBoxPermanentRateCoarse.bound (getValueDouble s.m_pConfig (ck "RatePermLeft")
          kDefaultPermanentRateChangeCoarse) = s.spinBoxPermanentRateCoarse.value then
        getValueDouble s.m_pConfig (ck "RatePermLeft") kDefaultPermanentRateChangeCoarse
      else s.spinBoxPermanentRateCoarse.bound (getValueDouble s.m_pConfig (ck "RatePermLeft")
          kDefaultPermanentRateChangeCoarse)) ∧
    (constructStages env s d).m_dRatePermFine =
      (if s.spinBoxPermanentRateFine.bound (getValueDouble s.m_pConfig (ck "RatePermRight")
          kDefaultPermanentRateChangeFine) = s.spinBoxPermanentRateFine.value then
        getValueDouble s.m_pConfig (ck "RatePermRight") kDefaultPermanentRateChangeFine
      else s.spinBoxPermanentRateFine.bound (getValueDouble s.m_pConfig (ck "RatePermRight")
          kDefaultPermanentRateChangeFine)) ∧
    (constructStages env s d).temporaryRateChangeCoarse =
      (constructStages env s d).m_dRateTempCoarse ∧
    (constructStages env s d).temporaryRateChangeFine =
      (constructStages env s d).m_dRateTempFine ∧
    (constructStages env s d).permanentRateChangeCoarse =
      (constructStages env s d).m_dRatePermCoarse ∧
    (constructStages env s d).permanentRateChangeFine =
      (constructStages env s d).m_dRatePermFine ∧
    (constructStages env s d).spinBoxTemporaryRateCoarse =
      { s.spinBoxTemporaryRateCoarse with
        value := s.spinBoxTemporaryRateCoarse.bound (getValueDouble s.m_pConfig
          (ck "RateTempLeft") kDefaultTemporaryRateChangeCoarse) } ∧
    (constructStages env s d).spinBoxTemporaryRateFine =
      { s.spinBoxTemporaryRateFine with
        value := s.spinBoxTemporaryRateFine.bound (getValueDouble s.m_pConfig
          (ck "RateTempRight") kDefaultTemporaryRateChangeFine) } ∧
    (constructStages env s d).spinBoxPermanentRateCoarse =
      { s.spinBoxPermanentRateCoarse with
        value := s.spinBoxPermanentRateCoarse.bound (getValueDouble s.m_pConfig
          (ck "RatePermLeft") kDefaultPermanentRateChangeCoarse) } ∧
    (constructStages env s d).spinBoxPermanentRateFine =
      { s.spinBoxPermanentRateFine with
        value := s.spinBoxPermanentRateFine.bound (getValueDouble s.m_pConfig
          (ck "RatePermRight") kDefaultPermanentRateChangeFine) } := by
  have k1 : ck "RateDir" ≠ ck "SetIntroStartAtMainCue" := ck_ne (by decide)
  have k5 : ck "SpeedAutoReset" ≠ ck "SetIntroStartAtMainCue" := ck_ne (by decide)
  have k6 : ck "RateRamp" ≠ ck "SetIntroStartAtMainCue" := ck_ne (by decide)
  have k7 : ck "RateTempLeft" ≠ ck "SetIntroStartAtMainCue" := ck_ne (by decide)
  have k8 : ck "RateTempRight" ≠ ck "SetIntroStartAtMainCue" := ck_ne (by decide)
  have k9 : ck "RatePermLeft" ≠ ck "SetIntroStartAtMainCue" := ck_ne (by decide)
  have k10 : ck "RatePermRight" ≠ ck "SetIntroStartAtMainCue" := ck_ne (by decide)
  have hcfg : ∀ (c : UserSettings) (v : ℚ) (item : String), item ≠ "SetIntroStartAtMainCue" →
      configSet c (ck "SetIntroStartAtMainCue") v (ck item) = c (ck item) := by
    intro c v item h
    simp [configSet, ck_ne h]
  have hcfg2 : ∀ (c : UserSettings) (v : ℚ),
      configSet c (ck "SetIntroStartAtMainCue") v (ck "SetIntroStartAtMainCue") = some v := by
    intro c v
    simp [configSet]
  simp only [constructStages, initLoad, initTimeFormat, initTrackTimeDisplay_eq,
    initCueMode_eq, applyRateDirection, initRateButtons_eq, initRamp_eq, initAutoReset,
    initKeylock, initRateRange_eq,
    getValueBool_configSet_ne _ _ _ k1,
    getValueInt_configSet_ne _ _ _ k5, getValueInt_configSet_ne _ _ _ k6,
    getValueDouble_configSet_ne _ _ _ k7, getValueDouble_configSet_ne _ _ _ k8,
    getValueDouble_configSet_ne _ _ _ k9, getValueDouble_configSet_ne _ _ _ k10,
    hcfg2, true_and, and_true, and_self]
  intro item h
  exact hcfg _ _ _ h

/-- The members of the page when the constructor reaches its final `slotUpdate`. -/
theorem constructStages_fields (env : Env) (s : DlgPrefDeck) (d : ConfigKey) :
    SameMirrors s (constructStages env s d) ∧
    (constructStages env s d).ComboBoxCueMode =
      { cueModeBox env s.ComboBoxCueMode with
        currentIndex := (cueModeBox env s.ComboBoxCueMode).normIndex
          (indexByData (cueModeBox env s.ComboBoxCueMode)
            (getValueInt s.m_pConfig (ck "CueDefault") 0)) } ∧
    (constructStages env s d).m_cueMode =
      variantToInt ((cueModeBox env s.ComboBoxCueMode).itemData
        (indexByData (cueModeBox env s.ComboBoxCueMode)
          (getValueInt s.m_pConfig (ck "CueDefault") 0))) ∧
    (constructStages env s d).m_bDisallowTrackLoadToPlayingDeck =
      (!getValueBool s.m_pConfig (ck "AllowTrackLoadToPlayingDeck") false) ∧
    (constructStages env s d).checkBoxDisallowLoadToPlayingDeck =
      (!getValueBool s.m_pConfig (ck "AllowTrackLoadToPlayingDeck") false) ∧
    (constructStages env s d).m_seekOnLoadMode =
      getValueInt s.m_pConfig (ck "CueRecall") env.IntroStart ∧
    (constructStages env s d).m_bCloneDeckOnLoadDoubleTap =
      getValueBool s.m_pConfig (ck "CloneDeckOnLoadDoubleTap") true ∧
    (constructStages env s d).checkBoxCloneDeckOnLoadDoubleTap =
      getValueBool s.m_pConfig (ck "CloneDeckOnLoadDoubleTap") true ∧
    (constructStages env s d).m_bRateDownIncreasesSpeed =
      getValueBool s.m_pConfig (ck "RateDir") true ∧
    (constructStages env s d).checkBoxInvertSpeedSlider =
      getValueBool s.m_pConfig (ck "RateDir") true ∧
    (constructStages env s d).m_iRateRangePercent = initialRateRangePercent s.m_pConfig ∧
    (constructStages env s d).ComboBoxRateRange = rateRangeBox ∧
    (constructStages env s d).m_keylockMode =
      getValueInt s.m_pConfig (ck "keylockMode") env.LockOriginalKey ∧
    (constructStages env s d).m_keyunlockMode =
      getValueInt s.m_pConfig (ck "keyunlockMode") env.ResetLockedKey ∧
    (constructStages env s d).m_iRateRampSensitivity =
      getValueInt s.m_pConfig (ck "RateRampSensitivity") kDefaultRateRampSensitivity ∧
    (constructStages env s d).SliderRateRampSensitivity.value =
      s.SliderRateRampSensitivity.bound
        (getValueInt s.m_pConfig (ck "RateRampSensitivity") kDefaultRateRampSensitivity) ∧
    (constructStages env s d).SliderRateRampSensitivity.bound = s.SliderRateRampSensitivity.bound
    := by
  have k1 : ck "RateDir" ≠ ck "SetIntroStartAtMainCue" := ck_ne (by decide)
  have k2 : ck "keylockMode" ≠ ck "SetIntroStartAtMainCue" := ck_ne (by decide)
  have k3 : ck "keyunlockMode" ≠ ck "SetIntroStartAtMainCue" := ck_ne (by decide)
  have k4 : ck "RateRampSensitivity" ≠ ck "SetIntroStartAtMainCue" := ck_ne (by decide)
  have k5 : ck "SpeedAutoReset" ≠ ck "SetIntroStartAtMainCue" := ck_ne (by decide)
  have k6 : ck "RateRamp" ≠ ck "SetIntroStartAtMainCue" := ck_ne (by decide)
  simp only [SameMirrors, constructStages, initLoad, initTimeFormat, initTrackTimeDisplay_eq,
    initCueMode_eq, applyRateDirection, initRateButtons_eq, initRamp_eq, initAutoReset,
    initKeylock, initRateRange_eq,
    initialRateRangePercent_configSet _ _ (by decide : "SetIntroStartAtMainCue" ≠ "RateRange")
      (by decide : "SetIntroStartAtMainCue" ≠ "RateRangePercent"),
    getValueBool_configSet_ne _ _ _ k1, getValueInt_configSet_ne _ _ _ k2,
    getValueInt_configSet_ne _ _ _ k3, getValueInt_configSet_ne _ _ _ k4,
    getValueInt_configSet_ne _ _ _ k5, getValueInt_configSet_ne _ _ _ k6, and_self]

/-! ### The mirrors the constructor creates -/

theorem onlyMirrorsDiffer_trans {a b c : DlgPrefDeck} (h1 : OnlyMirrorsDiffer a b)
    (h2 : OnlyMirrorsDiffer b c) : OnlyMirrorsDiffer a c := by
  unfold OnlyMirrorsDiffer at *
  rw [h2, h1]

theorem foldl_addMirrors_onlyMirrorsDiffer (g : Int → String) (is : List Int) (s : DlgPrefDeck) :
    OnlyMirrorsDiffer s (is.foldl (fun acc i => addMirrors acc (g i)) s) := by
  induction is generalizing s with
  | nil => rfl
  | cons i is ih =>
    rw [List.foldl_cons]
    exact onlyMirrorsDiffer_trans (by rfl) (ih _)

theorem foldl_addMirrors_controls (g : Int → String) (is : List Int) (s : DlgPrefDeck)
    {k : ConfigKey} (h1 : k.item ≠ "keylockMode") (h2 : k.item ≠ "keyunlockMode") :
    (is.foldl (fun acc i => addMirrors acc (g i)) s).controls k = s.controls k := by
  induction is generalizing s with
  | nil => rfl
  | cons i is ih =>
    rw [List.foldl_cons, ih]
    have e1 : k ≠ ⟨g i, "keylockMode"⟩ := fun e => h1 (by rw [e])
    have e2 : k ≠ ⟨g i, "keyunlockMode"⟩ := fun e => h2 (by rw [e])
    simp [addMirrors, controlSet, e1, e2]

theorem mirrorItems_of_appended {g : Int → String} {is : List Int} {s s' : DlgPrefDeck}
    (h : MirrorItems s) (ha : MirrorsAppended g is s s') : MirrorItems s' := by
  obtain ⟨a, b, c, d, e, f⟩ := ha
  obtain ⟨a', b', c', d', e', f'⟩ := h
  unfold MirrorItems
  rw [a, b, c, d, e, f]
  refine ⟨?_, ?_, ?_, ?_, ?_, ?_⟩ <;>
  · intro p hp
    rcases List.mem_append.1 hp with hp | hp
    · first | exact a' p hp | exact b' p hp | exact c' p hp | exact d' p hp | exact e' p hp
            | exact f' p hp
    · obtain ⟨i, -, rfl⟩ := List.mem_map.1 hp
      rfl

theorem hasMirrors_of_appended {g : Int → String} {is : List Int} {s s' : DlgPrefDeck}
    (hne : is ≠ []) (ha : MirrorsAppended g is s s') : HasMirrors s' := by
  obtain ⟨a, b, c, d, e, f⟩ := ha
  unfold HasMirrors
  rw [a, b, c, d, e, f]
  simp [hne]

theorem hasMirrors_of_kept {s s' : DlgPrefDeck} (h : HasMirrors s) (hk : MirrorsKept s s') :
    HasMirrors s' := by
  obtain ⟨⟨t1, a⟩, ⟨t2, b⟩, ⟨t3, c⟩, ⟨t4, d⟩, ⟨t5, e⟩, ⟨t6, f⟩⟩ := hk
  obtain ⟨a', b', c', d', e', f'⟩ := h
  unfold HasMirrors
  rw [a, b, c, d, e, f]
  simp [a', b', c', d', e', f']

theorem slotNumDecksChanged_init_spec (env : Env) (s : DlgPrefDeck) (n : ℚ) :
    ∃ s', slotNumDecksChanged env s n true = some s' ∧ OnlyMirrorsDiffer s s' ∧
      s'.m_iNumConfiguredSamplers = s.m_iNumConfiguredSamplers ∧
      (MirrorItems s → MirrorItems s') ∧
      (HasMirrors s ∨ s.m_iNumConfiguredDecks < staticCastInt n → HasMirrors s') ∧
      (∀ k : ConfigKey, k.item ≠ "keylockMode" → k.item ≠ "keyunlockMode" →
        s'.controls k = s.controls k) := by
  by_cases hle : staticCastInt n ≤ s.m_iNumConfiguredDecks
  · refine ⟨s, by simp [slotNumDecksChanged, hle], rfl, rfl, id, ?_, fun _ _ _ => rfl⟩
    rintro (h | h)
    · exact h
    · omega
  · obtain ⟨s', hs', -, hsm, ha⟩ := slotNumDecksChanged_grow env s n true (by omega)
    have hs2 := hs'
    simp only [slotNumDecksChanged, hle, if_false, if_true, Option.some.injEq] at hs2
    refine ⟨s', hs', ?_, hsm, fun hm => mirrorItems_of_appended hm ha,
      fun _ => hasMirrors_of_appended (loopIndices_ne_nil (by omega)) ha, ?_⟩
    · rw [← hs2]
      exact onlyMirrorsDiffer_trans (foldl_addMirrors_onlyMirrorsDiffer _ _ _) (by rfl)
    · intro k h1 h2
      rw [← hs2]
      exact foldl_addMirrors_controls env.groupForDeck _ s h1 h2

theorem slotNumSamplersChanged_init_spec (env : Env) (s : DlgPrefDeck) (n : ℚ) :
    ∃ s', slotNumSamplersChanged env s n true = some s' ∧ OnlyMirrorsDiffer s s' ∧
      (MirrorItems s → MirrorItems s') ∧
      (HasMirrors s ∨ s.m_iNumConfiguredSamplers < staticCastInt n → HasMirrors s') ∧
      (∀ k : ConfigKey, k.item ≠ "keylockMode" → k.item ≠ "keyunlockMode" →
        s'.controls k = s.controls k) := by
  by_cases hle : staticCastInt n ≤ s.m_iNumConfiguredSamplers
  · refine ⟨s, by simp [slotNumSamplersChanged, hle], rfl, id, ?_, fun _ _ _ => rfl⟩
    rintro (h | h)
    · exact h
    · omega
  · obtain ⟨s', hs', -, -, ha⟩ := slotNumSamplersChanged_grow env s n true (by omega)
    have hs2 := hs'
    simp only [slotNumSamplersChanged, hle, if_false, if_true, Option.some.injEq] at hs2
    refine ⟨s', hs', ?_, fun hm => mirrorItems_of_appended hm ha,
      fun _ => hasMirrors_of_appended (loopIndices_ne_nil (by omega)) ha, ?_⟩
    · rw [← hs2]
      exact onlyMirrorsDiffer_trans (foldl_addMirrors_onlyMirrorsDiffer _ _ _) (by rfl)
    · intro k h1 h2
      rw [← hs2]
      exact foldl_addMirrors_controls env.groupForSampler _ s h1 h2

/-- The two initial calls of `slotNumDecksChanged` and `slotNumSamplersChanged`: with a deck
or a sampler present they return a page with mirrors, each list holding proxies of its own
control, and nothing but the mirrors, the counts and the control values has changed. -/
theorem initMirrors_spec (env : Env) (s0 : DlgPrefDeck) (h : HasPlayer s0) :
    ∃ s1, initMirrors env s0 = some s1 ∧ OnlyMirrorsDiffer s0 s1 ∧ MirrorItems s1 ∧
      HasMirrors s1 := by
  unfold initMirrors
  obtain ⟨sd, hsd, od, e, md, hd, cd⟩ := slotNumDecksChanged_init_spec env
    { s0 with
      m_iNumConfiguredDecks := 0, m_iNumConfiguredSamplers := 0,
      m_rateControls := [], m_rateRangeControls := [], m_rateDirectionControls := [],
      m_cueControls := [], m_keylockModeControls := [], m_keyunlockModeControls := [] }
    (s0.controls ⟨"[Master]", "num_decks"⟩)
  obtain ⟨ss, hss, os, ms, hs, -⟩ := slotNumSamplersChanged_init_spec env sd
    (sd.controls ⟨"[Master]", "num_samplers"⟩)
  refine ⟨ss, ?_, ?_, ?_, ?_⟩
  · simp only [hsd, Option.bind_eq_bind, Option.some_bind, hss]
  · exact onlyMirrorsDiffer_trans (onlyMirrorsDiffer_trans (by rfl) od) os
  · apply ms; apply md
    simp [MirrorItems]
  · apply hs
    rcases h with h | h
    · exact Or.inl (hd (Or.inr h))
    · right
      rw [cd _ (by decide) (by decide)]
      rw [e]
      exact h

theorem initStages_frame (env : Env) (s : DlgPrefDeck) :
    SameMirrors s (initLoad env (initTimeFormat env (initTrackTimeDisplay env
      (initCueMode env s)))) := by
  simp only [SameMirrors, initLoad, initTimeFormat, initTrackTimeDisplay_eq, initCueMode_eq,
    and_self]

theorem constructHead_eq (env : Env) {s0 s1 : DlgPrefDeck} {d : ConfigKey} {t : List ConfigKey}
    (h : initMirrors env s0 = some s1) (hd : s1.m_rateDirectionControls = d :: t) :
    constructHead env s0 = some (constructStages env s1 d) := by
  have hm := (initStages_frame env s1).2.2.1
  simp only [constructHead, h, Option.bind_eq_bind, Option.some_bind, initRateDirection,
    setRateDirectionForAllDecks, hm, hd, List.head?_cons, Option.map_some', constructStages]

theorem slotUpdateWith_frame (env : Env) (s : DlgPrefDeck) (v1 v2 v3 v4 v5 : ℚ) :
    SameMirrors s (slotUpdateWith env s v1 v2 v3 v4 v5) ∧
    (slotUpdateWith env s v1 v2 v3 v4 v5).controls = s.controls ∧
    (slotUpdateWith env s v1 v2 v3 v4 v5).m_pConfig =
      configSet s.m_pConfig (ck "PositionDisplay") (s.controls (ck "ShowDurationRemaining")) := by
  simp only [SameMirrors, slotUpdateWith, updateRates, updateChecks, showRateDirection,
    showCueMode,
    slotSetTrackTimeDisplay_eq, showKeylockMode_eq, showKeyunlockMode_eq, showRampMode_eq,
    showRateRange_eq, updateAutoReset_eq,
    setIntroStartMove_eq, setDisallowLoadToPlayingDeck_eq, setCloneDeckOnLoadDoubleTap_eq,
    setInvertSpeedSlider_eq, setCueModeIndex_eq, setTemporaryRateCoarse_eq, setTemporaryRateFine_eq,
    setPermanentRateCoarse_eq, setPermanentRateFine_eq, setRateRampSensitivitySlider_eq,
    and_self]

theorem mem_head {α : Type} {l t : List α} {p : α} (h : l = p :: t) : p ∈ l := by
  rw [h]; exact List.mem_cons_self _ _

/-- The constructor returns when a deck or a sampler exists, and its result is the final
`slotUpdate` applied to the page the earlier steps built. -/
theorem construct_eq (env : Env) (s0 : DlgPrefDeck) (h : HasPlayer s0) :
    ∃ s1 d p1 p2 p3 p4 p5, OnlyMirrorsDiffer s0 s1 ∧ MirrorItems s1 ∧ HasMirrors s1 ∧
      p1 ∈ s1.m_rateRangeControls ∧ p2 ∈ s1.m_rateDirectionControls ∧ p3 ∈ s1.m_cueControls ∧
      p4 ∈ s1.m_keylockModeControls ∧ p5 ∈ s1.m_keyunlockModeControls ∧
      construct env s0 = some (slotUpdateWith env (constructStages env s1 d)
        ((constructStages env s1 d).controls p1) ((constructStages env s1 d).controls p2)
        ((constructStages env s1 d).controls p3) ((constructStages env s1 d).controls p4)
        ((constructStages env s1 d).controls p5)) := by
  obtain ⟨s1, hs1, ho, hm, hh⟩ := initMirrors_spec env s0 h
  have hh' := hh
  obtain ⟨-, h1, h2, h3, h4, h5⟩ := hh
  obtain ⟨p1, t1, e1⟩ := List.exists_cons_of_ne_nil h1
  obtain ⟨p2, t2, e2⟩ := List.exists_cons_of_ne_nil h2
  obtain ⟨p3, t3, e3⟩ := List.exists_cons_of_ne_nil h3
  obtain ⟨p4, t4, e4⟩ := List.exists_cons_of_ne_nil h4
  obtain ⟨p5, t5, e5⟩ := List.exists_cons_of_ne_nil h5
  obtain ⟨-, f1, f2, f3, f4, f5⟩ := (constructStages_fields env s1 p2).1
  refine ⟨s1, p2, p1, p2, p3, p4, p5, ho, hm, hh', mem_head e1, mem_head e2, mem_head e3,
    mem_head e4, mem_head e5, ?_⟩
  unfold construct
  rw [constructHead_eq env hs1 e2]
  exact slotUpdate_eq env _ (f1.trans e1) (f2.trans e2) (f3.trans e3) (f4.trans e4)
    (f5.trans e5)

theorem normIndex_withIndex (box : QComboBox) (j i : Int) :
    QComboBox.normIndex { box with currentIndex := j } i = box.normIndex i := rfl

theorem findData_withIndex (box : QComboBox) (j : Int) (d : ℚ) :
    QComboBox.findData { box with currentIndex := j } d = box.findData d := rfl

/-- The values the constructor leaves in the controls that `slotUpdate` reads. -/
theorem constructStages_read (env : Env) (s : DlgPrefDeck) (d : ConfigKey) (hm : MirrorItems s)
    {p1 p3 : ConfigKey} (h1 : p1 ∈ s.m_rateRangeControls) (h3 : p3 ∈ s.m_cueControls) :
    (constructStages env s d).controls p1 = toDouble (initialRateRangePercent s.m_pConfig) / 100 ∧
    (constructStages env s d).controls p3 = toDouble (constructStages env s d).m_cueMode ∧
    (constructStages env s d).controls (ck "ShowDurationRemaining") =
      shownDisplayMode env s.m_pConfig ∧
    (constructStages env s d).controls (ck "TimeFormat") =
      toDouble (getValueInt s.m_pConfig (ck "TimeFormat") env.TRADITIONAL) := by
  obtain ⟨hr, hrr, hrd, hc, hkl, hku⟩ := hm
  have i1 := hrr p1 h1
  have i3 := hc p3 h3
  have j1 : (ck "ShowDurationRemaining").item = "ShowDurationRemaining" := rfl
  have j2 : (ck "TimeFormat").item = "TimeFormat" := rfl
  refine ⟨?_, ?_, ?_, ?_⟩
  · rw [constructStages_controls env s d (not_mem_of_item hr i1 (by decide)),
      if_neg (not_mem_of_item hku i1 (by decide)), if_neg (not_mem_of_item hkl i1 (by decide)),
      if_pos h1]
  · have n1 : p3 ≠ ck "TimeFormat" := fun e => by rw [e] at i3; exact absurd i3 (by decide)
    have n2 : p3 ≠ ck "ShowDurationRemaining" := fun e => by
      rw [e] at i3; exact absurd i3 (by decide)
    rw [constructStages_controls env s d (not_mem_of_item hr i3 (by decide)),
      if_neg (not_mem_of_item hku i3 (by decide)), if_neg (not_mem_of_item hkl i3 (by decide)),
      if_neg (not_mem_of_item hrr i3 (by decide)), if_neg (not_mem_of_item hrd i3 (by decide)),
      if_neg n1, if_neg n2, if_pos h3]
  · have n1 : ck "ShowDurationRemaining" ≠ ck "TimeFormat" := ck_ne (by decide)
    rw [constructStages_controls env s d (not_mem_of_item hr j1 (by decide)),
      if_neg (not_mem_of_item hku j1 (by decide)), if_neg (not_mem_of_item hkl j1 (by decide)),
      if_neg (not_mem_of_item hrr j1 (by decide)), if_neg (not_mem_of_item hrd j1 (by decide)),
      if_neg n1, if_pos rfl]
    rfl
  · rw [constructStages_controls env s d (not_mem_of_item hr j2 (by decide)),
      if_neg (not_mem_of_item hku j2 (by decide)), if_neg (not_mem_of_item hkl j2 (by decide)),
      if_neg (not_mem_of_item hrr j2 (by decide)), if_neg (not_mem_of_item hrd j2 (by decide)),
      if_pos rfl]

theorem constructStages_read_dir (env : Env) (s : DlgPrefDeck) (d : ConfigKey)
    (hm : MirrorItems s) {p2 : ConfigKey} (h2 : p2 ∈ s.m_rateDirectionControls) :
    (constructStages env s d).controls p2 =
      if getValueBool s.m_pConfig (ck "RateDir") true then kRateDirectionInverted else 1 := by
  obtain ⟨hr, hrr, hrd, hc, hkl, hku⟩ := hm
  have i2 := hrd p2 h2
  rw [constructStages_controls env s d (not_mem_of_item hr i2 (by decide)),
    if_neg (not_mem_of_item hku i2 (by decide)), if_neg (not_mem_of_item hkl i2 (by decide)),
    if_neg (not_mem_of_item hrr i2 (by decide)), if_pos h2]

theorem sameMirrors_hasMirrors {s s' : DlgPrefDeck} (h : SameMirrors s s') (hh : HasMirrors s) :
    HasMirrors s' := by
  obtain ⟨a, b, c, d, e, f⟩ := h
  unfold HasMirrors
  rw [a, b, c, d, e, f]
  exact hh

theorem sameMirrors_mirrorItems {s s' : DlgPrefDeck} (h : SameMirrors s s')
    (hh : MirrorItems s) : MirrorItems s' := by
  obtain ⟨a, b, c, d, e, f⟩ := h
  unfold MirrorItems
  rw [a, b, c, d, e, f]
  exact hh

theorem ite_eq_self_left {α : Type} [DecidableEq α] (a b : α) :
    (if a = b then a else b) = b := by
  by_cases h : a = b
  · simp [h]
  · simp [h]

/-- The check box of the rate direction and the radio buttons of the display mode after the
steps of `slotUpdate`. -/
theorem slotUpdateWith_widgets (env : Env) (s : DlgPrefDeck) (v1 v2 v3 v4 v5 : ℚ) :
    (slotUpdateWith env s v1 v2 v3 v4 v5).checkBoxInvertSpeedSlider =
      decide (v2 = kRateDirectionInverted) ∧
    (slotUpdateWith env s v1 v2 v3 v4 v5).radioButtonRemaining =
      decide (toInt (s.controls (ck "ShowDurationRemaining")) = env.REMAINING) ∧
    (slotUpdateWith env s v1 v2 v3 v4 v5).radioButtonElapsedAndRemaining =
      decide (¬ toInt (s.controls (ck "ShowDurationRemaining")) = env.REMAINING ∧
        toInt (s.controls (ck "ShowDurationRemaining")) = env.ELAPSED_AND_REMAINING) ∧
    (slotUpdateWith env s v1 v2 v3 v4 v5).radioButtonElapsed =
      decide (¬ toInt (s.controls (ck "ShowDurationRemaining")) = env.REMAINING ∧
        ¬ toInt (s.controls (ck "ShowDurationRemaining")) = env.ELAPSED_AND_REMAINING) := by
  simp only [slotUpdateWith, updateRates, updateChecks, showRateDirection, showCueMode,
    slotSetTrackTimeDisplay_eq, showKeylockMode_eq, showKeyunlockMode_eq, showRampMode_eq,
    showRateRange_eq, updateAutoReset_eq,
    setIntroStartMove_eq, setDisallowLoadToPlayingDeck_eq, setCloneDeckOnLoadDoubleTap_eq,
    setInvertSpeedSlider_eq, setCueModeIndex_eq, setTemporaryRateCoarse_eq, setTemporaryRateFine_eq,
    setPermanentRateCoarse_eq, setPermanentRateFine_eq, setRateRampSensitivitySlider_eq,
    and_self]

/-- The page the constructor builds, member by member, from the settings and the form. -/
theorem construct_summary (env : Env) (s0 : DlgPrefDeck) (h : HasPlayer s0) :
    ∃ s, construct env s0 = some s ∧ HasMirrors s ∧ MirrorItems s ∧ Constructed env s0 s := by
  obtain ⟨s1, d, p1, p2, p3, p4, p5, ho, hm, hh, m1, m2, m3, m4, m5, hc⟩ := construct_eq env s0 h
  refine ⟨_, hc, ?_, ?_, ?_⟩
  · exact sameMirrors_hasMirrors (slotUpdateWith_frame env _ _ _ _ _ _).1
      (sameMirrors_hasMirrors (constructStages_fields env s1 d).1 hh)
  · exact sameMirrors_mirrorItems (slotUpdateWith_frame env _ _ _ _ _ _).1
      (sameMirrors_mirrorItems (constructStages_fields env s1 d).1 hm)
  · obtain ⟨r1, r3, rS, rT⟩ := constructStages_read env s1 d hm m1 m3
    have c0 : s1.m_pConfig = s0.m_pConfig := by rw [ho]
    have b0 : s1.ComboBoxCueMode = s0.ComboBoxCueMode := by rw [ho]
    have l0 : s1.radioButtonRateRampModeLinear = s0.radioButtonRateRampModeLinear := by rw [ho]
    have sl0 : s1.SliderRateRampSensitivity = s0.SliderRateRampSensitivity := by rw [ho]
    have a0 : s1.spinBoxTemporaryRateCoarse = s0.spinBoxTemporaryRateCoarse := by rw [ho]
    have a1 : s1.spinBoxTemporaryRateFine = s0.spinBoxTemporaryRateFine := by rw [ho]
    have a2 : s1.spinBoxPermanentRateCoarse = s0.spinBoxPermanentRateCoarse := by rw [ho]
    have a3 : s1.spinBoxPermanentRateFine = s0.spinBoxPermanentRateFine := by rw [ho]
    obtain ⟨-, f1, f2, f3, f4, f5, f6, f7, f8, f9, f10, f11, f12, f13, f14, f15, f16⟩ :=
      constructStages_fields env s1 d
    obtain ⟨g1, g2, g3, g4, g5, g6, g7, g8, g9, g10, g11, g12, g13, g14, g15, g16, g17, g18, g19,
      g20, g21⟩ := constructStages_fields2 env s1 d
    obtain ⟨u1, u2, u3, u4, u5, u6, u7, u8, u9, u10, u11, u12, u13, u14, u15, u16, u17⟩ :=
      slotUpdateWith_pending env (constructStages env s1 d)
        ((constructStages env s1 d).controls p1) ((constructStages env s1 d).controls p2)
        ((constructStages env s1 d).controls p3) ((constructStages env s1 d).controls p4)
        ((constructStages env s1 d).controls p5)
    obtain ⟨w1, w2⟩ := slotUpdateWith_rateRange env (constructStages env s1 d)
        ((constructStages env s1 d).controls p1) ((constructStages env s1 d).controls p2)
        ((constructStages env s1 d).controls p3) ((constructStages env s1 d).controls p4)
        ((constructStages env s1 d).controls p5)
    obtain ⟨y1, y2, y3, y4⟩ := slotUpdateWith_widgets env (constructStages env s1 d)
        ((constructStages env s1 d).controls p1) ((constructStages env s1 d).controls p2)
        ((constructStages env s1 d).controls p3) ((constructStages env s1 d).controls p4)
        ((constructStages env s1 d).controls p5)
    obtain ⟨-, x1, x2⟩ := slotUpdateWith_frame env (constructStages env s1 d)
        ((constructStages env s1 d).controls p1) ((constructStages env s1 d).controls p2)
        ((constructStages env s1 d).controls p3) ((constructStages env s1 d).controls p4)
        ((constructStages env s1 d).controls p5)
    have rb : ∀ (item : String) (dv : Bool), item ≠ "SetIntroStartAtMainCue" →
        getValueBool (constructStages env s1 d).m_pConfig (ck item) dv =
          getValueBool s0.m_pConfig (ck item) dv := by
      intro item dv hi
      simp only [getValueBool, g9 item hi, c0]
    have ri : ∀ (item : String) (dv : Int), item ≠ "SetIntroStartAtMainCue" →
        getValueInt (constructStages env s1 d).m_pConfig (ck item) dv =
          getValueInt s0.m_pConfig (ck item) dv := by
      intro item dv hi
      simp only [getValueInt, g9 item hi, c0]
    unfold Constructed
    refine ⟨?_, ?_, ?_, ?_, ?_, ?_, ?_, ?_, ?_, ?_, ?_, ?_, ?_, ?_, ?_, ?_, ?_, ?_, ?_, ?_, ?_, ?_,
      ?_, ?_, ?_, ?_⟩
    · rw [u9, f1, f2, r3, f2, b0, c0]
      simp only [normIndex_withIndex, findData_withIndex, itemData_withIndex, pendingCueMode]
    · rw [u1, rS, c0]
    · rw [x1, rS, c0]
    · rw [x2, rS, c0]; simp [configSet]
    · rw [x1, rT, c0]
    · rw [u5, f3, f4, rb _ _ (by decide), c0, if_pos rfl]
    · rw [u2, f5, c0]
    · rw [u6, f6, f7, rb _ _ (by decide), c0, if_pos rfl]
    · rw [u8, f8, f9, constructStages_read_dir env s1 d hm m2, c0]
      cases getValueBool s0.m_pConfig (ck "RateDir") true <;>
        norm_num [kRateDirectionInverted]
    · rw [w2, f10, f11, r1, c0]
    · rw [w1, f10, f11, r1, c0]
    · rw [u3, f12, c0]
    · rw [u4, f13, c0]
    · rw [u10, g1, g2, ri _ _ (by decide), c0]
      exact ite_eq_self_left _ _
    · rw [u11, g3, g4, ri _ _ (by decide), c0]
      exact ite_eq_self_left _ _
    · rw [showRampMode_rateRamping] at u12
      rw [u12, g5, g6, c0, l0]
      simp only [pendingRampMode, Bool.decide_eq_true]
    · rw [u13, f14, f15, f16, ri _ _ (by decide), c0, sl0, if_pos rfl]
    · rw [u14, g14, g18, g10, c0, a0]; rfl
    · rw [u15, g15, g19, g11, c0, a1]; rfl
    · rw [u16, g16, g20, g12, c0, a2]; rfl
    · rw [u17, g17, g21, g13, c0, a3]; rfl
    · intro item h1 h2
      rw [x2, ← c0, ← g9 item h1]
      simp [configSet, ck_ne h2]
    · rw [y1, constructStages_read_dir env s1 d hm m2, c0]
      cases getValueBool s0.m_pConfig (ck "RateDir") true <;>
        norm_num [kRateDirectionInverted]
    · rw [y2, rS, c0]
    · rw [y3, rS, c0]
    · rw [y4, rS, c0]

/-! ### The defaults of the constructor -/

theorem pendingAmount_of_fits (box : QDoubleSpinBox) (v : ℚ) (h : box.bound v = v) :
    pendingAmount box v = v := by
  unfold pendingAmount
  by_cases h1 : box.bound v = box.value
  · simp [h1]
  · simp [h1, h]

theorem pendingRampMode_stepping (env : Env) (b : Bool) :
    pendingRampMode env env.Stepping b = env.Stepping := by
  unfold pendingRampMode
  by_cases h : env.Stepping = env.Linear
  · simp [h]
  · cases b <;> simp [h]

theorem loopIndices_zero_succ (n : Nat) :
    loopIndices 0 ((n : Int) + 1) = 0 :: loopIndices 1 ((n : Int) + 1) := by
  have e1 : ((n : Int) + 1 - 0).toNat = n + 1 := by omega
  have e2 : ((n : Int) + 1 - 1).toNat = n := by omega
  unfold loopIndices
  rw [e1, e2, List.range_succ_eq_map]
  simp only [List.map_cons, List.map_map, Nat.cast_zero, add_zero, List.cons.injEq, true_and]
  apply List.map_congr_left
  intro k _
  simp only [Function.comp, Nat.cast_succ]
  omega

/-- The index `cueDefaultIndexByData` picks is 0 when the first item matches. -/
theorem indexByData_first (x : ℚ) (xs : List ℚ) (c : Int) (userData : Int)
    (h : variantToInt (some x) = userData) :
    indexByData { items := x :: xs, currentIndex := c } userData = 0 := by
  unfold indexByData
  have e : QComboBox.count { items := x :: xs, currentIndex := c } = (xs.length : Int) + 1 := by
    simp [QComboBox.count]
  rw [e, loopIndices_zero_succ]
  simp [QComboBox.itemData, h]

theorem pendingCueMode_default (env : Env) (form : QComboBox) (h : form.items = [])
    (h0 : env.Mixxx = 0) : pendingCueMode env form 0 = env.Mixxx := by
  have hb : cueModeBox env form =
      { items := [toDouble env.Mixxx, toDouble env.MixxxNoBlinking, toDouble env.Pioneer,
          toDouble env.Denon, toDouble env.Numark, toDouble env.CueAndPlay],
        currentIndex := 0 } := by
    simp [cueModeBox, QComboBox.addItem, h]
  have hi : indexByData (cueModeBox env form) 0 = 0 := by
    rw [hb]
    exact indexByData_first _ _ _ _ (by rw [variantToInt_toDouble, h0])
  unfold pendingCueMode
  simp only [hi]
  rw [hb]
  simp [QComboBox.itemData, variantToInt_toDouble, toInt_toDouble, QComboBox.findData,
    QComboBox.findFrom, QComboBox.normIndex, QComboBox.count]

theorem shownDisplayMode_absent (env : Env) (c : UserSettings)
    (h : c (ck "PositionDisplay") = none) :
    shownDisplayMode env c = toDouble env.ELAPSED_AND_REMAINING := by
  unfold shownDisplayMode
  simp only [getValueDouble, h, Option.getD_none, if_true]
  split
  · next h1 => exact h1.symm
  · rfl

theorem rateRangeShown_preset_eight :
    rateRangeShown rateRangeBox 8 (toDouble 8 / 100) =
      ({ items := rateRangePresets, currentIndex := 2 }, 8) := by
  have h : toInt (toDouble 8 / 100 * 100) = 8 := toInt_percent 8
  have h8 : toInt (8 : ℚ) = 8 := by simpa using toInt_intCast 8
  simp [rateRangeShown, h, h8, QComboBox.findData, QComboBox.findFrom, rateRangePresets, toDouble,
    QComboBox.addItem, QComboBox.normIndex, QComboBox.itemData, variantToInt, rateRangeBox,
    QComboBox.count]

theorem initialRateRangePercent_absent (c : UserSettings) (h1 : c (ck "RateRangePercent") = none)
    (h2 : c (ck "RateRange") = none) : initialRateRangePercent c = kDefaultRateRangePercent := by
  simp [initialRateRangePercent, storedRateRangePercent, configExists, h1, h2, getValueInt,
    kDefaultRateRangePercent]

theorem documentedDefaults_of_constructed (env : Env) {s0 s : DlgPrefDeck}
    (hf : FormFitsDefaults s0) (h0 : env.Mixxx = 0) (hc : Constructed env s0 s) :
    DocumentedDefaults env s0.m_pConfig s := by
  obtain ⟨c1, c2, -, -, c5, c6, c7, c8, -, c10, -, c12, c13, c14, c15, c16, c17, c18, c19, c20,
    c21, -⟩ := hc
  obtain ⟨f0, f1, f2, f3, f4⟩ := hf
  refine ⟨?_, ?_, ?_, ?_, ?_, ?_, ?_, ?_, ?_, ?_, ?_, ?_, ?_, ?_, ?_, ?_⟩
  · intro h
    rw [c1]
    simp only [getValueInt, h]
    exact pendingCueMode_default env _ f0 h0
  · intro h
    rw [c2, shownDisplayMode_absent env _ h, toInt_toDouble]
  · intro h
    rw [c5]
    simp only [getValueInt, h]
  · intro h
    rw [c6]
    simp [getValueBool, h]
  · intro h
    rw [c7]
    simp only [getValueInt, h]
  · intro h
    rw [c8]
    simp [getValueBool, h]
  · intro h1 h2
    rw [c10, initialRateRangePercent_absent _ h1 h2]
    exact congrArg Prod.snd rateRangeShown_preset_eight
  · intro h
    rw [c12]
    simp only [getValueInt, h]
  · intro h
    rw [c13]
    simp only [getValueInt, h]
  · intro h
    rw [c14, c15]
    simp [getValueInt, h, shownResetPitch, shownResetSpeed]
  · intro h
    rw [c16]
    simp only [getValueInt, h]
    exact pendingRampMode_stepping env _
  · intro h
    rw [c17]
    simp only [getValueInt, h]
  · intro h
    rw [c18]
    simp only [getValueDouble, h, Option.getD_none]
    exact pendingAmount_of_fits _ _ f1
  · intro h
    rw [c19]
    simp only [getValueDouble, h, Option.getD_none]
    exact pendingAmount_of_fits _ _ f2
  · intro h
    rw [c20]
    simp only [getValueDouble, h, Option.getD_none]
    exact pendingAmount_of_fits _ _ f3
  · intro h
    rw [c21]
    simp only [getValueDouble, h, Option.getD_none]
    exact pendingAmount_of_fits _ _ f4

theorem staticCastInt_two : staticCastInt (2 : ℚ) = 2 := by
  have h : toInt (2 : ℚ) = 2 := by simpa using toInt_intCast 2
  unfold staticCastInt
  rw [h, if_pos (by decide)]

theorem staticCastInt_one : staticCastInt (1 : ℚ) = 1 := by
  have h : toInt (1 : ℚ) = 1 := by simpa using toInt_intCast 1
  unfold staticCastInt
  rw [h, if_pos (by decide)]

theorem formPage_hasPlayer : HasPlayer formPage := by
  left
  simp [formPage, staticCastInt_two]

theorem formPage_fitsDefaults : FormFitsDefaults formPage := by
  refine ⟨rfl, ?_, ?_, ?_, ?_⟩ <;>
    norm_num [formPage, clampRat, kDefaultTemporaryRateChangeCoarse,
      kDefaultTemporaryRateChangeFine, kDefaultPermanentRateChangeCoarse,
      kDefaultPermanentRateChangeFine]

/-- C4, as amended. With a deck or a sampler present, `CueMode::Mixxx` being 0 and a form
that fits the defaults, the constructor returns a page in which every member whose
`[Controls]` entry is absent holds its documented default, whatever the other entries are:
cue mode Mixxx, time display `ELAPSED_AND_REMAINING`, time format `TRADITIONAL`, loading
into a playing deck disallowed, load point `IntroStart`, cloning on, key lock
`LockOriginalKey`, key unlock `ResetLockedKey`, pitch reset on and speed reset off, ramp mode
`Stepping`, ramp sensitivity 250, rate changes 4.00 / 2.00 and 0.50 / 0.05; the rate range is
8 percent when neither `RateRangePercent` nor the legacy `RateRange` is stored. -/
theorem constructor_defaults (env : Env) (s0 : DlgPrefDeck) (hp : HasPlayer s0)
    (hf : FormFitsDefaults s0) (h0 : env.Mixxx = 0) :
    ∃ s, construct env s0 = some s ∧ DocumentedDefaults env s0.m_pConfig s := by
  obtain ⟨s, hs, -, -, hc⟩ := construct_summary env s0 hp
  exact ⟨s, hs, documentedDefaults_of_constructed env hf h0 hc⟩

/-- C4 at the sample form with an empty settings file. -/
theorem constructor_defaults_witness :
    HasPlayer formPage ∧ FormFitsDefaults formPage ∧ sampleEnv.Mixxx = 0 ∧
    ∃ s, construct sampleEnv formPage = some s ∧
      DocumentedDefaults sampleEnv formPage.m_pConfig s :=
  ⟨formPage_hasPlayer, formPage_fitsDefaults, rfl,
    constructor_defaults sampleEnv formPage formPage_hasPlayer formPage_fitsDefaults rfl⟩

theorem rateRangeShown_preset_six :
    rateRangeShown rateRangeBox 6 (toDouble 6 / 100) =
      ({ items := rateRangePresets, currentIndex := 1 }, 6) := by
  have h : toInt (toDouble 6 / 100 * 100) = 6 := toInt_percent 6
  have h6 : toInt (6 : ℚ) = 6 := by simpa using toInt_intCast 6
  simp [rateRangeShown, h, h6, QComboBox.findData, QComboBox.findFrom, rateRangePresets, toDouble,
    QComboBox.addItem, QComboBox.normIndex, QComboBox.itemData, variantToInt, rateRangeBox,
    QComboBox.count]

/-- C4 as stated fails: the settings hold the legacy `RateRange = 0` and no
`RateRangePercent`; the constructor does not fall back to the default 8 for the absent
entry but migrates the legacy value to 6 percent. -/
theorem absent_percent_takes_legacy_range :
    ∃ s, construct sampleEnv legacyPage = some s ∧
      legacyPage.m_pConfig (ck "RateRangePercent") = none ∧
      s.m_iRateRangePercent = 6 ∧ (6 : Int) ≠ kDefaultRateRangePercent := by
  obtain ⟨s, hs, -, -, hc⟩ := construct_summary sampleEnv legacyPage formPage_hasPlayer
  obtain ⟨-, -, -, -, -, -, -, -, -, c10, -⟩ := hc
  have hp : initialRateRangePercent legacyPage.m_pConfig = 6 := by
    simp [initialRateRangePercent, storedRateRangePercent, legacyPage, configExists,
      getValueStringToInt, asInt, ck, intMin, intMax]
  refine ⟨s, hs, ?_, ?_, by decide⟩
  · simp [legacyPage, ck]
  · rw [c10, hp]
    exact congrArg Prod.snd rateRangeShown_preset_six

/-! ### Constructing and then applying -/

theorem slotApply_rateRangePercent {env : Env} {s s' : DlgPrefDeck}
    (h : slotApply env s = some s') :
    s'.m_pConfig (ck "RateRangePercent") = some (toDouble s.m_iRateRangePercent) ∧
    ∀ p ∈ s.m_rateRangeControls, p ∉ s.m_rateControls → p ∉ s.m_keyunlockModeControls →
      p ∉ s.m_keylockModeControls → p ∉ s.m_rateDirectionControls →
      s'.controls p = toDouble s.m_iRateRangePercent / 100 := by
  cases hl : s.m_rateDirectionControls with
  | nil => simp [slotApply, setRateDirectionForAllDecks, applyHead, setRateRangeForAllDecks, hl] at h
  | cons d ds =>
    rw [slotApply_eq hl, Option.some.injEq] at h
    subst h
    constructor
    · simp [applyTail, applyRateDirection, applyHead, setRateRangeForAllDecks, configSet, ck]
    · intro p hp h1 h2 h3 h4
      rw [← hl] at h4
      rw [applyStages_controls env s d _ h1, if_neg h2, if_neg h3, if_neg h4, if_pos hp]

theorem slotApply_spec (env : Env) {s : DlgPrefDeck} (h : s.m_rateDirectionControls ≠ []) :
    ∃ s', slotApply env s = some s' ∧ SameMirrors s s' := by
  cases hl : s.m_rateDirectionControls with
  | nil => exact absurd hl h
  | cons d ds => exact ⟨_, slotApply_eq hl, (applyStages_confined env s d _).2.2.2.1⟩

theorem rateRangeShown_seven_initial :
    rateRangeShown rateRangeBox 7 (toDouble 7 / 100) =
      ({ items := rateRangePresets ++ [7], currentIndex := -1 }, 0) := by
  have h : toInt (toDouble 7 / 100 * 100) = 7 := toInt_percent 7
  have h7 : toInt (7 : ℚ) = 7 := by simpa using toInt_intCast 7
  simp [rateRangeShown, h, h7, QComboBox.findData, QComboBox.findFrom, rateRangePresets, toDouble,
    QComboBox.addItem, QComboBox.normIndex, QComboBox.itemData, variantToInt, rateRangeBox,
    QComboBox.count]

/-- C7 (the code at the failing input). Every entry is present and valid, the stored
`RateRangePercent` is 7, and two decks and a sampler exist.  The constructor's final
`slotUpdate` finds no item for 7 percent, adds one and makes index -1 current, which sets
the pending percentage to 0; `slotApply`, with no user interaction in between, then stores
`RateRangePercent = 0` and sets every rate range mirror to 0, where the claim has the entry
unchanged. -/
theorem construct_then_apply_changes_rate_range :
    storedPage.m_pConfig (ck "RateRangePercent") = some 7 ∧
    ∃ s s', construct sampleEnv storedPage = some s ∧ slotApply sampleEnv s = some s' ∧
      s.m_iRateRangePercent = 0 ∧
      s'.m_pConfig (ck "RateRangePercent") = some 0 ∧
      ∀ p ∈ s'.m_rateRangeControls, s'.controls p = 0 := by
  obtain ⟨s, hs, hh, hm, hc⟩ := construct_summary sampleEnv storedPage formPage_hasPlayer
  obtain ⟨-, -, -, -, -, -, -, -, -, c10, -⟩ := hc
  have hp : initialRateRangePercent storedPage.m_pConfig = 7 := by
    simp [initialRateRangePercent, storedRateRangePercent, storedPage, storedSettings, configExists,
      getValueInt, asInt,
      ck, controlsGroup, List.lookup]
  have h0 : s.m_iRateRangePercent = 0 := by
    rw [c10, hp]
    exact congrArg Prod.snd rateRangeShown_seven_initial
  obtain ⟨s', hs', hsame⟩ := slotApply_spec sampleEnv hh.2.2.1
  obtain ⟨a, b⟩ := slotApply_rateRangePercent hs'
  refine ⟨by simp [storedPage, storedSettings, ck, controlsGroup, List.lookup], s, s', hs, hs', h0,
    ?_, ?_⟩
  · rw [a, h0]; simp [toDouble]
  · obtain ⟨hr, hrr, hrd, -, hkl, hku⟩ := hm
    intro p hp'
    rw [hsame.2.1] at hp'
    have i := hrr p hp'
    rw [b p hp' (not_mem_of_item hr i (by decide)) (not_mem_of_item hku i (by decide))
      (not_mem_of_item hkl i (by decide)) (not_mem_of_item hrd i (by decide)), h0]
    simp [toDouble]

/-! ### Reset and update on the constructed page -/

/-- The clicks of the user leave the mirrors alone, select the clicked buttons and record
the three selections. -/
theorem userClicks_spec (env : Env) (s : DlgPrefDeck) :
    SameMirrors s (userClicks env s) ∧
    (userClicks env s).m_timeDisplayMode = env.ELAPSED ∧
    (userClicks env s).m_keylockMode = env.LockCurrentKey ∧
    (userClicks env s).m_keyunlockMode = env.KeepLockedKey ∧
    (userClicks env s).radioButtonElapsed = true ∧
    (userClicks env s).radioButtonCurrentKey = true ∧
    (userClicks env s).radioButtonKeepUnlockedKey = true := by
  simp [SameMirrors, userClicks, clickElapsed, clickCurrentKey, clickKeepUnlockedKey,
    slotSetTrackTimeDisplayButton, slotKeyLockModeSelected, slotKeyUnlockModeSelected,
    checkElapsed, checkCurrentKey, checkKeepUnlockedKey]

/-- C5 (the code at the failing input). On the page constructed from an empty settings file
the user clicks `Elapsed`, `Lock current key` and `Keep locked key`.
`slotResetToDefaults` then checks the radio buttons `Remaining`, `Original key` and `Reset
unlocked key`, yet `slotApply` stores `PositionDisplay = ELAPSED`, `keylockMode =
LockCurrentKey` and `keyunlockMode = KeepLockedKey`, where the claim has `REMAINING`,
`LockOriginalKey` and `ResetLockedKey`. -/
theorem reset_then_apply_keeps_radio_selections :
    ∃ s, construct sampleEnv formPage = some s ∧
      (userClicks sampleEnv s).m_timeDisplayMode = sampleEnv.ELAPSED ∧
      (userClicks sampleEnv s).m_keylockMode = sampleEnv.LockCurrentKey ∧
      (userClicks sampleEnv s).m_keyunlockMode = sampleEnv.KeepLockedKey ∧
      (slotResetToDefaults sampleEnv (userClicks sampleEnv s)).radioButtonRemaining = true ∧
      (slotResetToDefaults sampleEnv (userClicks sampleEnv s)).radioButtonOriginalKey = true ∧
      (slotResetToDefaults sampleEnv (userClicks sampleEnv s)).radioButtonResetUnlockedKey =
        true ∧
      ∃ s', slotApply sampleEnv (slotResetToDefaults sampleEnv (userClicks sampleEnv s)) =
          some s' ∧
        s'.m_pConfig (ck "PositionDisplay") = some (toDouble sampleEnv.ELAPSED) ∧
        s'.m_pConfig (ck "keylockMode") = some (toDouble sampleEnv.LockCurrentKey) ∧
        s'.m_pConfig (ck "keyunlockMode") = some (toDouble sampleEnv.KeepLockedKey) ∧
        sampleEnv.ELAPSED ≠ sampleEnv.REMAINING ∧
        sampleEnv.LockCurrentKey ≠ sampleEnv.LockOriginalKey ∧
        sampleEnv.KeepLockedKey ≠ sampleEnv.ResetLockedKey := by
  obtain ⟨s, hs, hh, -, -⟩ := construct_summary sampleEnv formPage formPage_hasPlayer
  obtain ⟨hm, u1, u2, u3, -⟩ := userClicks_spec sampleEnv s
  obtain ⟨r1, r2, r3⟩ := slotResetToDefaults_radio sampleEnv (userClicks sampleEnv s)
  have hne : (userClicks sampleEnv s).m_rateDirectionControls ≠ [] := by
    rw [hm.2.2.1]; exact hh.2.2.1
  obtain ⟨s', hs', a, b, c⟩ := reset_apply_radioEntries sampleEnv (userClicks sampleEnv s) hne
  refine ⟨s, hs, u1, u2, u3, r1, r2, r3, s', hs', ?_, ?_, ?_, by decide, by decide, by decide⟩
  · rw [a, u1]
  · rw [b, u2]
  · rw [c, u3]

/-- C10 (the code at the failing input). The page is constructed from an empty settings file
(8 percent current in `ComboBoxRateRange`), then the rate range of the first player is set
to 0.07 outside the page, a percentage that is none of the presets.  `slotUpdate` adds an
item for it but makes index -1 current, so that no item is current afterwards and the
pending `m_iRateRangePercent` is the 0 that `itemData(-1).toInt()` yields, where the claim
has the item for 7 current and the pending percentage 7. -/
theorem slotUpdate_unlisted_rate_range :
    ∃ s s', construct sampleEnv formPage = some s ∧
      s.ComboBoxRateRange = { items := rateRangePresets, currentIndex := 2 } ∧
      s.m_iRateRangePercent = 8 ∧
      slotUpdate sampleEnv (setRateRangeOutside s (7 / 100)) = some s' ∧
      s'.ComboBoxRateRange.items = rateRangePresets ++ [7] ∧
      s'.ComboBoxRateRange.currentIndex = -1 ∧
      s'.ComboBoxRateRange.itemData s'.ComboBoxRateRange.currentIndex = none ∧
      s'.m_iRateRangePercent = 0 := by
  obtain ⟨s, hs, hh, -, hc⟩ := construct_summary sampleEnv formPage formPage_hasPlayer
  obtain ⟨-, -, -, -, -, -, -, -, -, c10, c11, -⟩ := hc
  have hp : initialRateRangePercent formPage.m_pConfig = 8 :=
    initialRateRangePercent_absent _ rfl rfl
  rw [hp, rateRangeShown_preset_eight] at c10 c11
  obtain ⟨-, h1, h2, h3, h4, h5⟩ := hh
  obtain ⟨p1, t1, e1⟩ := List.exists_cons_of_ne_nil h1
  obtain ⟨p2, t2, e2⟩ := List.exists_cons_of_ne_nil h2
  obtain ⟨p3, t3, e3⟩ := List.exists_cons_of_ne_nil h3
  obtain ⟨p4, t4, e4⟩ := List.exists_cons_of_ne_nil h4
  obtain ⟨p5, t5, e5⟩ := List.exists_cons_of_ne_nil h5
  have hu : setRateRangeOutside s (7 / 100) =
      { s with controls := controlSet s.controls p1 (7 / 100) } := by
    simp [setRateRangeOutside, e1]
  have hv : (setRateRangeOutside s (7 / 100)).controls p1 = 7 / 100 := by
    rw [hu]; simp [controlSet]
  have hb : (setRateRangeOutside s (7 / 100)).ComboBoxRateRange =
      { items := rateRangePresets, currentIndex := 2 } := by rw [hu]; exact c11
  have hq : (setRateRangeOutside s (7 / 100)).m_iRateRangePercent = 8 := by rw [hu]; exact c10
  have hu1 : (setRateRangeOutside s (7 / 100)).m_rateRangeControls = p1 :: t1 := by
    rw [hu]; exact e1
  have hu2 : (setRateRangeOutside s (7 / 100)).m_rateDirectionControls = p2 :: t2 := by
    rw [hu]; exact e2
  have hu3 : (setRateRangeOutside s (7 / 100)).m_cueControls = p3 :: t3 := by
    rw [hu]; exact e3
  have hu4 : (setRateRangeOutside s (7 / 100)).m_keylockModeControls = p4 :: t4 := by
    rw [hu]; exact e4
  have hu5 : (setRateRangeOutside s (7 / 100)).m_keyunlockModeControls = p5 :: t5 := by
    rw [hu]; exact e5
  refine ⟨s, _, hs, c11, c10, slotUpdate_eq sampleEnv _ hu1 hu2 hu3 hu4 hu5, ?_⟩
  obtain ⟨g1, g2⟩ := slotUpdateWith_rateRange sampleEnv (setRateRangeOutside s (7 / 100))
    ((setRateRangeOutside s (7 / 100)).controls p1)
    ((setRateRangeOutside s (7 / 100)).controls p2)
    ((setRateRangeOutside s (7 / 100)).controls p3)
    ((setRateRangeOutside s (7 / 100)).controls p4)
    ((setRateRangeOutside s (7 / 100)).controls p5)
  rw [hv, hb, hq, rateRangeShown_seven] at g1 g2
  rw [hv, g1, g2]
  simp [QComboBox.itemData]

/-! ### The defaults of the two paths -/

/-- The display mode and the rate direction that `slotResetToDefaults` selects. -/
theorem slotResetToDefaults_selects (env : Env) (s : DlgPrefDeck) :
    (slotResetToDefaults env s).radioButtonRemaining = true ∧
    (slotResetToDefaults env s).radioButtonElapsedAndRemaining = false ∧
    (slotResetToDefaults env s).radioButtonElapsed = false ∧
    (slotResetToDefaults env s).checkBoxInvertSpeedSlider = false ∧
    (slotResetToDefaults env s).m_bRateDownIncreasesSpeed =
      (if s.checkBoxInvertSpeedSlider = false then s.m_bRateDownIncreasesSpeed else false) := by
  simp only [slotResetToDefaults, checkRemaining, checkOriginalKey,
    checkResetUnlockedKey, checkRateRampModeStepping_eq,
    setInvertSpeedSlider_eq, setRateRangeIndex_eq, setDisallowLoadToPlayingDeck_eq,
    setCloneDeckOnLoadDoubleTap_eq, setCueModeIndex_eq, setLoadPointIndex_eq,
    setRateRampSensitivitySlider_eq, setTemporaryRateCoarse_eq, setTemporaryRateFine_eq,
    setPermanentRateCoarse_eq, setPermanentRateFine_eq, setResetSpeed_eq, setResetPitch_eq,
    and_self]

/-- C6 (the code at the failing input). With an empty settings file the constructor falls
back to the display mode `ELAPSED_AND_REMAINING` and to an inverted rate slider
(`RateDir` read with default `true`), and shows both in the widgets; `slotResetToDefaults`
on that page selects `Remaining` and an uninverted slider.  The two paths disagree on the
default of two settings, where the claim has them equal for every setting. -/
theorem reset_and_constructor_defaults_differ :
    ∃ s, construct sampleEnv formPage = some s ∧
      s.m_timeDisplayMode = sampleEnv.ELAPSED_AND_REMAINING ∧
      s.radioButtonElapsedAndRemaining = true ∧ s.radioButtonRemaining = false ∧
      s.m_bRateDownIncreasesSpeed = true ∧ s.checkBoxInvertSpeedSlider = true ∧
      (slotResetToDefaults sampleEnv s).radioButtonRemaining = true ∧
      (slotResetToDefaults sampleEnv s).radioButtonElapsedAndRemaining = false ∧
      (slotResetToDefaults sampleEnv s).checkBoxInvertSpeedSlider = false ∧
      (slotResetToDefaults sampleEnv s).m_bRateDownIncreasesSpeed = false ∧
      sampleEnv.ELAPSED_AND_REMAINING ≠ sampleEnv.REMAINING := by
  obtain ⟨s, hs, -, -, hc⟩ := construct_summary sampleEnv formPage formPage_hasPlayer
  obtain ⟨-, c2, -, -, -, -, -, -, c9, -, -, -, -, -, -, -, -, -, -, -, -, -, c23, c24, c25, -⟩ :=
    hc
  obtain ⟨r1, r2, -, r4, r5⟩ := slotResetToDefaults_selects sampleEnv s
  have hd : shownDisplayMode sampleEnv formPage.m_pConfig =
      toDouble sampleEnv.ELAPSED_AND_REMAINING := shownDisplayMode_absent _ _ rfl
  have hr : getValueBool formPage.m_pConfig (ck "RateDir") true = true := rfl
  rw [hd, toInt_toDouble] at c2 c24 c25
  rw [hr] at c9 c23
  refine ⟨s, hs, c2, ?_, ?_, c9, c23, r1, r2, r4, ?_, by decide⟩
  · rw [c25]; decide
  · rw [c24]; decide
  · rw [r5, c23]; rfl

/-! ### The constructor with its mirrors exposed -/

/-- The constructor in closed form, with the page `initMirrors` returns and the first proxy
of each list that `slotUpdate` reads. -/
theorem construct_eq_heads (env : Env) (s0 : DlgPrefDeck) (h : HasPlayer s0) :
    ∃ s1 p1 t1 p2 t2 p3 t3 p4 t4 p5 t5, initMirrors env s0 = some s1 ∧
      OnlyMirrorsDiffer s0 s1 ∧ MirrorItems s1 ∧
      s1.m_rateRangeControls = p1 :: t1 ∧ s1.m_rateDirectionControls = p2 :: t2 ∧
      s1.m_cueControls = p3 :: t3 ∧ s1.m_keylockModeControls = p4 :: t4 ∧
      s1.m_keyunlockModeControls = p5 :: t5 ∧
      construct env s0 = some (slotUpdateWith env (constructStages env s1 p2)
        ((constructStages env s1 p2).controls p1) ((constructStages env s1 p2).controls p2)
        ((constructStages env s1 p2).controls p3) ((constructStages env s1 p2).controls p4)
        ((constructStages env s1 p2).controls p5)) := by
  obtain ⟨s1, hs1, ho, hm, hh⟩ := initMirrors_spec env s0 h
  obtain ⟨-, h1, h2, h3, h4, h5⟩ := hh
  obtain ⟨p1, t1, e1⟩ := List.exists_cons_of_ne_nil h1
  obtain ⟨p2, t2, e2⟩ := List.exists_cons_of_ne_nil h2
  obtain ⟨p3, t3, e3⟩ := List.exists_cons_of_ne_nil h3
  obtain ⟨p4, t4, e4⟩ := List.exists_cons_of_ne_nil h4
  obtain ⟨p5, t5, e5⟩ := List.exists_cons_of_ne_nil h5
  obtain ⟨-, f1, f2, f3, f4, f5⟩ := (constructStages_fields env s1 p2).1
  refine ⟨s1, p1, t1, p2, t2, p3, t3, p4, t4, p5, t5, hs1, ho, hm, e1, e2, e3, e4, e5, ?_⟩
  unfold construct
  rw [constructHead_eq env hs1 e2]
  exact slotUpdate_eq env _ (f1.trans e1) (f2.trans e2) (f3.trans e3) (f4.trans e4)
    (f5.trans e5)

/-- The mirror lists and the control values of the constructed page are those of the page
before the final `slotUpdate`. -/
theorem construct_controls (env : Env) (s0 : DlgPrefDeck) (h : HasPlayer s0) :
    ∃ s1 d t s, initMirrors env s0 = some s1 ∧ OnlyMirrorsDiffer s0 s1 ∧ MirrorItems s1 ∧
      s1.m_rateDirectionControls = d :: t ∧ construct env s0 = some s ∧ SameMirrors s1 s ∧
      s.controls = (constructStages env s1 d).controls := by
  obtain ⟨s1, p1, t1, p2, t2, p3, t3, p4, t4, p5, t5, hs1, ho, hm, e1, e2, e3, e4, e5, hc⟩ :=
    construct_eq_heads env s0 h
  obtain ⟨a, b, -⟩ := slotUpdateWith_frame env (constructStages env s1 p2)
    ((constructStages env s1 p2).controls p1) ((constructStages env s1 p2).controls p2)
    ((constructStages env s1 p2).controls p3) ((constructStages env s1 p2).controls p4)
    ((constructStages env s1 p2).controls p5)
  obtain ⟨f0, f1, f2, f3, f4, f5⟩ := (constructStages_fields env s1 p2).1
  obtain ⟨a0, a1, a2, a3, a4, a5⟩ := a
  exact ⟨s1, p2, t2, _, hs1, ho, hm, e2, hc,
    ⟨a0.trans f0, a1.trans f1, a2.trans f2, a3.trans f3, a4.trans f4, a5.trans f5⟩, b⟩

theorem toInt_two : toInt (2 : ℚ) = 2 := by simpa using toInt_intCast 2

theorem toInt_one : toInt (1 : ℚ) = 1 := by simpa using toInt_intCast 1

theorem loopIndices_zero_two : loopIndices 0 2 = [0, 1] := by decide

theorem loopIndices_zero_one : loopIndices 0 1 = [0] := by decide

/-- The rate mirrors of the sample page: two decks and a sampler. -/
theorem formPage_rateMirrors :
    (initMirrors sampleEnv formPage).map (fun s => s.m_rateControls) =
      some [⟨"[Channel|]", "rate"⟩, ⟨"[Channel||]", "rate"⟩, ⟨"[Sampler|]", "rate"⟩] := by
  simp [initMirrors, slotNumDecksChanged, slotNumSamplersChanged, formPage, staticCastInt_two,
    staticCastInt_one, loopIndices_zero_two, loopIndices_zero_one, addMirrors, controlSet,
    sampleEnv, tally]

/-- The rate direction mirrors of the sample page. -/
theorem formPage_rateDirectionMirrors :
    (initMirrors sampleEnv formPage).map (fun s => s.m_rateDirectionControls) =
      some [⟨"[Channel|]", "rate_dir"⟩, ⟨"[Channel||]", "rate_dir"⟩,
        ⟨"[Sampler|]", "rate_dir"⟩] := by
  simp [initMirrors, slotNumDecksChanged, slotNumSamplersChanged, formPage, staticCastInt_two,
    staticCastInt_one, loopIndices_zero_two, loopIndices_zero_one, addMirrors, controlSet,
    sampleEnv, tally]

/-- The values the mirrors of the constructed page hold: the rate direction of the stored
`RateDir`, the chosen rate range percent over 100, and the cue mode of the item that
`cueDefaultIndexByData` picked. -/
theorem construct_mirror_values (env : Env) (s0 : DlgPrefDeck) (h : HasPlayer s0) :
    ∃ s, construct env s0 = some s ∧ HasMirrors s ∧ MirrorItems s ∧
      (∀ p ∈ s.m_rateDirectionControls, s.controls p =
        if getValueBool s0.m_pConfig (ck "RateDir") true then kRateDirectionInverted else 1) ∧
      (∀ p ∈ s.m_rateRangeControls, s.controls p =
        toDouble (initialRateRangePercent s0.m_pConfig) / 100) ∧
      (∀ p ∈ s.m_cueControls, s.controls p =
        toDouble (variantToInt ((cueModeBox env s0.ComboBoxCueMode).itemData
          (indexByData (cueModeBox env s0.ComboBoxCueMode)
            (getValueInt s0.m_pConfig (ck "CueDefault") 0))))) := by
  obtain ⟨s1, d, t, s, hs1, ho, hm, hd, hc, hsame, hv⟩ := construct_controls env s0 h
  obtain ⟨s', hs', hh, hmi, -⟩ := construct_summary env s0 h
  have e : s' = s := Option.some.inj (hs'.symm.trans hc)
  subst e
  have c0 : s1.m_pConfig = s0.m_pConfig := by rw [ho]
  have b0 : s1.ComboBoxCueMode = s0.ComboBoxCueMode := by rw [ho]
  obtain ⟨m0, m1, m2, m3, m4, m5⟩ := hm
  obtain ⟨a0, a1, a2, a3, a4, a5⟩ := hsame
  refine ⟨s', hc, hh, hmi, ?_, ?_, ?_⟩
  · intro p hp
    rw [a2] at hp
    have i := m2 p hp
    rw [hv, constructStages_controls env s1 d (not_mem_of_item m0 i (by decide)),
      if_neg (not_mem_of_item m5 i (by decide)), if_neg (not_mem_of_item m4 i (by decide)),
      if_neg (not_mem_of_item m1 i (by decide)), if_pos hp, c0]
  · intro p hp
    rw [a1] at hp
    have i := m1 p hp
    rw [hv, constructStages_controls env s1 d (not_mem_of_item m0 i (by decide)),
      if_neg (not_mem_of_item m5 i (by decide)), if_neg (not_mem_of_item m4 i (by decide)),
      if_pos hp, c0]
  · intro p hp
    rw [a3] at hp
    have i := m3 p hp
    have k1 : p ≠ ck "TimeFormat" := fun e => by rw [e] at i; exact absurd i (by decide)
    have k2 : p ≠ ck "ShowDurationRemaining" := fun e => by
      rw [e] at i; exact absurd i (by decide)
    rw [hv, constructStages_controls env s1 d (not_mem_of_item m0 i (by decide)),
      if_neg (not_mem_of_item m5 i (by decide)), if_neg (not_mem_of_item m4 i (by decide)),
      if_neg (not_mem_of_item m1 i (by decide)), if_neg (not_mem_of_item m2 i (by decide)),
      if_neg k1, if_neg k2, if_pos hp, (constructStages_fields env s1 d).2.2.1, c0, b0]
theorem negateEach_apply_of_mem (c : ControlValues) (ps : List ConfigKey) (k : ConfigKey)
    (h : k ∈ ps) (hn : ps.Nodup) : negateEach c ps k = -1 * c k := by
  unfold negateEach
  induction ps generalizing c with
  | nil => exact absurd h (List.not_mem_nil _)
  | cons p ps ih =>
    rw [List.foldl_cons]
    obtain ⟨hp, hn'⟩ := List.nodup_cons.mp hn
    rcases List.mem_cons.mp h with e | hk
    · subst e
      have := negateEach_apply_of_not_mem (controlSet c k (-1 * c k)) ps k hp
      unfold negateEach at this
      rw [this]
      simp [controlSet]
    · rw [ih _ hk hn']
      have : k ≠ p := fun e => hp (e ▸ hk)
      simp [controlSet, this]

/-- Where `setRateDirectionForAllDecks` does keep the sound: when every rate direction mirror
holds the value of the first one, +1 or -1, the product `rate * rate_dir` of every player
is the same before and after. -/
theorem applyRateDirection_keeps_product {s : DlgPrefDeck} (d : ConfigKey) (b : Bool)
    (hm : MirrorItems s) (hn : s.m_rateControls.Nodup)
    (hag : ∀ p ∈ s.m_rateDirectionControls, s.controls p = s.controls d)
    (h1 : s.controls d = 1 ∨ s.controls d = -1) (g : String)
    (hr : (⟨g, "rate"⟩ : ConfigKey) ∈ s.m_rateControls)
    (hd : (⟨g, "rate_dir"⟩ : ConfigKey) ∈ s.m_rateDirectionControls) :
    (applyRateDirection s d b).controls ⟨g, "rate"⟩ *
        (applyRateDirection s d b).controls ⟨g, "rate_dir"⟩ =
      s.controls ⟨g, "rate"⟩ * s.controls ⟨g, "rate_dir"⟩ := by
  obtain ⟨m0, -, m2, -⟩ := hm
  have n1 : (⟨g, "rate_dir"⟩ : ConfigKey) ∉ s.m_rateControls :=
    not_mem_of_item m0 (rfl : (⟨g, "rate_dir"⟩ : ConfigKey).item = "rate_dir")
      (by decide : "rate_dir" ≠ "rate")
  have n2 : (⟨g, "rate"⟩ : ConfigKey) ∉ s.m_rateDirectionControls :=
    not_mem_of_item m2 (rfl : (⟨g, "rate"⟩ : ConfigKey).item = "rate")
      (by decide : "rate" ≠ "rate_dir")
  rw [applyRateDirection_controls d b n1, if_pos hd, hag _ hd]
  unfold applyRateDirection
  simp only
  by_cases hc : (if b then kRateDirectionInverted else (1 : ℚ)) ≠ s.controls d
  · rw [if_pos hc, negateEach_apply_of_mem _ _ _ hr hn, setEach_apply, if_neg n2]
    rcases h1 with e | e <;> cases b <;> simp [e, kRateDirectionInverted] at hc ⊢
  · rw [if_neg hc, setEach_apply, if_neg n2]
    rw [not_not] at hc
    rw [hc]

/-! ### The rate direction and the current sound -/

/-- The mirror lists of the page constructed from the sample form. -/
theorem construct_formPage_mirrors {s : DlgPrefDeck} (h : construct sampleEnv formPage = some s) :
    s.m_rateControls =
      [⟨"[Channel|]", "rate"⟩, ⟨"[Channel||]", "rate"⟩, ⟨"[Sampler|]", "rate"⟩] ∧
    s.m_rateDirectionControls =
      [⟨"[Channel|]", "rate_dir"⟩, ⟨"[Channel||]", "rate_dir"⟩, ⟨"[Sampler|]", "rate_dir"⟩] := by
  obtain ⟨s1, d, t, s', hs1, -, -, -, hc, hsame, -⟩ :=
    construct_controls sampleEnv formPage formPage_hasPlayer
  have e : s' = s := Option.some.inj (hc.symm.trans h)
  subst e
  have r := formPage_rateMirrors
  have r2 := formPage_rateDirectionMirrors
  rw [hs1] at r r2
  exact ⟨hsame.1.trans (Option.some.inj r), hsame.2.2.1.trans (Option.some.inj r2)⟩

/-- C11 (the code at the failing input). The page is constructed from an empty settings file,
which inverts the slider of every player; a controller script then gives the second deck
the uninverted direction and the rate one half.  Every rate direction mirror holds +1 or -1.
`setRateDirectionForAllDecks(true)`, the call `slotApply` makes for the pending direction,
compares the new direction with the first mirror only: it finds no change, sets the second
deck to -1 and leaves its rate alone, so that the product `rate * rate_dir` of the second
deck turns from 1/2 into -1/2, where the claim has it unchanged. -/
theorem rate_direction_changes_sound :
    ∃ s s', construct sampleEnv formPage = some s ∧
      (⟨"[Channel||]", "rate"⟩ : ConfigKey) ∈ (secondDeckScripted s).m_rateControls ∧
      (⟨"[Channel||]", "rate_dir"⟩ : ConfigKey) ∈ (secondDeckScripted s).m_rateDirectionControls ∧
      (∀ p ∈ (secondDeckScripted s).m_rateDirectionControls,
        (secondDeckScripted s).controls p = 1 ∨ (secondDeckScripted s).controls p = -1) ∧
      setRateDirectionForAllDecks (secondDeckScripted s) true = some s' ∧
      (secondDeckScripted s).controls ⟨"[Channel||]", "rate"⟩ *
        (secondDeckScripted s).controls ⟨"[Channel||]", "rate_dir"⟩ = 1 / 2 ∧
      s'.controls ⟨"[Channel||]", "rate"⟩ * s'.controls ⟨"[Channel||]", "rate_dir"⟩ =
        -(1 / 2) := by
  obtain ⟨s, hs, -, -, hdir, -⟩ := construct_mirror_values sampleEnv formPage formPage_hasPlayer
  obtain ⟨l1, l2⟩ := construct_formPage_mirrors hs
  have hb : getValueBool formPage.m_pConfig (ck "RateDir") true = true := rfl
  rw [hb, if_pos rfl, l2] at hdir
  have d1 := hdir ⟨"[Channel|]", "rate_dir"⟩ (by simp)
  have d3 := hdir ⟨"[Sampler|]", "rate_dir"⟩ (by simp)
  have t1 : (secondDeckScripted s).m_rateControls = s.m_rateControls := rfl
  have t2 : (secondDeckScripted s).m_rateDirectionControls = s.m_rateDirectionControls := rfl
  have v1 : (secondDeckScripted s).controls ⟨"[Channel|]", "rate_dir"⟩ = -1 := by
    simp [secondDeckScripted, controlSetOutside, controlSet, d1, kRateDirectionInverted]
  have v2 : (secondDeckScripted s).controls ⟨"[Channel||]", "rate_dir"⟩ = 1 := by
    simp [secondDeckScripted, controlSetOutside, controlSet]
  have v3 : (secondDeckScripted s).controls ⟨"[Sampler|]", "rate_dir"⟩ = -1 := by
    simp [secondDeckScripted, controlSetOutside, controlSet, d3, kRateDirectionInverted]
  have v4 : (secondDeckScripted s).controls ⟨"[Channel||]", "rate"⟩ = 1 / 2 := by
    simp [secondDeckScripted, controlSetOutside, controlSet]
  refine ⟨s, applyRateDirection (secondDeckScripted s) ⟨"[Channel|]", "rate_dir"⟩ true, hs,
    ?_, ?_, ?_, ?_, ?_, ?_⟩
  · rw [t1, l1]; simp
  · rw [t2, l2]; simp
  · intro p hp
    rw [t2, l2] at hp
    simp only [List.mem_cons, List.mem_singleton, List.not_mem_nil, or_false] at hp
    rcases hp with rfl | rfl | rfl
    · exact Or.inr v1
    · exact Or.inl v2
    · exact Or.inr v3
  · simp [setRateDirectionForAllDecks, t2, l2]
  · rw [v4, v2]; norm_num
  · simp [applyRateDirection, v1, kRateDirectionInverted, setEach_apply, t2, l2, v4]

/-! ### The migration of the legacy rate range -/

theorem wrapInt_of_range {x : Int} (h1 : intMin ≤ x) (h2 : x ≤ intMax) : wrapInt x = x := by
  unfold intMin at h1
  unfold intMax at h2
  unfold wrapInt
  omega

/-- The legacy index that `toInt` returns is an `int`. -/
theorem getValueStringToInt_range (c : UserSettings) (k : ConfigKey) :
    intMin ≤ getValueStringToInt c k ∧ getValueStringToInt c k ≤ intMax := by
  unfold getValueStringToInt
  split
  · simp [intMin, intMax]
  · split
    · simp [intMin, intMax]
    · split
      · assumption
      · simp [intMin, intMax]

/-- The migration where the arithmetic of line 243 stays within `int`: the legacy index 0
gives 6 percent, 1 gives 8, an index from 2 to 10 gives `(index - 1) * 10`, and any other
index between -214748363 and 214748365 gives the default 8. -/
theorem initialRateRangePercent_legacy (c : UserSettings)
    (h1 : c (ck "RateRange") ≠ none) (h2 : c (ck "RateRangePercent") = none) :
    (getValueStringToInt c (ck "RateRange") = 0 → initialRateRangePercent c = 6) ∧
    (getValueStringToInt c (ck "RateRange") = 1 → initialRateRangePercent c = 8) ∧
    (2 ≤ getValueStringToInt c (ck "RateRange") → getValueStringToInt c (ck "RateRange") ≤ 10 →
      initialRateRangePercent c = (getValueStringToInt c (ck "RateRange") - 1) * 10) ∧
    (getValueStringToInt c (ck "RateRange") < 0 ∨ 10 < getValueStringToInt c (ck "RateRange") →
      -214748363 ≤ getValueStringToInt c (ck "RateRange") →
      getValueStringToInt c (ck "RateRange") ≤ 214748365 →
      initialRateRangePercent c = kDefaultRateRangePercent) := by
  have e1 : configExists c (ck "RateRange") = true := by
    simp only [configExists]
    cases h : c (ck "RateRange") with
    | none => exact absurd h h1
    | some v => rfl
  have e2 : configExists c (ck "RateRangePercent") = false := by
    simp [configExists, h2]
  generalize hi : getValueStringToInt c (ck "RateRange") = i
  have hs : storedRateRangePercent c =
      if i = 0 then 6 else if i = 1 then 8 else wrapInt (wrapInt (i - 1) * 10) := by
    simp [storedRateRangePercent, e1, e2, hi]
  unfold initialRateRangePercent
  simp only [hs, kDefaultRateRangePercent]
  refine ⟨?_, ?_, ?_, ?_⟩
  · intro h; subst h; simp
  · intro h; subst h; simp
  · intro ha hb
    have w1 : wrapInt (i - 1) = i - 1 := wrapInt_of_range (by unfold intMin; omega)
      (by unfold intMax; omega)
    have w2 : wrapInt ((i - 1) * 10) = (i - 1) * 10 := wrapInt_of_range (by unfold intMin; omega)
      (by unfold intMax; omega)
    have n0 : i ≠ 0 := by omega
    have n1 : i ≠ 1 := by omega
    rw [if_neg n0, if_neg n1, w1, w2, if_neg]
    simp only [not_not]
    omega
  · intro ha hb hc
    have w1 : wrapInt (i - 1) = i - 1 := wrapInt_of_range (by unfold intMin; omega)
      (by unfold intMax; omega)
    have w2 : wrapInt ((i - 1) * 10) = (i - 1) * 10 := wrapInt_of_range (by unfold intMin; omega)
      (by unfold intMax; omega)
    have n0 : i ≠ 0 := by omega
    have n1 : i ≠ 1 := by omega
    rw [if_neg n0, if_neg n1, w1, w2, if_pos]
    omega

/-- When `RateRangePercent` is stored, the legacy `RateRange` entry, whatever it holds or
whether it exists, has no influence on the chosen percent. -/
theorem initialRateRangePercent_ignores_legacy (c : UserSettings) (legacy : Option ℚ)
    (h : c (ck "RateRangePercent") ≠ none) :
    initialRateRangePercent (fun k => if k = ck "RateRange" then legacy else c k) =
      initialRateRangePercent c := by
  have k1 : ck "RateRangePercent" ≠ ck "RateRange" := ck_ne (by decide)
  have e2 : configExists c (ck "RateRangePercent") = true := by
    simp only [configExists]
    cases h' : c (ck "RateRangePercent") with
    | none => exact absurd h' h
    | some v => rfl
  have e3 : configExists (fun k => if k = ck "RateRange" then legacy else c k)
      (ck "RateRangePercent") = true := by
    simp only [configExists, if_neg k1]
    exact e2
  simp [initialRateRangePercent, storedRateRangePercent, e2, e3, getValueInt, k1]

theorem initialRateRangePercent_overflowPage :
    initialRateRangePercent overflowPage.m_pConfig = 4 := by
  simp [initialRateRangePercent, storedRateRangePercent, overflowPage, configExists,
    getValueStringToInt, asInt, ck, intMin, intMax, wrapInt]

theorem rateRangeShown_preset_four :
    rateRangeShown rateRangeBox 4 (toDouble 4 / 100) =
      ({ items := rateRangePresets, currentIndex := 0 }, 4) := by
  have h : toInt (toDouble 4 / 100 * 100) = 4 := toInt_percent 4
  have h4 : toInt (4 : ℚ) = 4 := by simpa using toInt_intCast 4
  simp [rateRangeShown, h, h4, QComboBox.findData, QComboBox.findFrom, rateRangePresets, toDouble,
    QComboBox.addItem, QComboBox.normIndex, QComboBox.itemData, variantToInt, rateRangeBox,
    QComboBox.count]

theorem overflowPage_hasPlayer : HasPlayer overflowPage := formPage_hasPlayer

/-- C12 (the code at the failing input). The settings hold the legacy `RateRange =
429496731` and no `RateRangePercent`.  The index is an `int` outside 0..10, yet the
product `(legacyIndex - 1) * 10` of line 243 exceeds the range of `int` and wraps to 4,
which passes the guard of line 250: the constructor chooses 4 percent and sets every rate
range mirror to 0.04, where the claim has the default 8 for every index outside 0..10. -/
theorem legacy_index_overflow_passes_guard :
    getValueStringToInt overflowPage.m_pConfig (ck "RateRange") = 429496731 ∧
    overflowPage.m_pConfig (ck "RateRangePercent") = none ∧
    initialRateRangePercent overflowPage.m_pConfig = 4 ∧
    ∃ s, construct sampleEnv overflowPage = some s ∧ s.m_iRateRangePercent = 4 ∧
      ∀ p ∈ s.m_rateRangeControls, s.controls p = 4 / 100 := by
  obtain ⟨s, hs, -, -, -, hr, -⟩ :=
    construct_mirror_values sampleEnv overflowPage overflowPage_hasPlayer
  obtain ⟨s', hs', -, -, hc⟩ := construct_summary sampleEnv overflowPage overflowPage_hasPlayer
  have e : s' = s := Option.some.inj (hs'.symm.trans hs)
  subst e
  obtain ⟨-, -, -, -, -, -, -, -, -, c10, -⟩ := hc
  rw [initialRateRangePercent_overflowPage] at hr c10
  refine ⟨?_, ?_, initialRateRangePercent_overflowPage, s', hs, ?_, ?_⟩
  · simp [overflowPage, getValueStringToInt, asInt, intMin, intMax]
  · simp [overflowPage, ck]
  · rw [c10]
    exact congrArg Prod.snd rateRangeShown_preset_four
  · intro p hp
    rw [hr p hp]
    simp [toDouble]

/-! ### The cue mode -/

theorem loopIndices_pairwise (lo hi : Int) : (loopIndices lo hi).Pairwise (· < ·) := by
  unfold loopIndices
  rw [List.pairwise_map]
  refine (List.pairwise_lt_range _).imp ?_
  intro a b hab
  omega

theorem mem_loopIndices_of_range {lo hi i : Int} (h1 : lo ≤ i) (h2 : i < hi) :
    i ∈ loopIndices lo hi := by
  unfold loopIndices
  simp only [List.mem_map, List.mem_range]
  exact ⟨(i - lo).toNat, by omega, by omega⟩

/-- What `cueDefaultIndexByData` returns for a combo box: the smallest index whose item data
is `userData`, or 0 when no item has that data; never a negative index, and an index of the
box when the box has an item. -/
theorem indexByData_spec (box : QComboBox) (userData : Int) :
    0 ≤ indexByData box userData ∧
    (0 < box.count → indexByData box userData < box.count) ∧
    (∀ i, 0 ≤ i → i < indexByData box userData →
      variantToInt (box.itemData i) ≠ userData) ∧
    (variantToInt (box.itemData (indexByData box userData)) = userData ∨
      (indexByData box userData = 0 ∧
        ∀ i, 0 ≤ i → i < box.count → variantToInt (box.itemData i) ≠ userData)) := by
  unfold indexByData
  cases hf : (loopIndices 0 box.count).find?
      (fun i => decide (variantToInt (box.itemData i) = userData)) with
  | none =>
    rw [List.find?_eq_none] at hf
    rw [Option.getD_none]
    refine ⟨le_refl _, fun h => h, ?_, Or.inr ⟨rfl, ?_⟩⟩
    · intro i h0 h1
      omega
    · intro i h0 h1
      simpa using hf i (mem_loopIndices_of_range h0 h1)
  | some r =>
    rw [Option.getD_some]
    obtain ⟨hp, as, bs, hl, has⟩ := List.find?_eq_some.mp hf
    have hr : r ∈ loopIndices 0 box.count := by
      rw [hl]; simp
    obtain ⟨r0, r1⟩ := mem_loopIndices hr
    refine ⟨r0, fun _ => r1, ?_, Or.inl (by simpa using hp)⟩
    intro i h0 h1
    have hi : i ∈ loopIndices 0 box.count := mem_loopIndices_of_range h0 (by omega)
    have hpw := loopIndices_pairwise 0 box.count
    rw [hl] at hi hpw
    rw [List.pairwise_append] at hpw
    obtain ⟨-, hpw2, -⟩ := hpw
    rw [List.pairwise_cons] at hpw2
    rcases List.mem_append.mp hi with ha | hb
    · simpa using has i ha
    · rcases List.mem_cons.mp hb with e | hb'
      · omega
      · have := hpw2.1 i hb'
        omega

theorem cueModeBox_of_empty (env : Env) (form : QComboBox) (h : form.items = []) :
    cueModeBox env form =
      { items := [toDouble env.Mixxx, toDouble env.MixxxNoBlinking, toDouble env.Pioneer,
          toDouble env.Denon, toDouble env.Numark, toDouble env.CueAndPlay],
        currentIndex := 0 } := by
  simp [cueModeBox, QComboBox.addItem, h]

theorem loopIndices_zero_six : loopIndices 0 6 = [0, 1, 2, 3, 4, 5] := by decide

/-- The item `cueDefaultIndexByData` picks in the box of the six cue modes: the one with
the data `d` when a mode has that data, the first one (Mixxx mode) otherwise. -/
theorem pickedCueMode_of_empty (env : Env) (form : QComboBox) (h : form.items = []) (d : Int) :
    variantToInt ((cueModeBox env form).itemData (indexByData (cueModeBox env form) d)) =
      if d ∈ cueModes env then d else env.Mixxx := by
  rw [cueModeBox_of_empty env form h]
  have hcount : QComboBox.count
      { items := [toDouble env.Mixxx, toDouble env.MixxxNoBlinking, toDouble env.Pioneer,
          toDouble env.Denon, toDouble env.Numark, toDouble env.CueAndPlay],
        currentIndex := 0 } = 6 := rfl
  unfold indexByData
  rw [hcount, loopIndices_zero_six]
  simp only [cueModes, List.mem_cons, List.mem_singleton, List.not_mem_nil, or_false]
  by_cases h0 : env.Mixxx = d
  · simp [QComboBox.itemData, variantToInt_toDouble, h0]
  · by_cases h1 : env.MixxxNoBlinking = d
    · simp [QComboBox.itemData, variantToInt_toDouble, h0, h1]
    · by_cases h2 : env.Pioneer = d
      · simp [QComboBox.itemData, variantToInt_toDouble, h0, h1, h2]
      · by_cases h3 : env.Denon = d
        · simp [QComboBox.itemData, variantToInt_toDouble, h0, h1, h2, h3]
        · by_cases h4 : env.Numark = d
          · simp [QComboBox.itemData, variantToInt_toDouble, h0, h1, h2, h3, h4]
          · by_cases h5 : env.CueAndPlay = d
            · simp [QComboBox.itemData, variantToInt_toDouble, h0, h1, h2, h3, h4, h5]
            · have g0 : ¬ d = env.Mixxx := fun e => h0 e.symm
              have g1 : ¬ d = env.MixxxNoBlinking := fun e => h1 e.symm
              have g2 : ¬ d = env.Pioneer := fun e => h2 e.symm
              have g3 : ¬ d = env.Denon := fun e => h3 e.symm
              have g4 : ¬ d = env.Numark := fun e => h4 e.symm
              have g5 : ¬ d = env.CueAndPlay := fun e => h5 e.symm
              simp [QComboBox.itemData, variantToInt_toDouble, h0, h1, h2, h3, h4, h5,
                g0, g1, g2, g3, g4, g5]

theorem toDouble_inj (a b : Int) : toDouble a = toDouble b ↔ a = b := by
  simp [toDouble]

/-- The pending cue mode of the constructed page when the form gives `ComboBoxCueMode` no
items: the stored mode when it is one of the six, Mixxx mode otherwise. -/
theorem pendingCueMode_of_empty (env : Env) (form : QComboBox) (h : form.items = []) (d : Int) :
    pendingCueMode env form d = if d ∈ cueModes env then d else env.Mixxx := by
  have hp := pickedCueMode_of_empty env form h d
  unfold pendingCueMode
  simp only [hp]
  rw [cueModeBox_of_empty env form h] at hp ⊢
  have hcount : QComboBox.count
      { items := [toDouble env.Mixxx, toDouble env.MixxxNoBlinking, toDouble env.Pioneer,
          toDouble env.Denon, toDouble env.Numark, toDouble env.CueAndPlay],
        currentIndex := 0 } = 6 := rfl
  unfold indexByData
  rw [hcount, loopIndices_zero_six]
  simp only [cueModes, List.mem_cons, List.mem_singleton, List.not_mem_nil, or_false,
    toInt_toDouble]
  by_cases h0 : env.Mixxx = d
  · simp [QComboBox.itemData, QComboBox.findData, QComboBox.findFrom, QComboBox.normIndex,
      QComboBox.count, variantToInt_toDouble, toDouble_inj, h0]
  · by_cases h1 : env.MixxxNoBlinking = d
    · simp [QComboBox.itemData, QComboBox.findData, QComboBox.findFrom, QComboBox.normIndex,
        QComboBox.count, variantToInt_toDouble, toDouble_inj, h0, h1]
    · by_cases h2 : env.Pioneer = d
      · simp [QComboBox.itemData, QComboBox.findData, QComboBox.findFrom, QComboBox.normIndex,
          QComboBox.count, variantToInt_toDouble, toDouble_inj, h0, h1, h2]
      · by_cases h3 : env.Denon = d
        · simp [QComboBox.itemData, QComboBox.findData, QComboBox.findFrom, QComboBox.normIndex,
            QComboBox.count, variantToInt_toDouble, toDouble_inj, h0, h1, h2, h3]
        · by_cases h4 : env.Numark = d
          · simp [QComboBox.itemData, QComboBox.findData, QComboBox.findFrom,
              QComboBox.normIndex, QComboBox.count, variantToInt_toDouble, toDouble_inj, h0, h1, h2,
              h3, h4]
          · by_cases h5 : env.CueAndPlay = d
            · simp [QComboBox.itemData, QComboBox.findData, QComboBox.findFrom,
                QComboBox.normIndex, QComboBox.count, variantToInt_toDouble, toDouble_inj, h0, h1,
                h2, h3, h4, h5]
            · have g0 : ¬ d = env.Mixxx := fun e => h0 e.symm
              have g1 : ¬ d = env.MixxxNoBlinking := fun e => h1 e.symm
              have g2 : ¬ d = env.Pioneer := fun e => h2 e.symm
              have g3 : ¬ d = env.Denon := fun e => h3 e.symm
              have g4 : ¬ d = env.Numark := fun e => h4 e.symm
              have g5 : ¬ d = env.CueAndPlay := fun e => h5 e.symm
              simp [QComboBox.itemData, QComboBox.findData, QComboBox.findFrom,
                QComboBox.normIndex, QComboBox.count, variantToInt_toDouble, toDouble_inj, h0, h1,
                h2, h3, h4, h5, g0, g1, g2, g3, g4, g5]

/-- The items of `ComboBoxCueMode` after the steps of `slotUpdate`. -/
theorem slotUpdateWith_cueItems (env : Env) (s : DlgPrefDeck) (v1 v2 v3 v4 v5 : ℚ) :
    (slotUpdateWith env s v1 v2 v3 v4 v5).ComboBoxCueMode.items = s.ComboBoxCueMode.items := by
  simp only [slotUpdateWith, updateRates, updateChecks, showRateDirection, showCueMode,
    slotSetTrackTimeDisplay_eq, showKeylockMode_eq, showKeyunlockMode_eq, showRampMode_eq,
    showRateRange_eq, updateAutoReset_eq,
    setIntroStartMove_eq, setDisallowLoadToPlayingDeck_eq, setCloneDeckOnLoadDoubleTap_eq,
    setInvertSpeedSlider_eq, setCueModeIndex_eq, setTemporaryRateCoarse_eq, setTemporaryRateFine_eq,
    setPermanentRateCoarse_eq, setPermanentRateFine_eq, setRateRampSensitivitySlider_eq]

/-- The items of `ComboBoxCueMode` on the constructed page: those of the form followed by
the six cue modes. -/
theorem construct_cueItems (env : Env) (s0 : DlgPrefDeck) (h : HasPlayer s0) :
    ∃ s, construct env s0 = some s ∧
      s.ComboBoxCueMode.items = (cueModeBox env s0.ComboBoxCueMode).items := by
  obtain ⟨s1, p1, t1, p2, t2, p3, t3, p4, t4, p5, t5, hs1, ho, hm, e1, e2, e3, e4, e5, hc⟩ :=
    construct_eq_heads env s0 h
  have b0 : s1.ComboBoxCueMode = s0.ComboBoxCueMode := by rw [ho]
  refine ⟨_, hc, ?_⟩
  rw [slotUpdateWith_cueItems, (constructStages_fields env s1 p2).2.1, b0]

theorem indexByData_congr {box box' : QComboBox} (h : box.items = box'.items) (userData : Int) :
    indexByData box userData = indexByData box' userData := by
  simp only [indexByData, QComboBox.count, QComboBox.itemData, h]

theorem itemData_congr {box box' : QComboBox} (h : box.items = box'.items) (i : Int) :
    box.itemData i = box'.itemData i := by
  simp only [QComboBox.itemData, h]

/-- C13. `cueDefaultIndexByData` returns, in every state and for every `userData`, the
smallest index whose item data is `userData`, and 0 when no item has that data.  On the page
the constructor builds (a deck or a sampler exists, the form gives `ComboBoxCueMode` no
items of its own) the result is a valid index of the box, whose first item is Mixxx mode;
`m_cueMode` and every cue mode mirror hold the stored `CueDefault`, as the constructor reads
it, when it is one of the six offered modes, and Mixxx mode otherwise. -/
theorem cue_mode_fallback (env : Env) (s0 : DlgPrefDeck) (h : HasPlayer s0)
    (hform : s0.ComboBoxCueMode.items = []) :
    (∀ (t : DlgPrefDeck) (userData : Int),
      PicksFirstMatch t.ComboBoxCueMode userData (cueDefaultIndexByData t userData)) ∧
    ∃ s, construct env s0 = some s ∧
      (∀ userData : Int, 0 ≤ cueDefaultIndexByData s userData ∧
        cueDefaultIndexByData s userData < s.ComboBoxCueMode.count) ∧
      s.ComboBoxCueMode.itemData 0 = some (toDouble env.Mixxx) ∧
      (getValueInt s0.m_pConfig (ck "CueDefault") 0 ∈ cueModes env →
        s.m_cueMode = getValueInt s0.m_pConfig (ck "CueDefault") 0 ∧
        ∀ p ∈ s.m_cueControls,
          s.controls p = toDouble (getValueInt s0.m_pConfig (ck "CueDefault") 0)) ∧
      (getValueInt s0.m_pConfig (ck "CueDefault") 0 ∉ cueModes env →
        s.m_cueMode = env.Mixxx ∧
        ∀ p ∈ s.m_cueControls, s.controls p = toDouble env.Mixxx) := by
  refine ⟨fun t userData => (indexByData_spec t.ComboBoxCueMode userData).2.2, ?_⟩
  obtain ⟨s, hs, -, -, -, -, hcue⟩ := construct_mirror_values env s0 h
  obtain ⟨s', hs', -, -, hc⟩ := construct_summary env s0 h
  have e : s' = s := Option.some.inj (hs'.symm.trans hs)
  subst e
  obtain ⟨s'', hs'', hitems⟩ := construct_cueItems env s0 h
  have e : s'' = s' := Option.some.inj (hs''.symm.trans hs)
  subst e
  rw [cueModeBox_of_empty env _ hform] at hitems
  have c1 := hc.1
  rw [pendingCueMode_of_empty env _ hform] at c1
  rw [pickedCueMode_of_empty env _ hform] at hcue
  have hcount : s''.ComboBoxCueMode.count = 6 := by
    simp [QComboBox.count, hitems]
  refine ⟨s'', hs, ?_, ?_, ?_, ?_⟩
  · intro userData
    obtain ⟨a, b, -⟩ := indexByData_spec s''.ComboBoxCueMode userData
    exact ⟨a, b (by rw [hcount]; decide)⟩
  · simp [QComboBox.itemData, hitems]
  · intro hd
    rw [if_pos hd] at c1 hcue
    exact ⟨c1, hcue⟩
  · intro hd
    rw [if_neg hd] at c1 hcue
    exact ⟨c1, hcue⟩

theorem cue_mode_fallback_witness :
    HasPlayer formPage ∧ formPage.ComboBoxCueMode.items = [] ∧
    ((∀ (t : DlgPrefDeck) (userData : Int),
      PicksFirstMatch t.ComboBoxCueMode userData (cueDefaultIndexByData t userData)) ∧
    ∃ s, construct sampleEnv formPage = some s ∧
      (∀ userData : Int, 0 ≤ cueDefaultIndexByData s userData ∧
        cueDefaultIndexByData s userData < s.ComboBoxCueMode.count) ∧
      s.ComboBoxCueMode.itemData 0 = some (toDouble sampleEnv.Mixxx) ∧
      (getValueInt formPage.m_pConfig (ck "CueDefault") 0 ∈ cueModes sampleEnv →
        s.m_cueMode = getValueInt formPage.m_pConfig (ck "CueDefault") 0 ∧
        ∀ p ∈ s.m_cueControls,
          s.controls p = toDouble (getValueInt formPage.m_pConfig (ck "CueDefault") 0)) ∧
      (getValueInt formPage.m_pConfig (ck "CueDefault") 0 ∉ cueModes sampleEnv →
        s.m_cueMode = sampleEnv.Mixxx ∧
        ∀ p ∈ s.m_cueControls, s.controls p = toDouble sampleEnv.Mixxx)) :=
  ⟨formPage_hasPlayer, rfl, cue_mode_fallback sampleEnv formPage formPage_hasPlayer rfl⟩

/-! ### The intro start option -/

/-- The entry `SetIntroStartAtMainCue` when the constructor reaches its final `slotUpdate`:
the stored boolean, or the default of lines 188-191 when the entry is absent. -/
theorem constructStages_introStart (env : Env) (s : DlgPrefDeck) (d : ConfigKey) :
    (constructStages env s d).m_pConfig (ck "SetIntroStartAtMainCue") =
      some (toDouble (boolToInt (getValueBool s.m_pConfig (ck "SetIntroStartAtMainCue")
        ((decide (getValueInt s.m_pConfig (ck "CueRecall") env.IntroStart = env.MainCue) ||
            !configExists s.m_pConfig (ck "CueRecall")) &&
          !(decide (variantToInt ((cueModeBox env s.ComboBoxCueMode).itemData
              (indexByData (cueModeBox env s.ComboBoxCueMode)
                (getValueInt s.m_pConfig (ck "CueDefault") 0))) = env.Denon) ||
            decide (variantToInt ((cueModeBox env s.ComboBoxCueMode).itemData
              (indexByData (cueModeBox env s.ComboBoxCueMode)
                (getValueInt s.m_pConfig (ck "CueDefault") 0))) = env.Numark)))))) := by
  have hcfg2 : ∀ (c : UserSettings) (v : ℚ),
      configSet c (ck "SetIntroStartAtMainCue") v (ck "SetIntroStartAtMainCue") = some v := by
    intro c v
    simp [configSet]
  simp only [constructStages, initLoad, initTimeFormat, initTrackTimeDisplay_eq,
    initCueMode_eq, applyRateDirection, initRateButtons_eq, initRamp_eq, initAutoReset,
    initKeylock, initRateRange_eq, hcfg2]

/-- The entry `SetIntroStartAtMainCue` of the constructed page. -/
theorem construct_introStart (env : Env) (s0 : DlgPrefDeck) (h : HasPlayer s0)
    (hform : s0.ComboBoxCueMode.items = []) :
    ∃ s, construct env s0 = some s ∧
      s.m_pConfig (ck "SetIntroStartAtMainCue") =
        some (toDouble (boolToInt (getValueBool s0.m_pConfig (ck "SetIntroStartAtMainCue")
          ((decide (s.m_seekOnLoadMode = env.MainCue) ||
              !configExists s0.m_pConfig (ck "CueRecall")) &&
            !(decide (s.m_cueMode = env.Denon) || decide (s.m_cueMode = env.Numark)))))) := by
  obtain ⟨s1, p1, t1, p2, t2, p3, t3, p4, t4, p5, t5, hs1, ho, hm, e1, e2, e3, e4, e5, hc⟩ :=
    construct_eq_heads env s0 h
  obtain ⟨s, hs, -, -, hcon⟩ := construct_summary env s0 h
  have c1 := hcon.1
  have c7 := hcon.2.2.2.2.2.2.1
  rw [pendingCueMode_of_empty env _ hform] at c1
  have c0 : s1.m_pConfig = s0.m_pConfig := by rw [ho]
  have b0 : s1.ComboBoxCueMode = s0.ComboBoxCueMode := by rw [ho]
  have hk : ck "SetIntroStartAtMainCue" ≠ ck "PositionDisplay" := ck_ne (by decide)
  have e : s = slotUpdateWith env (constructStages env s1 p2)
      ((constructStages env s1 p2).controls p1) ((constructStages env s1 p2).controls p2)
      ((constructStages env s1 p2).controls p3) ((constructStages env s1 p2).controls p4)
      ((constructStages env s1 p2).controls p5) := Option.some.inj (hs.symm.trans hc)
  refine ⟨s, hs, ?_⟩
  have hcfg : s.m_pConfig (ck "SetIntroStartAtMainCue") =
      (constructStages env s1 p2).m_pConfig (ck "SetIntroStartAtMainCue") := by
    rw [e, (slotUpdateWith_frame env _ _ _ _ _ _).2.2]
    simp [configSet, hk]
  rw [hcfg, constructStages_introStart, c0, b0, pickedCueMode_of_empty env _ hform, ← c1, ← c7]

/-- C14 as stated fails for a stored value that is not 0 or 1: with
`SetIntroStartAtMainCue = 5` stored, the constructor reads the entry as the boolean true and
writes that boolean back (lines 192-197), so the entry is 1 after construction, where the
statement has the stored value kept. -/
theorem stored_intro_start_is_normalised :
    storedFivePage.m_pConfig (ck "SetIntroStartAtMainCue") = some 5 ∧
    ∃ s, construct sampleEnv storedFivePage = some s ∧
      s.m_pConfig (ck "SetIntroStartAtMainCue") = some 1 ∧
      s.m_pConfig (ck "SetIntroStartAtMainCue") ≠
        storedFivePage.m_pConfig (ck "SetIntroStartAtMainCue") := by
  have h5 : storedFivePage.m_pConfig (ck "SetIntroStartAtMainCue") = some 5 := by
    simp [storedFivePage]
  obtain ⟨s, hs, hv⟩ := construct_introStart sampleEnv storedFivePage formPage_hasPlayer rfl
  have a5 : asInt (5 : ℚ) = some 5 := by simp [asInt]
  have h1 : s.m_pConfig (ck "SetIntroStartAtMainCue") = some 1 := by
    rw [hv]
    simp [getValueBool, h5, a5, boolToInt, toDouble]
  refine ⟨h5, s, hs, h1, ?_⟩
  rw [h1, h5]
  norm_num

/-- C14 (as amended). After construction (a deck or a sampler exists, the form gives
`ComboBoxCueMode` no items) the settings hold `[Controls],SetIntroStartAtMainCue` as 0 or 1.
A stored 0 or 1 is kept, and any other stored whole number is written back as the boolean
it reads as.  When the entry was absent, or stored but not a whole number, it is true
exactly if the load point is `MainCue` or `CueRecall` was absent, and the cue mode is
neither Denon nor Numark; so with Denon or Numark such an entry is written as false. -/
theorem intro_start_written_back (env : Env) (s0 : DlgPrefDeck) (h : HasPlayer s0)
    (hform : s0.ComboBoxCueMode.items = []) :
    ∃ s, construct env s0 = some s ∧
      (∃ b : Bool, s.m_pConfig (ck "SetIntroStartAtMainCue") = some (toDouble (boolToInt b))) ∧
      (∀ b : Bool, s0.m_pConfig (ck "SetIntroStartAtMainCue") = some (toDouble (boolToInt b)) →
        s.m_pConfig (ck "SetIntroStartAtMainCue") = some (toDouble (boolToInt b))) ∧
      (∀ (v : ℚ) (i : Int), s0.m_pConfig (ck "SetIntroStartAtMainCue") = some v →
        asInt v = some i →
        s.m_pConfig (ck "SetIntroStartAtMainCue") = some (toDouble (boolToInt (decide (i ≠ 0))))) ∧
      (s0.m_pConfig (ck "SetIntroStartAtMainCue") = none ∨
          (∃ v, s0.m_pConfig (ck "SetIntroStartAtMainCue") = some v ∧ asInt v = none) →
        s.m_pConfig (ck "SetIntroStartAtMainCue") =
          some (toDouble (boolToInt (decide
            ((s.m_seekOnLoadMode = env.MainCue ∨ s0.m_pConfig (ck "CueRecall") = none) ∧
              ¬ (s.m_cueMode = env.Denon ∨ s.m_cueMode = env.Numark))))) ∧
        ((s.m_cueMode = env.Denon ∨ s.m_cueMode = env.Numark) →
          s.m_pConfig (ck "SetIntroStartAtMainCue") = some 0)) := by
  obtain ⟨s, hs, hv⟩ := construct_introStart env s0 h hform
  refine ⟨s, hs, ⟨_, hv⟩, ?_, ?_, ?_⟩
  · intro b hb
    rw [hv]
    cases b <;> simp [getValueBool, hb, asInt, toDouble, boolToInt]
  · intro v i h1 h2
    rw [hv]
    simp [getValueBool, h1, h2]
  · intro hn
    have hd : getValueBool s0.m_pConfig (ck "SetIntroStartAtMainCue")
        ((decide (s.m_seekOnLoadMode = env.MainCue) ||
            !configExists s0.m_pConfig (ck "CueRecall")) &&
          !(decide (s.m_cueMode = env.Denon) || decide (s.m_cueMode = env.Numark))) =
        decide ((s.m_seekOnLoadMode = env.MainCue ∨ s0.m_pConfig (ck "CueRecall") = none) ∧
          ¬ (s.m_cueMode = env.Denon ∨ s.m_cueMode = env.Numark)) := by
      rcases hn with hn | ⟨v, hv1, hv2⟩
      · simp only [getValueBool, hn, configExists]
        cases hr : s0.m_pConfig (ck "CueRecall") <;> simp
      · simp only [getValueBool, hv1, hv2, configExists, Option.map_none', Option.getD_none]
        cases hr : s0.m_pConfig (ck "CueRecall") <;> simp
    rw [hv, hd]
    refine ⟨rfl, ?_⟩
    intro hdn
    simp [hdn, boolToInt, toDouble]

theorem denonPage_cueMode {s : DlgPrefDeck} (h : construct sampleEnv denonPage = some s) :
    s.m_cueMode = sampleEnv.Denon := by
  obtain ⟨s', hs', -, -, hc⟩ := construct_summary sampleEnv denonPage formPage_hasPlayer
  have e : s' = s := Option.some.inj (hs'.symm.trans h)
  subst e
  have c1 := hc.1
  have a2 : asInt (2 : ℚ) = some 2 := by simp [asInt]
  have hd : getValueInt denonPage.m_pConfig (ck "CueDefault") 0 = 2 := by
    simp [getValueInt, denonPage, a2]
  rw [pendingCueMode_of_empty sampleEnv _ rfl, hd] at c1
  rw [c1]
  decide

theorem intro_start_written_back_witness :
    HasPlayer denonPage ∧ denonPage.ComboBoxCueMode.items = [] ∧
    ∃ s, construct sampleEnv denonPage = some s ∧ s.m_cueMode = sampleEnv.Denon ∧
      denonPage.m_pConfig (ck "SetIntroStartAtMainCue") = none ∧
      s.m_pConfig (ck "SetIntroStartAtMainCue") = some 0 ∧
      (∃ b : Bool, s.m_pConfig (ck "SetIntroStartAtMainCue") = some (toDouble (boolToInt b))) ∧
      (∀ b : Bool,
        denonPage.m_pConfig (ck "SetIntroStartAtMainCue") = some (toDouble (boolToInt b)) →
        s.m_pConfig (ck "SetIntroStartAtMainCue") = some (toDouble (boolToInt b))) ∧
      (∀ (v : ℚ) (i : Int), denonPage.m_pConfig (ck "SetIntroStartAtMainCue") = some v →
        asInt v = some i →
        s.m_pConfig (ck "SetIntroStartAtMainCue") = some (toDouble (boolToInt (decide (i ≠ 0))))) ∧
      (denonPage.m_pConfig (ck "SetIntroStartAtMainCue") = none ∨
          (∃ v, denonPage.m_pConfig (ck "SetIntroStartAtMainCue") = some v ∧ asInt v = none) →
        s.m_pConfig (ck "SetIntroStartAtMainCue") =
          some (toDouble (boolToInt (decide
            ((s.m_seekOnLoadMode = sampleEnv.MainCue ∨
                denonPage.m_pConfig (ck "CueRecall") = none) ∧
              ¬ (s.m_cueMode = sampleEnv.Denon ∨ s.m_cueMode = sampleEnv.Numark))))) ∧
        ((s.m_cueMode = sampleEnv.Denon ∨ s.m_cueMode = sampleEnv.Numark) →
          s.m_pConfig (ck "SetIntroStartAtMainCue") = some 0)) := by
  have habs : denonPage.m_pConfig (ck "SetIntroStartAtMainCue") = none := by
    have k : ck "SetIntroStartAtMainCue" ≠ ck "CueDefault" := ck_ne (by decide)
    simp [denonPage, k]
  obtain ⟨s, hs, a, b, c, d⟩ :=
    intro_start_written_back sampleEnv denonPage formPage_hasPlayer rfl
  have hm := denonPage_cueMode hs
  exact ⟨formPage_hasPlayer, rfl, s, hs, hm, habs, (d (Or.inl habs)).2 (Or.inl hm), a, b, c, d⟩

/-! ### The range of the rate range -/

/-- The display mode the constructor shows for a stored `PositionDisplay`. -/
theorem shownDisplayMode_stored (env : Env) (c : UserSettings) (v : ℚ)
    (hv : c (ck "PositionDisplay") = some v) :
    ∃ m : Int, shownDisplayMode env c = toDouble m ∧
      (m = env.REMAINING ∨ m = env.ELAPSED_AND_REMAINING ∨ m = env.ELAPSED) ∧
      (v = toDouble env.REMAINING → m = env.REMAINING) ∧
      (v = toDouble env.ELAPSED_AND_REMAINING → m = env.ELAPSED_AND_REMAINING) ∧
      (v ≠ toDouble env.REMAINING → v ≠ toDouble env.ELAPSED_AND_REMAINING → m = env.ELAPSED) := by
  unfold shownDisplayMode
  simp only [getValueDouble, hv, Option.getD_some]
  by_cases h1 : v = toDouble env.REMAINING
  · refine ⟨env.REMAINING, by rw [if_pos h1], Or.inl rfl, fun _ => rfl, ?_, fun hn => absurd h1 hn⟩
    intro h2
    exact ((toDouble_inj _ _).mp (h1.symm.trans h2))
  · by_cases h2 : v = toDouble env.ELAPSED_AND_REMAINING
    · exact ⟨env.ELAPSED_AND_REMAINING, by rw [if_neg h1, if_pos h2], Or.inr (Or.inl rfl),
        fun h => absurd h h1, fun _ => rfl, fun _ hn => absurd h2 hn⟩
    · exact ⟨env.ELAPSED, by rw [if_neg h1, if_neg h2], Or.inr (Or.inr rfl),
        fun h => absurd h h1, fun h => absurd h h2, fun _ _ => rfl⟩

/-- C16. For every stored value `v` of `[Controls],PositionDisplay` (a deck or a sampler
existing), the constructed page holds one display mode `m` in the control
`ShowDurationRemaining`, in the pending `m_timeDisplayMode` and in the `PositionDisplay`
entry that `slotUpdate` writes back; `m` is one of the three modes: `REMAINING` or
`ELAPSED_AND_REMAINING` when `v` is exactly that mode, `ELAPSED` for every other `v`. -/
theorem display_mode_normalised (env : Env) (s0 : DlgPrefDeck) (h : HasPlayer s0) (v : ℚ)
    (hv : s0.m_pConfig (ck "PositionDisplay") = some v) :
    ∃ s m, construct env s0 = some s ∧
      s.controls (ck "ShowDurationRemaining") = toDouble m ∧
      s.m_timeDisplayMode = m ∧
      s.m_pConfig (ck "PositionDisplay") = some (toDouble m) ∧
      (m = env.REMAINING ∨ m = env.ELAPSED_AND_REMAINING ∨ m = env.ELAPSED) ∧
      (v = toDouble env.REMAINING → m = env.REMAINING) ∧
      (v = toDouble env.ELAPSED_AND_REMAINING → m = env.ELAPSED_AND_REMAINING) ∧
      (v ≠ toDouble env.REMAINING → v ≠ toDouble env.ELAPSED_AND_REMAINING → m = env.ELAPSED) := by
  obtain ⟨s, hs, -, -, hc⟩ := construct_summary env s0 h
  obtain ⟨-, c2, c3, c4, -⟩ := hc
  obtain ⟨m, hm, a, b, c, d⟩ := shownDisplayMode_stored env s0.m_pConfig v hv
  rw [hm] at c2 c3 c4
  rw [toInt_toDouble] at c2
  exact ⟨s, m, hs, c3, c2, c4, a, b, c, d⟩

theorem display_mode_normalised_witness :
    HasPlayer storedPage ∧ storedPage.m_pConfig (ck "PositionDisplay") = some 2 ∧
    ∃ s m, construct sampleEnv storedPage = some s ∧
      s.controls (ck "ShowDurationRemaining") = toDouble m ∧
      s.m_timeDisplayMode = m ∧
      s.m_pConfig (ck "PositionDisplay") = some (toDouble m) ∧
      (m = sampleEnv.REMAINING ∨ m = sampleEnv.ELAPSED_AND_REMAINING ∨ m = sampleEnv.ELAPSED) ∧
      ((2 : ℚ) = toDouble sampleEnv.REMAINING → m = sampleEnv.REMAINING) ∧
      ((2 : ℚ) = toDouble sampleEnv.ELAPSED_AND_REMAINING → m = sampleEnv.ELAPSED_AND_REMAINING) ∧
      ((2 : ℚ) ≠ toDouble sampleEnv.REMAINING → (2 : ℚ) ≠ toDouble sampleEnv.ELAPSED_AND_REMAINING →
        m = sampleEnv.ELAPSED) :=
  ⟨formPage_hasPlayer, by simp [storedPage, storedSettings, ck, controlsGroup, List.lookup],
    display_mode_normalised sampleEnv storedPage formPage_hasPlayer 2
      (by simp [storedPage, storedSettings, ck, controlsGroup, List.lookup])⟩

/-! ### The auto-reset code -/

theorem asInt_toDouble (n : Int) : asInt (toDouble n) = some n := by
  simp [asInt, toDouble]

theorem getValueInt_stored {c : UserSettings} {k : ConfigKey} {n : Int} (dflt : Int)
    (h : c k = some (toDouble n)) : getValueInt c k dflt = n := by
  simp [getValueInt, h, asInt_toDouble]

/-- The constructor's decoding (lines 306-309) of the code that `slotApply` computes
(lines 706-714). -/
theorem constructor_decodes (env : Env) (hd : AutoResetCodesDistinct env) (s : DlgPrefDeck) :
    (decide (autoResetCode env s = env.RESET_SPEED) ||
      decide (autoResetCode env s = env.RESET_PITCH_AND_SPEED)) = s.m_speedAutoReset ∧
    (decide (autoResetCode env s = env.RESET_PITCH) ||
      decide (autoResetCode env s = env.RESET_PITCH_AND_SPEED)) = s.m_pitchAutoReset := by
  obtain ⟨d1, d2, d3, d4, d5, d6⟩ := hd
  unfold autoResetCode
  cases s.m_speedAutoReset <;> cases s.m_pitchAutoReset <;>
    simp [d1, d2, d3, d4, d5, d6, Ne.symm d4, Ne.symm d5, Ne.symm d6]

/-- The decoding of `slotUpdate` (lines 472-486) of the code that `slotApply` computes. -/
theorem slotUpdate_decodes (env : Env) (hd : AutoResetCodesDistinct env) (s : DlgPrefDeck)
    (old : Bool) :
    shownResetSpeed env (autoResetCode env s) old = s.m_speedAutoReset ∧
    shownResetPitch env (autoResetCode env s) old = s.m_pitchAutoReset := by
  obtain ⟨d1, d2, d3, d4, d5, d6⟩ := hd
  unfold autoResetCode shownResetSpeed shownResetPitch
  cases s.m_speedAutoReset <;> cases s.m_pitchAutoReset <;>
    simp [d1, d2, d3, d4, d5, d6, Ne.symm d4, Ne.symm d5, Ne.symm d6]

/-- The two decodings agree on the four codes. -/
theorem decodings_agree (env : Env) (hd : AutoResetCodesDistinct env) (code : Int)
    (hc : code = env.RESET_NONE ∨ code = env.RESET_PITCH ∨ code = env.RESET_SPEED ∨
      code = env.RESET_PITCH_AND_SPEED) (old old' : Bool) :
    (decide (code = env.RESET_SPEED) || decide (code = env.RESET_PITCH_AND_SPEED)) =
      shownResetSpeed env code old ∧
    (decide (code = env.RESET_PITCH) || decide (code = env.RESET_PITCH_AND_SPEED)) =
      shownResetPitch env code old' := by
  obtain ⟨d1, d2, d3, d4, d5, d6⟩ := hd
  unfold shownResetSpeed shownResetPitch
  rcases hc with e | e | e | e <;> subst e <;>
    simp [d1, d2, d3, d4, d5, d6, Ne.symm d4, Ne.symm d5, Ne.symm d6]

/-- The code that `slotApply` stores. -/
theorem applyStages_autoReset (env : Env) (s : DlgPrefDeck) (d : ConfigKey) (b : Bool) :
    (applyTail env (applyRateDirection (applyHead s) d b)).m_pConfig (ck "SpeedAutoReset") =
      some (toDouble (autoResetCode env s)) := by
  simp [applyTail, applyRateDirection, applyHead, setRateRangeForAllDecks, configSet, ck,
    autoResetCode]

/-- The two reset check boxes after the steps of `slotUpdate`. -/
theorem slotUpdateWith_resetBoxes (env : Env) (s : DlgPrefDeck) (v1 v2 v3 v4 v5 : ℚ) :
    (slotUpdateWith env s v1 v2 v3 v4 v5).checkBoxResetSpeed =
      shownResetSpeed env (getValueInt s.m_pConfig (ck "SpeedAutoReset") env.RESET_PITCH)
        s.checkBoxResetSpeed ∧
    (slotUpdateWith env s v1 v2 v3 v4 v5).checkBoxResetPitch =
      shownResetPitch env (getValueInt s.m_pConfig (ck "SpeedAutoReset") env.RESET_PITCH)
        s.checkBoxResetPitch := by
  have k3 : ck "SpeedAutoReset" ≠ ck "PositionDisplay" := ck_ne (by decide)
  simp only [slotUpdateWith, updateRates, updateChecks, showRateDirection, showCueMode,
    slotSetTrackTimeDisplay_eq, showKeylockMode_eq, showKeyunlockMode_eq, showRampMode_eq,
    showRateRange_eq, updateAutoReset_eq,
    setIntroStartMove_eq, setDisallowLoadToPlayingDeck_eq, setCloneDeckOnLoadDoubleTap_eq,
    setInvertSpeedSlider_eq, setCueModeIndex_eq, setTemporaryRateCoarse_eq, setTemporaryRateFine_eq,
    setPermanentRateCoarse_eq, setPermanentRateFine_eq, setRateRampSensitivitySlider_eq,
    getValueInt_configSet_ne _ _ _ k3, and_self]

theorem getValueInt_congr {c c' : UserSettings} {k : ConfigKey} (h : c' k = c k) (dflt : Int) :
    getValueInt c' k dflt = getValueInt c k dflt := by
  simp only [getValueInt, h]

/-- C17. Provided the four auto-reset codes are pairwise distinct, the code round-trips.  On a
page `s` with mirrors, `slotApply` stores the code of the pending pair
`(m_speedAutoReset, m_pitchAutoReset)` in `SpeedAutoReset`, and `slotUpdate` on the page so
applied sets the two check boxes to that pair; the constructor, run on a form `s0` (a deck
or a sampler existing) whose settings hold the stored code, decodes it into the same two
members and shows the same check boxes.  On each of the four codes the decoding of the
constructor and that of `slotUpdate` leave the same check boxes. -/
theorem auto_reset_round_trip (env : Env) (hd : AutoResetCodesDistinct env) (s : DlgPrefDeck)
    (hm : HasMirrors s) (s0 : DlgPrefDeck) (hp : HasPlayer s0)
    (hcfg : s0.m_pConfig (ck "SpeedAutoReset") = some (toDouble (autoResetCode env s))) :
    (∃ s', slotApply env s = some s' ∧
      s'.m_pConfig (ck "SpeedAutoReset") = some (toDouble (autoResetCode env s)) ∧
      ∃ u, slotUpdate env s' = some u ∧ u.checkBoxResetSpeed = s.m_speedAutoReset ∧
        u.checkBoxResetPitch = s.m_pitchAutoReset) ∧
    (∃ t, construct env s0 = some t ∧
      t.m_speedAutoReset = s.m_speedAutoReset ∧ t.m_pitchAutoReset = s.m_pitchAutoReset ∧
      t.checkBoxResetSpeed = s.m_speedAutoReset ∧ t.checkBoxResetPitch = s.m_pitchAutoReset) ∧
    ∀ x : DlgPrefDeck,
      (getValueInt x.m_pConfig (ck "SpeedAutoReset") env.RESET_PITCH = env.RESET_NONE ∨
        getValueInt x.m_pConfig (ck "SpeedAutoReset") env.RESET_PITCH = env.RESET_PITCH ∨
        getValueInt x.m_pConfig (ck "SpeedAutoReset") env.RESET_PITCH = env.RESET_SPEED ∨
        getValueInt x.m_pConfig (ck "SpeedAutoReset") env.RESET_PITCH =
          env.RESET_PITCH_AND_SPEED) →
      (initAutoReset env x).checkBoxResetSpeed = (updateAutoReset env x).checkBoxResetSpeed ∧
      (initAutoReset env x).checkBoxResetPitch = (updateAutoReset env x).checkBoxResetPitch := by
  refine ⟨?_, ?_, ?_⟩
  · obtain ⟨-, h1, h2, h3, h4, h5⟩ := hm
    obtain ⟨p1, t1, e1⟩ := List.exists_cons_of_ne_nil h1
    obtain ⟨p2, t2, e2⟩ := List.exists_cons_of_ne_nil h2
    obtain ⟨p3, t3, e3⟩ := List.exists_cons_of_ne_nil h3
    obtain ⟨p4, t4, e4⟩ := List.exists_cons_of_ne_nil h4
    obtain ⟨p5, t5, e5⟩ := List.exists_cons_of_ne_nil h5
    have hstore := applyStages_autoReset env s p2 s.m_bRateDownIncreasesSpeed
    obtain ⟨-, m1, m2, m3, m4, m5⟩ :=
      (applyStages_confined env s p2 s.m_bRateDownIncreasesSpeed).2.2.2.1
    refine ⟨_, slotApply_eq e2, hstore, _, slotUpdate_eq env _ (m1.trans e1) (m2.trans e2)
      (m3.trans e3) (m4.trans e4) (m5.trans e5), ?_⟩
    obtain ⟨a, b⟩ := slotUpdateWith_resetBoxes env
      (applyTail env (applyRateDirection (applyHead s) p2 s.m_bRateDownIncreasesSpeed))
      ((applyTail env (applyRateDirection (applyHead s) p2
        s.m_bRateDownIncreasesSpeed)).controls p1)
      ((applyTail env (applyRateDirection (applyHead s) p2
        s.m_bRateDownIncreasesSpeed)).controls p2)
      ((applyTail env (applyRateDirection (applyHead s) p2
        s.m_bRateDownIncreasesSpeed)).controls p3)
      ((applyTail env (applyRateDirection (applyHead s) p2
        s.m_bRateDownIncreasesSpeed)).controls p4)
      ((applyTail env (applyRateDirection (applyHead s) p2
        s.m_bRateDownIncreasesSpeed)).controls p5)
    rw [getValueInt_stored _ hstore] at a b
    rw [a, b]
    exact ⟨(slotUpdate_decodes env hd s _).1, (slotUpdate_decodes env hd s _).2⟩
  · obtain ⟨s1, q1, u1, q2, u2, q3, u3, q4, u4, q5, u5, hs1, ho, hmi, f1, f2, f3, f4, f5, hc⟩ :=
      construct_eq_heads env s0 hp
    obtain ⟨t, ht, -, -, hcon⟩ := construct_summary env s0 hp
    obtain ⟨-, -, -, -, -, -, -, -, -, -, -, -, -, c14, c15, -⟩ := hcon
    rw [getValueInt_stored _ hcfg] at c14 c15
    have c0 : s1.m_pConfig = s0.m_pConfig := by rw [ho]
    have e : t = slotUpdateWith env (constructStages env s1 q2)
        ((constructStages env s1 q2).controls q1) ((constructStages env s1 q2).controls q2)
        ((constructStages env s1 q2).controls q3) ((constructStages env s1 q2).controls q4)
        ((constructStages env s1 q2).controls q5) := Option.some.inj (ht.symm.trans hc)
    obtain ⟨a, b⟩ := slotUpdateWith_resetBoxes env (constructStages env s1 q2)
      ((constructStages env s1 q2).controls q1) ((constructStages env s1 q2).controls q2)
      ((constructStages env s1 q2).controls q3) ((constructStages env s1 q2).controls q4)
      ((constructStages env s1 q2).controls q5)
    rw [← e] at a b
    have g9 := (constructStages_fields2 env s1 q2).2.2.2.2.2.2.2.2.1 "SpeedAutoReset"
      (by decide)
    rw [c0] at g9
    rw [getValueInt_congr g9, getValueInt_stored _ hcfg] at a b
    refine ⟨t, ht, ?_, ?_, ?_, ?_⟩
    · rw [c15]; exact (slotUpdate_decodes env hd s _).1
    · rw [c14]; exact (slotUpdate_decodes env hd s _).2
    · rw [a]; exact (slotUpdate_decodes env hd s _).1
    · rw [b]; exact (slotUpdate_decodes env hd s _).2
  · intro x hx
    obtain ⟨a, b⟩ := decodings_agree env hd
      (getValueInt x.m_pConfig (ck "SpeedAutoReset") env.RESET_PITCH) hx
      x.checkBoxResetSpeed x.checkBoxResetPitch
    rw [updateAutoReset_eq]
    simp only [initAutoReset]
    exact ⟨a, b⟩

theorem sampleEnv_codesDistinct : AutoResetCodesDistinct sampleEnv := by
  unfold AutoResetCodesDistinct
  decide

theorem speedResetPage_hasMirrors : HasMirrors speedResetPage := by
  simp [HasMirrors, speedResetPage, oneDeckPage]

theorem speedResetForm_stored :
    speedResetForm.m_pConfig (ck "SpeedAutoReset") =
      some (toDouble (autoResetCode sampleEnv speedResetPage)) := by
  simp [speedResetForm, autoResetCode, speedResetPage, oneDeckPage, formPage, sampleEnv, toDouble]

theorem auto_reset_round_trip_witness :
    AutoResetCodesDistinct sampleEnv ∧ HasMirrors speedResetPage ∧ HasPlayer speedResetForm ∧
    speedResetForm.m_pConfig (ck "SpeedAutoReset") =
      some (toDouble (autoResetCode sampleEnv speedResetPage)) ∧
    ((∃ s', slotApply sampleEnv speedResetPage = some s' ∧
      s'.m_pConfig (ck "SpeedAutoReset") =
        some (toDouble (autoResetCode sampleEnv speedResetPage)) ∧
      ∃ u, slotUpdate sampleEnv s' = some u ∧
        u.checkBoxResetSpeed = speedResetPage.m_speedAutoReset ∧
        u.checkBoxResetPitch = speedResetPage.m_pitchAutoReset) ∧
    (∃ t, construct sampleEnv speedResetForm = some t ∧
      t.m_speedAutoReset = speedResetPage.m_speedAutoReset ∧
      t.m_pitchAutoReset = speedResetPage.m_pitchAutoReset ∧
      t.checkBoxResetSpeed = speedResetPage.m_speedAutoReset ∧
      t.checkBoxResetPitch = speedResetPage.m_pitchAutoReset) ∧
    ∀ x : DlgPrefDeck,
      (getValueInt x.m_pConfig (ck "SpeedAutoReset") sampleEnv.RESET_PITCH =
          sampleEnv.RESET_NONE ∨
        getValueInt x.m_pConfig (ck "SpeedAutoReset") sampleEnv.RESET_PITCH =
          sampleEnv.RESET_PITCH ∨
        getValueInt x.m_pConfig (ck "SpeedAutoReset") sampleEnv.RESET_PITCH =
          sampleEnv.RESET_SPEED ∨
        getValueInt x.m_pConfig (ck "SpeedAutoReset") sampleEnv.RESET_PITCH =
          sampleEnv.RESET_PITCH_AND_SPEED) →
      (initAutoReset sampleEnv x).checkBoxResetSpeed =
        (updateAutoReset sampleEnv x).checkBoxResetSpeed ∧
      (initAutoReset sampleEnv x).checkBoxResetPitch =
        (updateAutoReset sampleEnv x).checkBoxResetPitch) :=
  ⟨sampleEnv_codesDistinct, speedResetPage_hasMirrors, formPage_hasPlayer, speedResetForm_stored,
    auto_reset_round_trip sampleEnv sampleEnv_codesDistinct speedResetPage
      speedResetPage_hasMirrors speedResetForm formPage_hasPlayer speedResetForm_stored⟩

end DlgPrefDeck

/-! ### The accumulation state of the PortMidi adapter -/

namespace PortMidiController

theorem wellFormed_initial : WellFormed initial :=
  ⟨fun _ => rfl, Nat.zero_le _, List.length_replicate _ _⟩

theorem wellFormed_resetSysex {c : State} (h : WellFormed c) : WellFormed (resetSysex c) := by
  obtain ⟨-, -, h3⟩ := h
  exact ⟨fun _ => rfl, Nat.zero_le _, h3⟩

/-- Appending a byte inside a message keeps the state well formed: the byte is written below
the capacity, or the message is dropped. -/
theorem wellFormed_appendByte {c : State} (h : WellFormed c) (hin : c.m_bInSysex = true)
    (byte : Nat) : WellFormed (appendByte c byte) := by
  obtain ⟨-, h2, h3⟩ := h
  unfold appendByte
  by_cases hlt : c.m_cReceiveMsg_index < receiveMsgSize
  · rw [if_pos hlt]
    refine ⟨?_, ?_, ?_⟩
    · intro hf
      simp [hin] at hf
    · exact hlt
    · simpa using h3
  · rw [if_neg hlt]
    exact wellFormed_resetSysex ⟨fun hf => by simp [hin] at hf, h2, h3⟩

theorem wellFormed_receive {c : State} (h : WellFormed c) (e : MidiEvent) :
    WellFormed (receive c e) := by
  cases e with
  | short s d1 d2 =>
    simp only [receive]
    split
    · exact h
    · exact h
  | sysexStart =>
    simp only [receive]
    by_cases hin : c.m_bInSysex = true
    · rw [if_pos hin]; exact h
    · rw [if_neg hin]
      have h0 : WellFormed { c with m_bInSysex := true, m_cReceiveMsg_index := 0 } :=
        ⟨fun _ => rfl, Nat.zero_le _, h.2.2⟩
      exact wellFormed_appendByte h0 rfl 240
  | sysexData b =>
    simp only [receive]
    by_cases hin : c.m_bInSysex = true
    · rw [if_pos hin]; exact wellFormed_appendByte h hin b
    · rw [if_neg hin]; exact h
  | sysexEnd =>
    simp only [receive]
    by_cases hin : c.m_bInSysex = true
    · rw [if_pos hin]
      have h1 := wellFormed_appendByte h hin 247
      split
      · exact wellFormed_resetSysex ⟨h1.1, h1.2.1, h1.2.2⟩
      · exact h1
    · rw [if_neg hin]; exact h
  | interrupted s d1 d2 =>
    simp only [receive]
    exact ⟨fun _ => rfl, Nat.zero_le _, h.2.2⟩

theorem wellFormed_of_reachable {c : State} (h : Reachable c) : WellFormed c := by
  induction h with
  | init => exact wellFormed_initial
  | step c e _ ih => exact wellFormed_receive ih e

theorem reachable_foldl {c : State} (h : Reachable c) (es : List MidiEvent) :
    Reachable (es.foldl receive c) := by
  induction es generalizing c with
  | nil => exact h
  | cons e es ih => exact ih (Reachable.step c e h)

/-- The end marker leaves no message in progress and the write index at 0. -/
theorem receive_sysexEnd {c : State} (h : WellFormed c) :
    (receive c MidiEvent.sysexEnd).m_cReceiveMsg_index = 0 ∧
    (receive c MidiEvent.sysexEnd).m_bInSysex = false := by
  simp only [receive]
  by_cases hin : c.m_bInSysex = true
  · rw [if_pos hin]
    by_cases hout : (appendByte c 247).m_bInSysex = true
    · rw [if_pos hout]
      exact ⟨rfl, rfl⟩
    · rw [if_neg hout]
      have hf : (appendByte c 247).m_bInSysex = false := by simpa using hout
      exact ⟨(wellFormed_appendByte h hin 247).1 hf, hf⟩
  · rw [if_neg hin]
    have hf : c.m_bInSysex = false := by simpa using hin
    exact ⟨h.1 hf, hf⟩

/-- C9. The accumulation state of the adapter is well formed in every reachable state: the
write index `m_cReceiveMsg_index` is 0 whenever `m_bInSysex` is clear and never exceeds the
1024 bytes of `m_cReceiveMsg`; a single poll takes at most `MIXXX_PORTMIDI_BUFFER_LEN`
events and leads to a reachable, well-formed state; and on the completion of a message or
on an error the index is 0 and the flag is clear. -/
theorem sysex_state_well_formed (c : State) (h : Reachable c) (queue : List MidiEvent)
    (status data1 data2 : Nat) :
    WellFormed c ∧
    (polled queue).length ≤ MIXXX_PORTMIDI_BUFFER_LEN ∧
    (polled queue).length + (poll c queue).2.length = queue.length ∧
    Reachable (poll c queue).1 ∧ WellFormed (poll c queue).1 ∧
    (receive c MidiEvent.sysexEnd).m_cReceiveMsg_index = 0 ∧
    (receive c MidiEvent.sysexEnd).m_bInSysex = false ∧
    (receive c (MidiEvent.interrupted status data1 data2)).m_cReceiveMsg_index = 0 ∧
    (receive c (MidiEvent.interrupted status data1 data2)).m_bInSysex = false := by
  have hw := wellFormed_of_reachable h
  have hr := reachable_foldl h (polled queue)
  obtain ⟨e1, e2⟩ := receive_sysexEnd hw
  refine ⟨hw, ?_, ?_, hr, wellFormed_of_reachable hr, e1, e2, rfl, rfl⟩
  · simp [polled]
  · simp only [polled, poll, List.length_take, List.length_drop]
    omega

/-- C9 at the state in which a system-exclusive message has started, polling a queue that
continues and ends the message. -/
theorem sysex_state_well_formed_witness :
    Reachable (receive initial MidiEvent.sysexStart) ∧
    WellFormed (receive initial MidiEvent.sysexStart) ∧
    (polled [MidiEvent.sysexData 1, MidiEvent.sysexEnd]).length ≤ MIXXX_PORTMIDI_BUFFER_LEN ∧
    (receive (receive initial MidiEvent.sysexStart) MidiEvent.sysexEnd).m_cReceiveMsg_index
      = 0 :=
  have h := sysex_state_well_formed (receive initial MidiEvent.sysexStart)
    (Reachable.step initial MidiEvent.sysexStart Reachable.init)
    [MidiEvent.sysexData 1, MidiEvent.sysexEnd] 144 60 100
  ⟨Reachable.step initial MidiEvent.sysexStart Reachable.init, h.1, h.2.1, h.2.2.2.2.2.1⟩

end PortMidiController

end Mixxx
